import Mathlib

/-! KStars INDI CCD device layer (`kstars/indi/indiccd.cpp`)

A shallow embedding of the camera control layer: the chip abstraction
(`ISD::CCDChip`), the device controller (`ISD::CCD`) and the blob dispatcher.

Modelling conventions

* A C `double` in the property store is a rational number (`ℚ`): finite values
  with exact arithmetic.  Not-a-number and infinities are outside the store;
  `resetFrame`, whose result depends on them, is also given over IEEE doubles
  (`Double`, `IEEEFrames.resetFrame`).  The literals `1e6` and `1e-6` are
  `1000000` and `1 / 1000000`.
* A C `int` is an `Int`; the conversion `double → int` truncates toward zero.
* A `QString` / C string is a `String`; string algorithms work on its list of
  characters.
* Pointers into the property store of the INDI base device are resolved again
  by name after a write: a write through `IUFindNumber (p, n)` updates the first
  field called `n` of the first vector called like `p`.
* `clientManager->sendNew…` appends a snapshot of the vector to `CCD.sent`;
  `emit …` appends to `CCD.emitted`.
* An element access `v[i]` outside the vector is undefined behaviour in the
  source; operations containing such accesses return `Option`, with `none` for
  that case.
-/

namespace ISD

/-! ## INDI property vectors -/

inductive IPerm where
  | IP_RO
  | IP_WO
  | IP_RW
deriving DecidableEq, Repr

inductive IPState where
  | IPS_IDLE
  | IPS_OK
  | IPS_BUSY
  | IPS_ALERT
deriving DecidableEq, Repr

inductive ISState where
  | ISS_OFF
  | ISS_ON
deriving DecidableEq, Repr

structure INumber where
  name : String
  label : String := ""
  value : ℚ
  min : ℚ := 0
  max : ℚ := 0
  step : ℚ := 0
deriving DecidableEq, Repr

structure INumberVectorProperty where
  device : String := ""
  name : String
  label : String := ""
  p : IPerm := IPerm.IP_RW
  s : IPState := IPState.IPS_IDLE
  np : List INumber
deriving DecidableEq, Repr

structure ISwitch where
  name : String
  label : String := ""
  s : ISState := ISState.ISS_OFF
deriving DecidableEq, Repr

structure ISwitchVectorProperty where
  device : String := ""
  name : String
  label : String := ""
  p : IPerm := IPerm.IP_RW
  s : IPState := IPState.IPS_IDLE
  sp : List ISwitch
deriving DecidableEq, Repr

structure IText where
  name : String
  label : String := ""
  text : String := ""
deriving DecidableEq, Repr

structure ITextVectorProperty where
  device : String := ""
  name : String
  label : String := ""
  p : IPerm := IPerm.IP_RW
  s : IPState := IPState.IPS_IDLE
  tp : List IText
deriving DecidableEq, Repr

/-- The blob vector a blob element belongs to (`bp->bvp`): its name and permission. -/
structure IBLOBVectorProperty where
  device : String := ""
  name : String
  p : IPerm := IPerm.IP_RO
deriving DecidableEq, Repr

structure IBLOB where
  name : String
  format : String
  blob : List Nat := []
  size : Nat
  bvp : IBLOBVectorProperty
deriving DecidableEq, Repr

/-- The property store of the INDI base device, one list per vector type. -/
structure BaseDevice where
  numbers : List INumberVectorProperty := []
  switches : List ISwitchVectorProperty := []
  texts : List ITextVectorProperty := []
  blobs : List IBLOBVectorProperty := []
  connected : Bool := true
deriving DecidableEq, Repr

/-- What `clientManager->sendNewNumber / sendNewSwitch / sendNewText` put on the wire. -/
inductive Sent where
  | number (nvp : INumberVectorProperty)
  | switch (svp : ISwitchVectorProperty)
  | text (tvp : ITextVectorProperty)
deriving DecidableEq, Repr

/-! ### Lookup and in-place update -/

def IUFindNumber (nvp : INumberVectorProperty) (name : String) : Option INumber :=
  nvp.np.find? (fun n => n.name == name)

def IUFindSwitch (svp : ISwitchVectorProperty) (name : String) : Option ISwitch :=
  svp.sp.find? (fun n => n.name == name)

def IUFindText (tvp : ITextVectorProperty) (name : String) : Option IText :=
  tvp.tp.find? (fun n => n.name == name)

/-- Apply `f` to the first element satisfying `p` (the element a `find` pointer designates). -/
def modifyFirst {α : Type} (p : α → Bool) (f : α → α) : List α → List α
  | [] => []
  | a :: as => if p a then f a :: as else a :: modifyFirst p f as

/-- The write `IUFindNumber (nvp, name)->value = v`. -/
def INumberVectorProperty.setValue (nvp : INumberVectorProperty) (name : String) (v : ℚ) :
    INumberVectorProperty :=
  { nvp with np := modifyFirst (fun n => n.name == name) (fun n => { n with value := v }) nvp.np }

/-- The write `nvp->np[i].value = v`, `none` when `i` is outside the vector. -/
def INumberVectorProperty.setValueAt (nvp : INumberVectorProperty) (i : Nat) (v : ℚ) :
    Option INumberVectorProperty :=
  match nvp.np[i]? with
  | none => none
  | some n => some { nvp with np := nvp.np.set i { n with value := v } }

/-- The write `IUFindSwitch (svp, name)->s = st`. -/
def ISwitchVectorProperty.setState (svp : ISwitchVectorProperty) (name : String) (st : ISState) :
    ISwitchVectorProperty :=
  { svp with sp := modifyFirst (fun n => n.name == name) (fun n => { n with s := st }) svp.sp }

/-- The write `svp->sp[i].s = st`, `none` when `i` is outside the vector. -/
def ISwitchVectorProperty.setStateAt (svp : ISwitchVectorProperty) (i : Nat) (st : ISState) :
    Option ISwitchVectorProperty :=
  match svp.sp[i]? with
  | none => none
  | some n => some { svp with sp := svp.sp.set i { n with s := st } }

/-- The library call `IUResetSwitch`: every switch of the vector goes off. -/
def IUResetSwitch (svp : ISwitchVectorProperty) : ISwitchVectorProperty :=
  { svp with sp := svp.sp.map (fun n => { n with s := ISState.ISS_OFF }) }

/-- The library call `IUFindOnSwitchIndex`: index of the first switch that is on, else `-1`. -/
def IUFindOnSwitchIndex (svp : ISwitchVectorProperty) : Int :=
  match svp.sp.findIdx? (fun n => n.s == ISState.ISS_ON) with
  | some i => (i : Int)
  | none => -1

def BaseDevice.getNumber (d : BaseDevice) (name : String) : Option INumberVectorProperty :=
  d.numbers.find? (fun v => v.name == name)

def BaseDevice.getSwitch (d : BaseDevice) (name : String) : Option ISwitchVectorProperty :=
  d.switches.find? (fun v => v.name == name)

def BaseDevice.getText (d : BaseDevice) (name : String) : Option ITextVectorProperty :=
  d.texts.find? (fun v => v.name == name)

def BaseDevice.getBLOB (d : BaseDevice) (name : String) : Option IBLOBVectorProperty :=
  d.blobs.find? (fun v => v.name == name)

/-- Store the mutated vector back in the place `getNumber` found it. -/
def BaseDevice.putNumber (d : BaseDevice) (nvp : INumberVectorProperty) : BaseDevice :=
  { d with numbers := modifyFirst (fun v => v.name == nvp.name) (fun _ => nvp) d.numbers }

/-- Store the mutated vector back in the place `getSwitch` found it. -/
def BaseDevice.putSwitch (d : BaseDevice) (svp : ISwitchVectorProperty) : BaseDevice :=
  { d with switches := modifyFirst (fun v => v.name == svp.name) (fun _ => svp) d.switches }

/-- Store the mutated vector back in the place `getText` found it. -/
def BaseDevice.putText (d : BaseDevice) (tvp : ITextVectorProperty) : BaseDevice :=
  { d with texts := modifyFirst (fun v => v.name == tvp.name) (fun _ => tvp) d.texts }

/-! ### Numeric conversions -/

/-- The conversion `double → int`: truncation toward zero. -/
def toInt (q : ℚ) : Int := Int.tdiv q.num q.den

/-- The test `!std::fabs (d)`: true exactly when the absolute value is zero. -/
def notFabs (d : ℚ) : Bool := decide (|d| = 0)

/-- The library template `qBound (min, val, max)`, that is `qMax (min, qMin (max, val))`. -/
def qBound (lo v hi : ℚ) : ℚ := max lo (min hi v)

/-! ## Chip and device state -/

inductive ChipType where
  | PRIMARY_CCD
  | GUIDE_CCD
deriving DecidableEq, Repr

inductive FITSMode where
  | FITS_NORMAL
  | FITS_FOCUS
  | FITS_GUIDE
  | FITS_CALIBRATE
  | FITS_ALIGN
deriving DecidableEq, Repr

inductive CCDFrameType where
  | FRAME_LIGHT
  | FRAME_BIAS
  | FRAME_DARK
  | FRAME_FLAT
deriving DecidableEq, Repr

inductive CCDBinType where
  | SINGLE_BIN
  | DOUBLE_BIN
  | TRIPLE_BIN
  | QUADRAPLE_BIN
deriving DecidableEq, Repr

inductive TransferFormat where
  | FORMAT_FITS
  | FORMAT_NATIVE
deriving DecidableEq, Repr

inductive UploadMode where
  | UPLOAD_CLIENT
  | UPLOAD_LOCAL
  | UPLOAD_BOTH
deriving DecidableEq, Repr

inductive TelescopeType where
  | TELESCOPE_PRIMARY
  | TELESCOPE_GUIDE
deriving DecidableEq, Repr

inductive BlobType where
  | BLOB_IMAGE
  | BLOB_FITS
  | BLOB_RAW
  | BLOB_OTHER
deriving DecidableEq, Repr

/-- The decoded image object (`FITSData`) with the metadata `handleImage` attaches to it. -/
structure FITSData where
  mode : FITSMode
  device : String := ""
  blobVector : String := ""
  blobElement : String := ""
  chip : Option ChipType := none
deriving DecidableEq, Repr

/-- The sensor head object `ISD::CCDChip`.  A view pointer is modelled by whether it is set. -/
structure CCDChip where
  type : ChipType
  captureMode : FITSMode := FITSMode.FITS_NORMAL
  batchMode : Bool := false
  CanBin : Bool := false
  CanSubframe : Bool := false
  CanAbort : Bool := false
  frameTypes : List String := []
  normalImage : Bool := false
  focusImage : Bool := false
  guideImage : Bool := false
  calibrationImage : Bool := false
  alignImage : Bool := false
  imageData : Option FITSData := none
deriving DecidableEq, Repr

/-- The signals of `ISD::CCD`.  A chip argument is the pointer handed over: `none` is a null
`guideChip.get ()`. -/
inductive Signal where
  | newExposureValue (chip : Option ChipType) (value : ℚ) (state : IPState)
  | captureFailed
  | newTemperatureValue (value : ℚ)
  | newFPS (instantFPS averageFPS : ℚ)
  | newGuideStarData (chip : Option ChipType) (dx dy fit : ℚ)
  | coolerToggled (enabled : Bool)
  | videoStreamToggled (enabled : Bool)
  | videoRecordToggled (enabled : Bool)
  | newRemoteFile (path : String)
  | BLOBUpdated (bp : Option IBLOB)
  | newImage (data : Option FITSData)
deriving DecidableEq, Repr

/-- Calls handed on to the base class `DeviceDecorator` and to the configuration helper. -/
inductive Delegated where
  | registerProperty (name : String)
  | processNumber (name : String)
  | processSwitch (name : String)
  | processText (name : String)
  | processBLOB (bp : IBLOB)
  | setConfigSave
deriving DecidableEq, Repr

/-- Where a bound gain / offset pointer points: field `index` of the number vector `vector`. -/
structure FieldRef where
  vector : String
  index : Nat
deriving DecidableEq, Repr

/-- The stream window `StreamWG`, as far as the device controller looks at it. -/
structure StreamWG where
  streamEnabled : Bool := false
  width : Int := 0
  height : Int := 0
  shown : Bool := false
  frames : List IBLOB := []
deriving DecidableEq, Repr

/-- The file write handed to the background thread by `writeImageFile`. -/
structure FileWrite where
  filename : String
  bytes : List Nat
  addFitsKeywords : Bool
  filter : String
deriving DecidableEq, Repr

/-- The configuration values read through `Options::…`. -/
structure Options where
  forceDSLRPresets : Bool := false
  useFITSViewer : Bool := true
  useSummaryPreview : Bool := true
  singlePreviewFITS : Bool := true
  singleWindowCapturedFITS : Bool := false
  focusFITSOnNewImage : Bool := false
  fitsDir : String := ""
deriving DecidableEq, Repr

/-- The device controller `ISD::CCD` together with the collaborators it talks to:
the property store (`baseDevice`), the outbox of the client manager (`sent`) and the
signals emitted so far (`emitted`). -/
structure CCD where
  deviceName : String := ""
  baseDevice : BaseDevice := {}
  sent : List Sent := []
  emitted : List Signal := []
  delegated : List Delegated := []
  primaryChip : CCDChip := { type := ChipType.PRIMARY_CCD }
  guideChip : Option CCDChip := none
  HasGuideHead : Bool := false
  HasCooler : Bool := false
  CanCool : Bool := false
  HasCoolerControl : Bool := false
  HasVideoStream : Bool := false
  IsLooping : Bool := false
  transferFormat : TransferFormat := TransferFormat.FORMAT_FITS
  telescopeType : TelescopeType := TelescopeType.TELESCOPE_PRIMARY
  m_ExposurePresets : List (String × ℚ) := []
  m_ExposurePresetsMinMax : ℚ × ℚ := (0, 0)
  gainN : Option FieldRef := none
  gainPerm : IPerm := IPerm.IP_RO
  offsetN : Option FieldRef := none
  offsetPerm : IPerm := IPerm.IP_RO
  BType : BlobType := BlobType.BLOB_OTHER
  streamWindow : Option StreamWG := none
  streamW : Int := 0
  streamH : Int := 0
  fitsDir : String := ""
  seqPrefix : String := ""
  nextSequenceID : Int := 0
  filter : String := ""
  readyTimerStarted : Bool := false
  mediaPort : Option ℚ := none
  primaryCCDBLOB : Option IBLOBVectorProperty := none
  fileWriteFilename : String := ""
  fileWriteBufferSize : Nat := 0
  fileWrites : List FileWrite := []
  normalTabID : Int := -1
  calibrationTabID : Int := -1
  viewerWindow : Bool := false
  m_LastNotificationTS : Int := 0
  notices : List String := []
  blobEnabled : Bool := true
deriving DecidableEq, Repr

def CCD.sendNewNumber (ccd : CCD) (nvp : INumberVectorProperty) : CCD :=
  { ccd with sent := ccd.sent ++ [Sent.number nvp] }

def CCD.sendNewSwitch (ccd : CCD) (svp : ISwitchVectorProperty) : CCD :=
  { ccd with sent := ccd.sent ++ [Sent.switch svp] }

def CCD.sendNewText (ccd : CCD) (tvp : ITextVectorProperty) : CCD :=
  { ccd with sent := ccd.sent ++ [Sent.text tvp] }

def CCD.emit (ccd : CCD) (sig : Signal) : CCD :=
  { ccd with emitted := ccd.emitted ++ [sig] }

/-- A line for the status bar or the desktop notifier. -/
def CCD.notice (ccd : CCD) (msg : String) : CCD :=
  { ccd with notices := ccd.notices ++ [msg] }

/-- Mutate a number vector in the store and send it: the pattern
`field->value = …; clientManager->sendNewNumber (prop)`. -/
def CCD.storeAndSendNumber (ccd : CCD) (nvp : INumberVectorProperty) : CCD :=
  { ccd with baseDevice := ccd.baseDevice.putNumber nvp, sent := ccd.sent ++ [Sent.number nvp] }

/-- Mutate a switch vector in the store and send it. -/
def CCD.storeAndSendSwitch (ccd : CCD) (svp : ISwitchVectorProperty) : CCD :=
  { ccd with baseDevice := ccd.baseDevice.putSwitch svp, sent := ccd.sent ++ [Sent.switch svp] }

/-- The method `CCD::getChip`. -/
def CCD.getChip (ccd : CCD) : ChipType → Option CCDChip
  | ChipType.PRIMARY_CCD => some ccd.primaryChip
  | ChipType.GUIDE_CCD => ccd.guideChip

/-- A write to a member of the chip object of the given type. -/
def CCD.modifyChip (ccd : CCD) (type : ChipType) (f : CCDChip → CCDChip) : CCD :=
  match type with
  | ChipType.PRIMARY_CCD => { ccd with primaryChip := f ccd.primaryChip }
  | ChipType.GUIDE_CCD => { ccd with guideChip := ccd.guideChip.map f }

/-- The `switch (type)` that opens most chip methods: the number vector of this chip. -/
def CCD.chipNumber (ccd : CCD) (type : ChipType) (primary guide : String) :
    Option INumberVectorProperty :=
  match type with
  | ChipType.PRIMARY_CCD => ccd.baseDevice.getNumber primary
  | ChipType.GUIDE_CCD => ccd.baseDevice.getNumber guide

/-- The `switch (type)` that opens the switch methods of a chip. -/
def CCD.chipSwitch (ccd : CCD) (type : ChipType) (primary guide : String) :
    Option ISwitchVectorProperty :=
  match type with
  | ChipType.PRIMARY_CCD => ccd.baseDevice.getSwitch primary
  | ChipType.GUIDE_CCD => ccd.baseDevice.getSwitch guide

/-! ## `CCDChip`: frame geometry -/

/-- The values `getFrame` has written through its pointers; `none` marks a pointer it has
not written. -/
structure FrameOut where
  x : Option Int := none
  y : Option Int := none
  w : Option Int := none
  h : Option Int := none
deriving DecidableEq, Repr

/-- The method `CCDChip::getFrame`. -/
def CCDChip.getFrame (ccd : CCD) (type : ChipType) : Bool × FrameOut :=
  match ccd.chipNumber type "CCD_FRAME" "GUIDER_FRAME" with
  | none => (false, {})
  | some frameProp =>
    match IUFindNumber frameProp "X" with
    | none => (false, {})
    | some xarg =>
      match IUFindNumber frameProp "Y" with
      | none => (false, { x := some (toInt xarg.value) })
      | some yarg =>
        match IUFindNumber frameProp "WIDTH" with
        | none => (false, { x := some (toInt xarg.value), y := some (toInt yarg.value) })
        | some warg =>
          match IUFindNumber frameProp "HEIGHT" with
          | none => (false, { x := some (toInt xarg.value), y := some (toInt yarg.value),
                              w := some (toInt warg.value) })
          | some harg => (true, { x := some (toInt xarg.value), y := some (toInt yarg.value),
                                  w := some (toInt warg.value), h := some (toInt harg.value) })

/-- The bounds `getFrameMinMax` has written; `none` marks a pair it has not reached. -/
structure FrameMinMaxOut where
  x : Option (Int × Int) := none
  y : Option (Int × Int) := none
  w : Option (Int × Int) := none
  h : Option (Int × Int) := none
deriving DecidableEq, Repr

/-- The method `CCDChip::getFrameMinMax`. -/
def CCDChip.getFrameMinMax (ccd : CCD) (type : ChipType) : Bool × FrameMinMaxOut :=
  match ccd.chipNumber type "CCD_FRAME" "GUIDER_FRAME" with
  | none => (false, {})
  | some frameProp =>
    match IUFindNumber frameProp "X" with
    | none => (false, {})
    | some xa =>
      match IUFindNumber frameProp "Y" with
      | none => (false, { x := some (toInt xa.min, toInt xa.max) })
      | some ya =>
        match IUFindNumber frameProp "WIDTH" with
        | none => (false, { x := some (toInt xa.min, toInt xa.max),
                            y := some (toInt ya.min, toInt ya.max) })
        | some wa =>
          match IUFindNumber frameProp "HEIGHT" with
          | none => (false, { x := some (toInt xa.min, toInt xa.max),
                              y := some (toInt ya.min, toInt ya.max),
                              w := some (toInt wa.min, toInt wa.max) })
          | some ha => (true, { x := some (toInt xa.min, toInt xa.max),
                                y := some (toInt ya.min, toInt ya.max),
                                w := some (toInt wa.min, toInt wa.max),
                                h := some (toInt ha.min, toInt ha.max) })

/-- The method `CCDChip::resetFrame` on the store of finite doubles.
`IEEEFrames.resetFrame` below is the same method on frame vectors whose values and bounds may
be infinite or not-a-number. -/
def CCDChip.resetFrame (ccd : CCD) (type : ChipType) : Bool × CCD :=
  match ccd.chipNumber type "CCD_FRAME" "GUIDER_FRAME" with
  | none => (false, ccd)
  | some frameProp =>
    match IUFindNumber frameProp "X", IUFindNumber frameProp "Y",
          IUFindNumber frameProp "WIDTH", IUFindNumber frameProp "HEIGHT" with
    | some xarg, some yarg, some warg, some harg =>
      if notFabs (xarg.value - xarg.min) && notFabs (yarg.value - yarg.min) &&
          notFabs (warg.value - warg.max) && notFabs (harg.value - harg.max) then
        (false, ccd)
      else
        (true, ccd.storeAndSendNumber
          ((((frameProp.setValue "X" xarg.min).setValue "Y" yarg.min).setValue
            "WIDTH" warg.max).setValue "HEIGHT" harg.max))
    | _, _, _, _ => (false, ccd)

/-- The method `CCDChip::setFrame`. -/
def CCDChip.setFrame (ccd : CCD) (type : ChipType) (x y w h : Int) (force : Bool) : Bool × CCD :=
  match ccd.chipNumber type "CCD_FRAME" "GUIDER_FRAME" with
  | none => (false, ccd)
  | some frameProp =>
    match IUFindNumber frameProp "X", IUFindNumber frameProp "Y",
          IUFindNumber frameProp "WIDTH", IUFindNumber frameProp "HEIGHT" with
    | some xarg, some yarg, some warg, some harg =>
      if !force && notFabs (xarg.value - x) && notFabs (yarg.value - y) &&
          notFabs (warg.value - w) && notFabs (harg.value - h) then
        (true, ccd)
      else
        (true, ccd.storeAndSendNumber
          ((((frameProp.setValue "X" x).setValue "Y" y).setValue "WIDTH" w).setValue "HEIGHT" h))
    | _, _, _, _ => (false, ccd)

/-! ## `CCDChip`: binning -/

/-- The method `CCDChip::getBinning (int *, int *)`: both outputs are preset to `1`. -/
def CCDChip.getBinning (ccd : CCD) (type : ChipType) : Bool × Int × Int :=
  match ccd.chipNumber type "CCD_BINNING" "GUIDER_BINNING" with
  | none => (false, 1, 1)
  | some binProp =>
    match IUFindNumber binProp "HOR_BIN", IUFindNumber binProp "VER_BIN" with
    | some horBin, some verBin => (true, toInt horBin.value, toInt verBin.value)
    | _, _ => (false, 1, 1)

/-- The method `CCDChip::getBinning ()` that answers with the enumeration. -/
def CCDChip.getBinType (ccd : CCD) (type : ChipType) : CCDBinType :=
  match ccd.chipNumber type "CCD_BINNING" "GUIDER_BINNING" with
  | none => CCDBinType.SINGLE_BIN
  | some binProp =>
    match IUFindNumber binProp "HOR_BIN", IUFindNumber binProp "VER_BIN" with
    | some horBin, some _ =>
      if toInt horBin.value = 2 then CCDBinType.DOUBLE_BIN
      else if toInt horBin.value = 3 then CCDBinType.TRIPLE_BIN
      else if toInt horBin.value = 4 then CCDBinType.QUADRAPLE_BIN
      else CCDBinType.SINGLE_BIN
    | _, _ => CCDBinType.SINGLE_BIN

/-- The method `CCDChip::getMaxBin` called with two valid pointers. -/
def CCDChip.getMaxBin (ccd : CCD) (type : ChipType) : Bool × Int × Int :=
  match ccd.chipNumber type "CCD_BINNING" "GUIDER_BINNING" with
  | none => (false, 1, 1)
  | some binProp =>
    match IUFindNumber binProp "HOR_BIN", IUFindNumber binProp "VER_BIN" with
    | some horBin, some verBin => (true, toInt horBin.max, toInt verBin.max)
    | _, _ => (false, 1, 1)

/-- The method `CCDChip::setBinning (int, int)`. -/
def CCDChip.setBinning (ccd : CCD) (type : ChipType) (bin_x bin_y : Int) : Bool × CCD :=
  match ccd.chipNumber type "CCD_BINNING" "GUIDER_BINNING" with
  | none => (false, ccd)
  | some binProp =>
    match IUFindNumber binProp "HOR_BIN", IUFindNumber binProp "VER_BIN" with
    | some horBin, some verBin =>
      if notFabs (horBin.value - bin_x) && notFabs (verBin.value - bin_y) then
        (true, ccd)
      else if (bin_x : ℚ) > horBin.max || (bin_y : ℚ) > verBin.max then
        (false, ccd)
      else
        (true, ccd.storeAndSendNumber
          ((binProp.setValue "HOR_BIN" bin_x).setValue "VER_BIN" bin_y))
    | _, _ => (false, ccd)

/-- The method `CCDChip::setBinning (CCDBinType)`. -/
def CCDChip.setBinType (ccd : CCD) (type : ChipType) : CCDBinType → Bool × CCD
  | CCDBinType.SINGLE_BIN => CCDChip.setBinning ccd type 1 1
  | CCDBinType.DOUBLE_BIN => CCDChip.setBinning ccd type 2 2
  | CCDBinType.TRIPLE_BIN => CCDChip.setBinning ccd type 3 3
  | CCDBinType.QUADRAPLE_BIN => CCDChip.setBinning ccd type 4 4

/-! ## Strings and the preset map -/

/-- The method `QString::toLower`, on the letters `A` … `Z`. -/
def toLower (s : String) : String := String.mk (s.data.map Char.toLower)

/-- The method `QString::contains (needle)`: `needle` occurs as a substring. -/
def containsStr (s needle : String) : Bool :=
  s.data.tails.any (fun t => needle.data.isPrefixOf t)

/-- The method `QString::mid (1)`: everything after the first character. -/
def mid1 (s : String) : String := String.mk (s.data.drop 1)

/-- Cut a character list at every `/`; the pieces between are kept, empty ones too. -/
def splitSlashChars : List Char → List (List Char)
  | [] => [[]]
  | c :: cs =>
    if c = '/' then [] :: splitSlashChars cs
    else
      match splitSlashChars cs with
      | [] => [[c]]
      | p :: ps => (c :: p) :: ps

/-- The call `key.split ("/")`. -/
def splitSlash (key : String) : List String :=
  (splitSlashChars key.data).map String.mk

/-- The method `QMap<QString, double>::insert`: keys are kept in ascending order and a key
already present gets the new value. -/
def qmapInsert (key : String) (value : ℚ) : List (String × ℚ) → List (String × ℚ)
  | [] => [(key, value)]
  | (k, v) :: rest =>
    if key = k then (key, value) :: rest
    else if key.data < k.data then (key, value) :: (k, v) :: rest
    else (k, v) :: qmapInsert key value rest

/-- The method `QMap::values`: the values in ascending key order. -/
def qmapValues (m : List (String × ℚ)) : List ℚ := m.map Prod.snd

/-! ## Collaborators outside the repository -/

/-- The library and desktop services the device layer calls: Qt string conversion, the image
reader, the file system, the clock and the image viewer. -/
structure Collaborators where
  /-- The conversion `QString::toDouble (&ok)`: `none` when `ok` comes back false. -/
  toDouble : String → Option ℚ
  /-- The conversion `QString::toInt ()`, `0` when the text is no number. -/
  qstringToInt : String → Int
  /-- The function `std::hypotf`. -/
  hypotf : ℚ → ℚ → ℚ
  /-- The list `QImageReader::supportedImageFormats ()`. -/
  supportedImageFormats : List String
  /-- Whether `QFile::open (QIODevice::WriteOnly)` succeeds on a path. -/
  canOpenForWriting : String → Bool
  /-- The value of `QDateTime::currentDateTime ().toString ("yyyy-MM-ddThh-mm-ss")`. -/
  timestamp : String
  /-- The current time in seconds. -/
  now : Int
  /-- The directory `KSPaths::writableLocation (QStandardPaths::TempLocation)`. -/
  tempLocation : String
  /-- The directory `QDir::tempPath ()`. -/
  tempPath : String
  /-- Whether `FITSData::loadFromBuffer (buffer, extension, filename)` succeeds. -/
  loadFromBuffer : List Nat → String → String → Bool
  /-- The viewer calls `FITSViewer::loadData / updateData`: the tab index on success. -/
  viewerLoad : FITSData → Option Int
  /-- Whether `FITSView::loadData` succeeds. -/
  viewLoadData : FITSData → Bool

/-! ## `CCDChip`: exposure -/

/-- The loop of `capture` over `exposurePresets.values ()`: the accumulator is
`(diff, closestMatch)`, starting at `(1e6, exposure)`. -/
def closestPresetLoop (exposure : ℚ) (values : List ℚ) : ℚ × ℚ :=
  values.foldl
    (fun acc oneValue =>
      let newDiff := |exposure - oneValue|
      if newDiff < acc.1 then (newDiff, oneValue) else acc)
    (1000000, exposure)

/-- The exposure value `capture` goes on with after the preset block. -/
def presetExposure (opts : Options) (ccd : CCD) (exposure : ℚ) : ℚ :=
  if opts.forceDSLRPresets then
    if !ccd.m_ExposurePresets.isEmpty then
      if exposure > ccd.m_ExposurePresetsMinMax.1 && exposure < ccd.m_ExposurePresetsMinMax.2 then
        (closestPresetLoop exposure (qmapValues ccd.m_ExposurePresets)).2
      else exposure
    else exposure
  else exposure

/-- The method `CCDChip::capture`.  The vector sent is a fresh one with the single field
`n`; `none` stands for the read of `expProp->np[0]` in an empty vector. -/
def CCDChip.capture (opts : Options) (ccd : CCD) (type : ChipType) (exposure : ℚ) :
    Option (Bool × CCD) :=
  match ccd.chipNumber type "CCD_EXPOSURE" "GUIDER_EXPOSURE" with
  | none => some (false, ccd)
  | some expProp =>
    match expProp.np[0]? with
    | none => none
    | some first =>
      some (true, ccd.sendNewNumber
        { device := expProp.device, name := expProp.name, label := expProp.label,
          p := IPerm.IP_RO, s := IPState.IPS_IDLE,
          np := [ { name := first.name, value := presetExposure opts ccd exposure } ] })

/-- The method `CCDChip::abortExposure`. -/
def CCDChip.abortExposure (ccd : CCD) (type : ChipType) : Bool × CCD :=
  match ccd.chipSwitch type "CCD_ABORT_EXPOSURE" "GUIDER_ABORT_EXPOSURE" with
  | none => (false, ccd)
  | some abortProp =>
    match IUFindSwitch abortProp "ABORT" with
    | none => (false, ccd)
    | some _ => (true, ccd.storeAndSendSwitch (abortProp.setState "ABORT" ISState.ISS_ON))

/-- The method `CCDChip::isCapturing`. -/
def CCDChip.isCapturing (ccd : CCD) (type : ChipType) : Bool :=
  match ccd.chipNumber type "CCD_EXPOSURE" "GUIDER_EXPOSURE" with
  | none => false
  | some expProp => expProp.s == IPState.IPS_BUSY

/-! ## `CCDChip`: ISO and frame type -/

/-- The method `CCDChip::getISOIndex`. -/
def CCDChip.getISOIndex (ccd : CCD) : Int :=
  match ccd.baseDevice.getSwitch "CCD_ISO" with
  | none => -1
  | some isoProp => IUFindOnSwitchIndex isoProp

/-- The method `CCDChip::setISOIndex`; `none` stands for an index outside the vector. -/
def CCDChip.setISOIndex (ccd : CCD) (value : Int) : Option (Bool × CCD) :=
  match ccd.baseDevice.getSwitch "CCD_ISO" with
  | none => some (false, ccd)
  | some isoProp =>
    if value < 0 then none
    else
      match (IUResetSwitch isoProp).setStateAt value.toNat ISState.ISS_ON with
      | none => none
      | some isoProp' => some (true, ccd.storeAndSendSwitch isoProp')

/-- The method `CCDChip::getISOList`. -/
def CCDChip.getISOList (ccd : CCD) : List String :=
  match ccd.baseDevice.getSwitch "CCD_ISO" with
  | none => []
  | some isoProp => isoProp.sp.map (fun sw => sw.label)

/-- The switch name `setFrameType` looks up for a frame type. -/
def CCDFrameType.switchName : CCDFrameType → String
  | CCDFrameType.FRAME_LIGHT => "FRAME_LIGHT"
  | CCDFrameType.FRAME_DARK => "FRAME_DARK"
  | CCDFrameType.FRAME_BIAS => "FRAME_BIAS"
  | CCDFrameType.FRAME_FLAT => "FRAME_FLAT"

/-- The method `CCDChip::setFrameType (CCDFrameType)`. -/
def CCDChip.setFrameType (ccd : CCD) (type : ChipType) (fType : CCDFrameType) : Bool × CCD :=
  match (if type = ChipType.PRIMARY_CCD then ccd.baseDevice.getSwitch "CCD_FRAME_TYPE"
         else ccd.baseDevice.getSwitch "GUIDER_FRAME_TYPE") with
  | none => (false, ccd)
  | some frameProp =>
    match IUFindSwitch frameProp fType.switchName with
    | none => (false, ccd)
    | some ccdFrame =>
      if ccdFrame.s = ISState.ISS_ON then (true, ccd)
      else
        let ccd1 :=
          if fType ≠ CCDFrameType.FRAME_LIGHT then
            ccd.modifyChip type (fun c => { c with captureMode := FITSMode.FITS_CALIBRATE })
          else ccd
        (true, ccd1.storeAndSendSwitch
          ((IUResetSwitch frameProp).setState fType.switchName ISState.ISS_ON))

/-- The method `CCDChip::setFrameType (const QString &)`. -/
def CCDChip.setFrameTypeByName (ccd : CCD) (type : ChipType) (name : String) : Bool × CCD :=
  if name = "FRAME_LIGHT" ∨ name = "Light" then
    CCDChip.setFrameType ccd type CCDFrameType.FRAME_LIGHT
  else if name = "FRAME_DARK" ∨ name = "Dark" then
    CCDChip.setFrameType ccd type CCDFrameType.FRAME_DARK
  else if name = "FRAME_BIAS" ∨ name = "Bias" then
    CCDChip.setFrameType ccd type CCDFrameType.FRAME_BIAS
  else if name = "FRAME_FLAT" ∨ name = "Flat" then
    CCDChip.setFrameType ccd type CCDFrameType.FRAME_FLAT
  else (false, ccd)

/-- The method `CCDChip::getFrameType`. -/
def CCDChip.getFrameType (ccd : CCD) (type : ChipType) : CCDFrameType :=
  match (if type = ChipType.PRIMARY_CCD then ccd.baseDevice.getSwitch "CCD_FRAME_TYPE"
         else ccd.baseDevice.getSwitch "GUIDER_FRAME_TYPE") with
  | none => CCDFrameType.FRAME_LIGHT
  | some frameProp =>
    match frameProp.sp.find? (fun sw => sw.s == ISState.ISS_ON) with
    | none => CCDFrameType.FRAME_LIGHT
    | some ccdFrame =>
      if ccdFrame.name = "FRAME_LIGHT" then CCDFrameType.FRAME_LIGHT
      else if ccdFrame.name = "FRAME_DARK" then CCDFrameType.FRAME_DARK
      else if ccdFrame.name = "FRAME_FLAT" then CCDFrameType.FRAME_FLAT
      else if ccdFrame.name = "FRAME_BIAS" then CCDFrameType.FRAME_BIAS
      else CCDFrameType.FRAME_LIGHT

/-! ## `CCDChip`: sensor information -/

/-- The method `CCDChip::setImageInfo`; `none` stands for a vector with fewer than six
fields. -/
def CCDChip.setImageInfo (ext : Collaborators) (ccd : CCD) (type : ChipType)
    (width height : Nat) (pixelX pixelY : ℚ) (bitdepth : Nat) : Option (Bool × CCD) :=
  match ccd.chipNumber type "CCD_INFO" "GUIDER_INFO" with
  | none => some (false, ccd)
  | some ccdInfoProp =>
    match (do
      let p0 ← ccdInfoProp.setValueAt 0 width
      let p1 ← p0.setValueAt 1 height
      let p2 ← p1.setValueAt 2 (ext.hypotf pixelX pixelY)
      let p3 ← p2.setValueAt 3 pixelX
      let p4 ← p3.setValueAt 4 pixelY
      p4.setValueAt 5 bitdepth) with
    | none => none
    | some info => some (true, ccd.storeAndSendNumber info)

/-- The values `getImageInfo` writes through its references. -/
structure ImageInfo where
  width : Int
  height : Int
  pixelX : ℚ
  pixelY : ℚ
  bitdepth : Int
deriving DecidableEq, Repr

/-- The method `CCDChip::getImageInfo`; `none` stands for a vector with fewer than six
fields.  The outer `Option` is the undefined case, the inner one the references left alone. -/
def CCDChip.getImageInfo (ccd : CCD) (type : ChipType) : Option (Bool × Option ImageInfo) :=
  match ccd.chipNumber type "CCD_INFO" "GUIDER_INFO" with
  | none => some (false, none)
  | some ccdInfoProp =>
    match ccdInfoProp.np[0]?, ccdInfoProp.np[1]?, ccdInfoProp.np[2]?, ccdInfoProp.np[3]?,
          ccdInfoProp.np[5]? with
    | some n0, some n1, some n2, some n3, some n5 =>
      some (true, some { width := toInt n0.value, height := toInt n1.value,
                         pixelX := n2.value, pixelY := n3.value, bitdepth := toInt n5.value })
    | _, _, _, _, _ => none

/-- The values `getBayerInfo` writes through its references. -/
structure BayerInfo where
  offsetX : Int
  offsetY : Int
  pattern : String
deriving DecidableEq, Repr

/-- The method `CCDChip::getBayerInfo`; `none` stands for a vector with fewer than three
texts. -/
def CCDChip.getBayerInfo (ext : Collaborators) (ccd : CCD) : Option (Bool × Option BayerInfo) :=
  match ccd.baseDevice.getText "CCD_CFA" with
  | none => some (false, none)
  | some bayerTP =>
    match bayerTP.tp[0]?, bayerTP.tp[1]?, bayerTP.tp[2]? with
    | some t0, some t1, some t2 =>
      some (true, some { offsetX := ext.qstringToInt t0.text, offsetY := ext.qstringToInt t1.text,
                         pattern := t2.text })
    | _, _, _ => none

/-! ## `CCD::registerProperty` -/

/-- A property as handed to `registerProperty` (`INDI::Property`). -/
inductive Property where
  | number (nvp : INumberVectorProperty)
  | switch (svp : ISwitchVectorProperty)
  | text (tvp : ITextVectorProperty)
  | blob (bvp : IBLOBVectorProperty)
  | light (name : String)
deriving DecidableEq, Repr

def Property.getName : Property → String
  | Property.number nvp => nvp.name
  | Property.switch svp => svp.name
  | Property.text tvp => tvp.name
  | Property.blob bvp => bvp.name
  | Property.light name => name

/-- The accessor `Property::getNumber`: null unless the property is a number vector. -/
def Property.getNumber : Property → Option INumberVectorProperty
  | Property.number nvp => some nvp
  | _ => none

/-- The accessor `Property::getSwitch`: null unless the property is a switch vector. -/
def Property.getSwitch : Property → Option ISwitchVectorProperty
  | Property.switch svp => some svp
  | _ => none

/-- The accessor `Property::getBLOB`: null unless the property is a blob vector. -/
def Property.getBLOB : Property → Option IBLOBVectorProperty
  | Property.blob bvp => some bvp
  | _ => none

/-- The value the preset loop derives from one switch label: the label read as a decimal,
else as `numerator/denominator` with a positive denominator; `none` when `ok` stays false. -/
def exposurePresetValue (ext : Collaborators) (key : String) : Option ℚ :=
  match ext.toDouble key with
  | some value => some value
  | none =>
    match splitSlash key with
    | [num, den] =>
      match ext.toDouble num, ext.toDouble den with
      | some numerator, some denominator =>
        if denominator > 0 then some (numerator / denominator) else none
      | _, _ => none
    | _ => none

/-- The scan that recomputes the preset bounds: `min` starts at `1e6`, `max` at `1e-6`. -/
def presetsMinMax (values : List ℚ) : ℚ × ℚ :=
  values.foldl
    (fun acc oneValue =>
      (if oneValue < acc.1 then oneValue else acc.1, if oneValue > acc.2 then oneValue else acc.2))
    (1000000, 1 / 1000000)

/-- One round of the loop over the switches of `CCD_EXPOSURE_PRESETS`. -/
def registerPresetSwitch (ext : Collaborators) (ccd : CCD) (sw : ISwitch) : CCD :=
  let presets :=
    match exposurePresetValue ext sw.label with
    | some value => qmapInsert sw.label value ccd.m_ExposurePresets
    | none => ccd.m_ExposurePresets
  { ccd with m_ExposurePresets := presets
             m_ExposurePresetsMinMax := presetsMinMax (qmapValues presets) }

/-- One round of the gain / offset search over the fields of a number vector. -/
def registerGainOffsetField (controlNP : INumberVectorProperty) (ccd : CCD)
    (field : Nat × INumber) : CCD :=
  let name := toLower field.2.name
  let label := toLower field.2.label
  if name = "gain" ∨ label = "gain" then
    { ccd with gainN := some { vector := controlNP.name, index := field.1 }
               gainPerm := controlNP.p }
  else if name = "offset" ∨ label = "offset" then
    { ccd with offsetN := some { vector := controlNP.name, index := field.1 }
               offsetPerm := controlNP.p }
  else ccd

/-- The method `CCD::registerProperty`.  The result is `none` where the source goes through
a null pointer: a guide property before the guide chip exists, or a property of another
type under a name whose branch does not test the accessor. -/
def CCD.registerProperty (ext : Collaborators) (ccd0 : CCD) (prop : Property) : Option CCD :=
  let ccd : CCD := if ccd0.baseDevice.connected then { ccd0 with readyTimerStarted := true } else ccd0
  let name := prop.getName
  let done (c : CCD) : Option CCD :=
    some { c with delegated := c.delegated ++ [Delegated.registerProperty name] }
  if name = "GUIDER_EXPOSURE" then
    done { ccd with HasGuideHead := true, guideChip := some { type := ChipType.GUIDE_CCD } }
  else if name = "CCD_FRAME_TYPE" then
    match prop.getSwitch with
    | none => none
    | some ccdFrame =>
      done { ccd with primaryChip :=
        { ccd.primaryChip with frameTypes := ccdFrame.sp.map (fun sw => sw.label) } }
  else if name = "CCD_FRAME" then
    match prop.getNumber with
    | some np =>
      if np.p ≠ IPerm.IP_RO then
        done { ccd with primaryChip := { ccd.primaryChip with CanSubframe := true } }
      else done ccd
    | none => done ccd
  else if name = "GUIDER_FRAME" then
    match prop.getNumber with
    | some np =>
      if np.p ≠ IPerm.IP_RO then
        match ccd.guideChip with
        | none => none
        | some g => done { ccd with guideChip := some { g with CanSubframe := true } }
      else done ccd
    | none => done ccd
  else if name = "CCD_BINNING" then
    match prop.getNumber with
    | some np =>
      if np.p ≠ IPerm.IP_RO then
        done { ccd with primaryChip := { ccd.primaryChip with CanBin := true } }
      else done ccd
    | none => done ccd
  else if name = "GUIDER_BINNING" then
    match prop.getNumber with
    | some np =>
      if np.p ≠ IPerm.IP_RO then
        match ccd.guideChip with
        | none => none
        | some g => done { ccd with guideChip := some { g with CanBin := true } }
      else done ccd
    | none => done ccd
  else if name = "CCD_ABORT_EXPOSURE" then
    match prop.getSwitch with
    | some sp =>
      if sp.p ≠ IPerm.IP_RO then
        done { ccd with primaryChip := { ccd.primaryChip with CanAbort := true } }
      else done ccd
    | none => done ccd
  else if name = "GUIDER_ABORT_EXPOSURE" then
    match prop.getSwitch with
    | some sp =>
      if sp.p ≠ IPerm.IP_RO then
        match ccd.guideChip with
        | none => none
        | some g => done { ccd with guideChip := some { g with CanAbort := true } }
      else done ccd
    | none => done ccd
  else if name = "CCD_TEMPERATURE" then
    match prop.getNumber with
    | none => none
    | some np =>
      match np.np[0]? with
      | none => none
      | some first =>
        done ({ ccd with HasCooler := true, CanCool := decide (np.p ≠ IPerm.IP_RO) }.emit
          (Signal.newTemperatureValue first.value))
  else if name = "CCD_COOLER" then
    done { ccd with HasCoolerControl := true }
  else if name = "CCD_VIDEO_STREAM" then
    done { ccd with HasVideoStream := true }
  else if name = "CCD_TRANSFER_FORMAT" then
    match prop.getSwitch with
    | some sp =>
      match IUFindSwitch sp "FORMAT_NATIVE" with
      | some format =>
        if format.s = ISState.ISS_ON then
          done { ccd with transferFormat := TransferFormat.FORMAT_NATIVE }
        else done { ccd with transferFormat := TransferFormat.FORMAT_FITS }
      | none => done { ccd with transferFormat := TransferFormat.FORMAT_FITS }
    | none => done ccd
  else if name = "CCD_EXPOSURE_PRESETS" then
    match prop.getSwitch with
    | some svp => done (svp.sp.foldl (registerPresetSwitch ext) ccd)
    | none => done ccd
  else if name = "CCD_EXPOSURE_LOOP" then
    match prop.getSwitch with
    | some sp =>
      match IUFindSwitch sp "LOOP_ON" with
      | some looping => done { ccd with IsLooping := decide (looping.s = ISState.ISS_ON) }
      | none => done { ccd with IsLooping := false }
    | none => done ccd
  else if name = "TELESCOPE_TYPE" then
    match prop.getSwitch with
    | some sp =>
      match IUFindSwitch sp "TELESCOPE_PRIMARY" with
      | some format =>
        if format.s = ISState.ISS_ON then
          done { ccd with telescopeType := TelescopeType.TELESCOPE_PRIMARY }
        else done { ccd with telescopeType := TelescopeType.TELESCOPE_GUIDE }
      | none => done { ccd with telescopeType := TelescopeType.TELESCOPE_GUIDE }
    | none => done ccd
  else if name = "CCD_WEBSOCKET_SETTINGS" then
    match prop.getNumber with
    | none => none
    | some np =>
      match np.np[0]? with
      | none => none
      | some first => done { ccd with mediaPort := some first.value }
  else if name = "CCD1" then
    match prop.getBLOB with
    | none => none
    | some bp => done { ccd with primaryCCDBLOB := some bp }
  else if (ccd.gainN = none ∨ ccd.offsetN = none) ∧ prop.getNumber.isSome then
    match prop.getNumber with
    | some controlNP => done (controlNP.np.enum.foldl (registerGainOffsetField controlNP) ccd)
    | none => done ccd
  else done ccd

/-! ## `CCD`: device commands -/

/-- The method `CCD::setCoolerControl`. -/
def CCD.setCoolerControl (ccd : CCD) (enable : Bool) : Bool × CCD :=
  if ccd.HasCoolerControl = false then (false, ccd)
  else
    match ccd.baseDevice.getSwitch "CCD_COOLER" with
    | none => (false, ccd)
    | some coolerSP =>
      match IUFindSwitch coolerSP "COOLER_ON", IUFindSwitch coolerSP "COOLER_OFF" with
      | some _, some _ =>
        (true, ccd.storeAndSendSwitch
          ((coolerSP.setState "COOLER_ON" (if enable then ISState.ISS_ON else ISState.ISS_OFF)).setState
            "COOLER_OFF" (if enable then ISState.ISS_OFF else ISState.ISS_ON)))
      | _, _ => (false, ccd)

/-- The switch name `setUploadMode` looks up for a mode. -/
def UploadMode.switchName : UploadMode → String
  | UploadMode.UPLOAD_CLIENT => "UPLOAD_CLIENT"
  | UploadMode.UPLOAD_BOTH => "UPLOAD_BOTH"
  | UploadMode.UPLOAD_LOCAL => "UPLOAD_LOCAL"

/-- The method `CCD::getUploadMode`. -/
def CCD.getUploadMode (ccd : CCD) : UploadMode :=
  match ccd.baseDevice.getSwitch "UPLOAD_MODE" with
  | none => UploadMode.UPLOAD_CLIENT
  | some uploadModeSP =>
    let isOn (n : String) : Bool :=
      match IUFindSwitch uploadModeSP n with
      | some modeS => modeS.s == ISState.ISS_ON
      | none => false
    if isOn "UPLOAD_CLIENT" then UploadMode.UPLOAD_CLIENT
    else if isOn "UPLOAD_LOCAL" then UploadMode.UPLOAD_LOCAL
    else if isOn "UPLOAD_BOTH" then UploadMode.UPLOAD_BOTH
    else UploadMode.UPLOAD_CLIENT

/-- The method `CCD::setUploadMode`. -/
def CCD.setUploadMode (ccd : CCD) (mode : UploadMode) : Bool × CCD :=
  match ccd.baseDevice.getSwitch "UPLOAD_MODE" with
  | none => (false, ccd)
  | some uploadModeSP =>
    match IUFindSwitch uploadModeSP mode.switchName with
    | none => (false, ccd)
    | some modeS =>
      if modeS.s = ISState.ISS_ON then (true, ccd)
      else
        (true, ccd.storeAndSendSwitch
          ((IUResetSwitch uploadModeSP).setState mode.switchName ISState.ISS_ON))

/-- The method `CCD::getTemperature`; `none` stands for an empty vector. -/
def CCD.getTemperature (ccd : CCD) : Option (Bool × Option ℚ) :=
  if ccd.HasCooler = false then some (false, none)
  else
    match ccd.baseDevice.getNumber "CCD_TEMPERATURE" with
    | none => some (false, none)
    | some temperatureNP =>
      match temperatureNP.np[0]? with
      | none => none
      | some first => some (true, some first.value)

/-- The method `CCD::setTemperature`. -/
def CCD.setTemperature (ccd : CCD) (value : ℚ) : Bool × CCD :=
  match ccd.baseDevice.getNumber "CCD_TEMPERATURE" with
  | none => (false, ccd)
  | some nvp =>
    match IUFindNumber nvp "CCD_TEMPERATURE_VALUE" with
    | none => (false, ccd)
    | some _ => (true, ccd.storeAndSendNumber (nvp.setValue "CCD_TEMPERATURE_VALUE" value))

/-- The method `CCD::setTransformFormat`. -/
def CCD.setTransformFormat (ccd : CCD) (format : TransferFormat) : Bool × CCD :=
  if format = ccd.transferFormat then (true, ccd)
  else
    match ccd.baseDevice.getSwitch "CCD_TRANSFER_FORMAT" with
    | none => (false, ccd)
    | some svp =>
      match IUFindSwitch svp "FORMAT_FITS", IUFindSwitch svp "FORMAT_NATIVE" with
      | some _, some _ =>
        (true, { ccd with transferFormat := format }.storeAndSendSwitch
          ((svp.setState "FORMAT_FITS"
              (if format = TransferFormat.FORMAT_FITS then ISState.ISS_ON else ISState.ISS_OFF)).setState
            "FORMAT_NATIVE"
              (if format = TransferFormat.FORMAT_FITS then ISState.ISS_OFF else ISState.ISS_ON)))
      | _, _ => (false, ccd)

/-- The method `CCD::setTelescopeType`; the closing `setConfig (SAVE_CONFIG)` is recorded in
`delegated`. -/
def CCD.setTelescopeType (ccd : CCD) (type : TelescopeType) : Bool × CCD :=
  if type = ccd.telescopeType then (true, ccd)
  else
    match ccd.baseDevice.getSwitch "TELESCOPE_TYPE" with
    | none => (false, ccd)
    | some svp =>
      match IUFindSwitch svp "TELESCOPE_PRIMARY", IUFindSwitch svp "TELESCOPE_GUIDE" with
      | some _, some _ =>
        let ccd1 := { ccd with telescopeType := type }.storeAndSendSwitch
          ((svp.setState "TELESCOPE_PRIMARY"
              (if type = TelescopeType.TELESCOPE_PRIMARY then ISState.ISS_ON
               else ISState.ISS_OFF)).setState
            "TELESCOPE_GUIDE"
              (if type = TelescopeType.TELESCOPE_PRIMARY then ISState.ISS_OFF
               else ISState.ISS_ON))
        (true, { ccd1 with delegated := ccd1.delegated ++ [Delegated.setConfigSave] })
      | _, _ => (false, ccd)

/-- The two writes `svp->sp[0].s = …; svp->sp[1].s = …` of the on / off pair commands. -/
def setOnOffPair (svp : ISwitchVectorProperty) (enable : Bool) : Option ISwitchVectorProperty :=
  match svp.setStateAt 0 (if enable then ISState.ISS_ON else ISState.ISS_OFF) with
  | none => none
  | some svp0 => svp0.setStateAt 1 (if enable then ISState.ISS_OFF else ISState.ISS_ON)

/-- The method `CCD::setVideoStreamEnabled`; `none` stands for a vector with fewer than two
switches. -/
def CCD.setVideoStreamEnabled (ccd : CCD) (enable : Bool) : Option (Bool × CCD) :=
  if ccd.HasVideoStream = false then some (false, ccd)
  else
    match ccd.baseDevice.getSwitch "CCD_VIDEO_STREAM" with
    | none => some (false, ccd)
    | some svp =>
      match svp.sp[if enable then 0 else 1]? with
      | none => none
      | some current =>
        if current.s = ISState.ISS_ON then some (true, ccd)
        else
          match setOnOffPair svp enable with
          | none => none
          | some svp' => some (true, ccd.storeAndSendSwitch svp')

/-- The method `CCD::setExposureLoopingEnabled`; `none` stands for a vector with fewer than
two switches. -/
def CCD.setExposureLoopingEnabled (ccd : CCD) (enable : Bool) : Option (Bool × CCD) :=
  let ccd1 := { ccd with IsLooping := enable }
  match ccd1.baseDevice.getSwitch "CCD_EXPOSURE_LOOP" with
  | none => some (false, ccd1)
  | some svp =>
    match setOnOffPair svp enable with
    | none => none
    | some svp' => some (true, ccd1.storeAndSendSwitch svp')

/-- The method `CCD::setExposureLoopCount`; `none` stands for an empty vector. -/
def CCD.setExposureLoopCount (ccd : CCD) (count : Nat) : Option (Bool × CCD) :=
  match ccd.baseDevice.getNumber "CCD_EXPOSURE_LOOP_COUNT" with
  | none => some (false, ccd)
  | some nvp =>
    match nvp.setValueAt 0 count with
    | none => none
    | some nvp' => some (true, ccd.storeAndSendNumber nvp')

/-- The method `CCD::setStreamExposure`; `none` stands for an empty vector. -/
def CCD.setStreamExposure (ccd : CCD) (duration : ℚ) : Option (Bool × CCD) :=
  match ccd.baseDevice.getNumber "STREAMING_EXPOSURE" with
  | none => some (false, ccd)
  | some nvp =>
    match nvp.setValueAt 0 duration with
    | none => none
    | some nvp' => some (true, ccd.storeAndSendNumber nvp')

/-- The method `CCD::setStreamingFrame`. -/
def CCD.setStreamingFrame (ccd : CCD) (x y w h : Int) : Bool × CCD :=
  match ccd.baseDevice.getNumber "CCD_STREAM_FRAME" with
  | none => (false, ccd)
  | some frameProp =>
    match IUFindNumber frameProp "X", IUFindNumber frameProp "Y",
          IUFindNumber frameProp "WIDTH", IUFindNumber frameProp "HEIGHT" with
    | some xarg, some yarg, some warg, some harg =>
      if notFabs (xarg.value - x) && notFabs (yarg.value - y) && notFabs (warg.value - w) &&
          notFabs (harg.value - h) then
        (true, ccd)
      else
        (true, ccd.storeAndSendNumber
          ((((frameProp.setValue "X" (qBound xarg.min ((x : ℚ) + xarg.value) xarg.max)).setValue
              "Y" (qBound yarg.min ((y : ℚ) + yarg.value) yarg.max)).setValue
              "WIDTH" (qBound warg.min (w : ℚ) warg.max)).setValue
              "HEIGHT" (qBound harg.min (h : ℚ) harg.max)))
    | _, _, _, _ => (false, ccd)

/-- The method `CCD::startRecording`. -/
def CCD.startRecording (ccd : CCD) : Bool × CCD :=
  match ccd.baseDevice.getSwitch "RECORD_STREAM" with
  | none => (false, ccd)
  | some svp =>
    match IUFindSwitch svp "RECORD_ON" with
    | none => (false, ccd)
    | some recordON =>
      if recordON.s = ISState.ISS_ON then (true, ccd)
      else (true, ccd.storeAndSendSwitch ((IUResetSwitch svp).setState "RECORD_ON" ISState.ISS_ON))

/-- The method `CCD::startDurationRecording`. -/
def CCD.startDurationRecording (ccd : CCD) (duration : ℚ) : Bool × CCD :=
  match ccd.baseDevice.getNumber "RECORD_OPTIONS" with
  | none => (false, ccd)
  | some nvp =>
    match IUFindNumber nvp "RECORD_DURATION" with
    | none => (false, ccd)
    | some _ =>
      match ccd.baseDevice.getSwitch "RECORD_STREAM" with
      | none => (false, ccd)
      | some svp =>
        match IUFindSwitch svp "RECORD_DURATION_ON" with
        | none => (false, ccd)
        | some recordON =>
          if recordON.s = ISState.ISS_ON then (true, ccd)
          else
            (true, (ccd.storeAndSendNumber (nvp.setValue "RECORD_DURATION" duration)).storeAndSendSwitch
              ((IUResetSwitch svp).setState "RECORD_DURATION_ON" ISState.ISS_ON))

/-- The method `CCD::startFramesRecording`. -/
def CCD.startFramesRecording (ccd : CCD) (frames : Nat) : Bool × CCD :=
  match ccd.baseDevice.getNumber "RECORD_OPTIONS" with
  | none => (false, ccd)
  | some nvp =>
    match IUFindNumber nvp "RECORD_FRAME_TOTAL", ccd.baseDevice.getSwitch "RECORD_STREAM" with
    | some _, some svp =>
      match IUFindSwitch svp "RECORD_FRAME_ON" with
      | none => (false, ccd)
      | some recordON =>
        if recordON.s = ISState.ISS_ON then (true, ccd)
        else
          (true, (ccd.storeAndSendNumber (nvp.setValue "RECORD_FRAME_TOTAL" frames)).storeAndSendSwitch
            ((IUResetSwitch svp).setState "RECORD_FRAME_ON" ISState.ISS_ON))
    | _, _ => (false, ccd)

/-- The method `CCD::stopRecording`. -/
def CCD.stopRecording (ccd : CCD) : Bool × CCD :=
  match ccd.baseDevice.getSwitch "RECORD_STREAM" with
  | none => (false, ccd)
  | some svp =>
    match IUFindSwitch svp "RECORD_OFF" with
    | none => (false, ccd)
    | some recordOFF =>
      if recordOFF.s = ISState.ISS_ON then (true, ccd)
      else (true, ccd.storeAndSendSwitch ((IUResetSwitch svp).setState "RECORD_OFF" ISState.ISS_ON))

/-! ## `CCD`: property updates -/

/-- The pointer `guideChip.get ()` as a signal argument: null while there is no guide chip. -/
def CCD.guideChipPtr (ccd : CCD) : Option ChipType :=
  ccd.guideChip.map (fun _ => ChipType.GUIDE_CCD)

/-- The rapid guide branch of `processNumber`, for the chip pointer `chip`. -/
def CCD.processRapidGuideData (ccd : CCD) (chip : Option ChipType)
    (nvp : INumberVectorProperty) : CCD :=
  if nvp.s = IPState.IPS_ALERT then ccd.emit (Signal.newGuideStarData chip (-1) (-1) (-1))
  else
    let dx : ℚ := match IUFindNumber nvp "GUIDESTAR_X" with
      | some np => np.value
      | none => -1
    let dy : ℚ := match IUFindNumber nvp "GUIDESTAR_Y" with
      | some np => np.value
      | none => -1
    let fit : ℚ := match IUFindNumber nvp "GUIDESTAR_FIT" with
      | some np => np.value
      | none => -1
    if dx ≥ 0 ∧ dy ≥ 0 ∧ fit ≥ 0 then ccd.emit (Signal.newGuideStarData chip dx dy fit)
    else ccd

/-- The method `CCD::processNumber`; `none` stands for an `FPS` vector with fewer than two
fields. -/
def CCD.processNumber (ccd : CCD) (nvp : INumberVectorProperty) : Option CCD :=
  let done (c : CCD) : Option CCD :=
    some { c with delegated := c.delegated ++ [Delegated.processNumber nvp.name] }
  if nvp.name = "CCD_EXPOSURE" then
    let ccd1 : CCD :=
      match IUFindNumber nvp "CCD_EXPOSURE_VALUE" with
      | some np => ccd.emit (Signal.newExposureValue (some ChipType.PRIMARY_CCD) np.value nvp.s)
      | none => ccd
    if nvp.s = IPState.IPS_ALERT then done (ccd1.emit Signal.captureFailed) else done ccd1
  else if nvp.name = "CCD_TEMPERATURE" then
    match IUFindNumber nvp "CCD_TEMPERATURE_VALUE" with
    | some np => done ({ ccd with HasCooler := true }.emit (Signal.newTemperatureValue np.value))
    | none => done { ccd with HasCooler := true }
  else if nvp.name = "GUIDER_EXPOSURE" then
    match IUFindNumber nvp "GUIDER_EXPOSURE_VALUE" with
    | some np => done (ccd.emit (Signal.newExposureValue ccd.guideChipPtr np.value nvp.s))
    | none => done ccd
  else if nvp.name = "FPS" then
    match nvp.np[0]?, nvp.np[1]? with
    | some n0, some n1 => done (ccd.emit (Signal.newFPS n0.value n1.value))
    | _, _ => none
  else if nvp.name = "CCD_RAPID_GUIDE_DATA" then
    done (ccd.processRapidGuideData (some ChipType.PRIMARY_CCD) nvp)
  else if nvp.name = "GUIDER_RAPID_GUIDE_DATA" then
    done (ccd.processRapidGuideData ccd.guideChipPtr nvp)
  else done ccd

/-- The size a new stream window gets in `processSwitch`: from `CCD_STREAM_FRAME`, else, with
the raw blob `CCD1` defined, from the frame divided by the binning, else the size kept in
`streamW`, `streamH`; `none` stands for a division by a zero binning. -/
def CCD.newStreamSize (ccd : CCD) : Option (Int × Int) :=
  match (match ccd.baseDevice.getNumber "CCD_STREAM_FRAME" with
         | some streamFrame =>
           (IUFindNumber streamFrame "WIDTH", IUFindNumber streamFrame "HEIGHT")
         | none => (none, none)) with
  | (some w, some h) => some (toInt w.value, toInt h.value)
  | _ =>
    match ccd.baseDevice.getBLOB "CCD1" with
    | none => some (ccd.streamW, ccd.streamH)
    | some _ =>
      let frame := (CCDChip.getFrame ccd ChipType.PRIMARY_CCD).2
      let bin := CCDChip.getBinning ccd ChipType.PRIMARY_CCD
      if bin.2.1 = 0 ∨ bin.2.2 = 0 then none
      else some (Int.tdiv (frame.w.getD 0) bin.2.1, Int.tdiv (frame.h.getD 0) bin.2.2)

/-- The method `CCD::processSwitch`; `none` stands for a read of `sp[0]` in an empty vector
and for the undefined case of `newStreamSize`. -/
def CCD.processSwitch (ccd : CCD) (svp : ISwitchVectorProperty) : Option CCD :=
  let done (c : CCD) : Option CCD :=
    some { c with delegated := c.delegated ++ [Delegated.processSwitch svp.name] }
  if svp.name = "CCD_COOLER" then
    match svp.sp[0]? with
    | none => none
    | some s0 =>
      done ({ ccd with HasCoolerControl := true }.emit
        (Signal.coolerToggled (s0.s == ISState.ISS_ON)))
  else if "VIDEO_STREAM".data.isSuffixOf svp.name.data then
    if ccd.blobEnabled = false then some ccd
    else
      match svp.sp[0]? with
      | none => none
      | some s0 =>
        let ccd1 : CCD := { ccd with HasVideoStream := true }
        let isOn : Bool := s0.s == ISState.ISS_ON
        let opened : Option CCD :=
          if ccd1.streamWindow.isNone && isOn then
            match ccd1.newStreamSize with
            | none => none
            | some (sw, sh) =>
              some { ccd1 with streamW := sw, streamH := sh
                               streamWindow := some { width := sw, height := sh } }
          else some ccd1
        match opened with
        | none => none
        | some ccd2 =>
          match ccd2.streamWindow with
          | some win =>
            done ({ ccd2 with streamWindow := some { win with streamEnabled := isOn } }.emit
              (Signal.videoStreamToggled isOn))
          | none => done ccd2
  else if svp.name = "CCD_TRANSFER_FORMAT" then
    match IUFindSwitch svp "FORMAT_NATIVE" with
    | some format =>
      if format.s = ISState.ISS_ON then
        done { ccd with transferFormat := TransferFormat.FORMAT_NATIVE }
      else done { ccd with transferFormat := TransferFormat.FORMAT_FITS }
    | none => done { ccd with transferFormat := TransferFormat.FORMAT_FITS }
  else if svp.name = "RECORD_STREAM" then
    let off : Bool :=
      match IUFindSwitch svp "RECORD_OFF" with
      | some recordOFF => recordOFF.s == ISState.ISS_ON
      | none => false
    if off then
      done ((ccd.emit (Signal.videoRecordToggled false)).notice "Video Recording Stopped")
    else
      done ((ccd.emit (Signal.videoRecordToggled true)).notice "Video Recording Started")
  else if svp.name = "TELESCOPE_TYPE" then
    match IUFindSwitch svp "TELESCOPE_PRIMARY" with
    | some format =>
      if format.s = ISState.ISS_ON then
        done { ccd with telescopeType := TelescopeType.TELESCOPE_PRIMARY }
      else done { ccd with telescopeType := TelescopeType.TELESCOPE_GUIDE }
    | none => done { ccd with telescopeType := TelescopeType.TELESCOPE_GUIDE }
  else if svp.name = "CCD_EXPOSURE_LOOP" then
    match IUFindSwitch svp "LOOP_ON" with
    | some looping => done { ccd with IsLooping := decide (looping.s = ISState.ISS_ON) }
    | none => done { ccd with IsLooping := false }
  else if ccd.streamWindow.isSome ∧ svp.name = "CONNECTION" then
    match IUFindSwitch svp "DISCONNECT" with
    | some dSwitch =>
      if dSwitch.s = ISState.ISS_ON then
        done ({ ccd with streamWindow := none }.emit (Signal.videoStreamToggled false))
      else done ccd
    | none => done ccd
  else done ccd

/-- The method `CCD::processText`. -/
def CCD.processText (ccd : CCD) (tvp : ITextVectorProperty) : CCD :=
  let ccd1 : CCD :=
    if tvp.name = "CCD_FILE_PATH" then
      match IUFindText tvp "FILE_PATH" with
      | some filepath => ccd.emit (Signal.newRemoteFile filepath.text)
      | none => ccd
    else ccd
  { ccd1 with delegated := ccd1.delegated ++ [Delegated.processText tvp.name] }

/-! ## Blob dispatcher and file materializer -/

/-- The conversion `QString::toLatin1`: a character outside Latin-1 becomes `?`. -/
def toLatin1 (s : String) : String :=
  String.mk (s.data.map (fun c => if c.toNat < 256 then c else '?'))

def RAWFormats : List String := ["cr2", "cr3", "crw", "nef", "raf", "dng", "arw"]

/-- The call `QString ().asprintf ("%03d", n)`: at least three characters, filled with zeros
after the sign. -/
def asprintf03d (n : Int) : String :=
  if n < 0 then
    "-" ++ String.mk (List.replicate (2 - (Nat.toDigits 10 n.natAbs).length) '0' ++
      Nat.toDigits 10 n.natAbs)
  else
    String.mk (List.replicate (3 - (Nat.toDigits 10 n.natAbs).length) '0' ++
      Nat.toDigits 10 n.natAbs)

/-- Replace every occurrence of `pat`, scanning from the left; `skip` counts the characters
of a match still to be passed over. -/
def replaceCharsAux (pat rep : List Char) : Nat → List Char → List Char
  | _, [] => []
  | skip + 1, _ :: cs => replaceCharsAux pat rep skip cs
  | 0, c :: cs =>
    if pat.isPrefixOf (c :: cs) then rep ++ replaceCharsAux pat rep (pat.length - 1) cs
    else c :: replaceCharsAux pat rep 0 cs

/-- The call `s.replace (before, after)` for a non-empty `before`. -/
def replaceStr (s before after : String) : String :=
  String.mk (replaceCharsAux before.data after.data 0 s.data)

/-- The method `CCD::processStream`; `none` stands for the use of a width or height that
`getFrame` has not written, or a division by a zero binning. -/
def CCD.processStream (ccd : CCD) (bp : IBLOB) : Option CCD :=
  match ccd.streamWindow with
  | none => some ccd
  | some win =>
    if win.streamEnabled = false then some ccd
    else
      let size : Option (Int × Int) :=
        match (match ccd.baseDevice.getNumber "CCD_STREAM_FRAME" with
               | some streamFrame =>
                 (IUFindNumber streamFrame "WIDTH", IUFindNumber streamFrame "HEIGHT")
               | none => (none, none)) with
        | (some w, some h) => some (toInt w.value, toInt h.value)
        | _ =>
          match (CCDChip.getFrame ccd ChipType.PRIMARY_CCD).2.w,
                (CCDChip.getFrame ccd ChipType.PRIMARY_CCD).2.h with
          | some w, some h =>
            let bin := CCDChip.getBinning ccd ChipType.PRIMARY_CCD
            if bin.2.1 = 0 ∨ bin.2.2 = 0 then none
            else some (Int.tdiv w bin.2.1, Int.tdiv h bin.2.2)
          | _, _ => none
      match size with
      | none => none
      | some (sw, sh) =>
        some { ccd with streamW := sw, streamH := sh
                        streamWindow := some { win with width := sw, height := sh, shown := true
                                                        frames := win.frames ++ [bp] } }

/-- The method `CCD::generateFilename`: whether the target could be opened, and its name. -/
def CCD.generateFilename (ext : Collaborators) (opts : Options) (ccd : CCD) (format : String)
    (batch_mode : Bool) : Bool × String :=
  let dir0 :=
    if batch_mode then (if ccd.fitsDir.isEmpty then opts.fitsDir else ccd.fitsDir)
    else ext.tempLocation
  let currentDir := if dir0.data.getLast? = some '/' then dir0 else dir0 ++ "/"
  let filename :=
    if containsStr ccd.seqPrefix "_ISO8601" then
      currentDir ++ replaceStr ccd.seqPrefix "ISO8601" ext.timestamp ++ "_" ++
        asprintf03d ccd.nextSequenceID ++ format
    else
      currentDir ++ ccd.seqPrefix ++ (if ccd.seqPrefix.isEmpty then "" else "_") ++
        asprintf03d ccd.nextSequenceID ++ format
  (ext.canOpenForWriting filename, filename)

/-- The method `CCD::writeImageFile`.  A FITS payload is copied and handed to the
background writer; any other payload is written in place.  Both end up in `fileWrites`. -/
def CCD.writeImageFile (ext : Collaborators) (ccd : CCD) (filename : String) (bp : IBLOB)
    (is_fits : Bool) : Bool × CCD :=
  if is_fits then
    (true, { ccd with fileWriteFilename := filename
                      fileWriteBufferSize := bp.size
                      fileWrites := ccd.fileWrites ++
                        [{ filename := filename, bytes := bp.blob.take bp.size,
                           addFitsKeywords := true, filter := ccd.filter }]
                      filter := "" })
  else if ext.canOpenForWriting filename then
    (true, { ccd with fileWrites := ccd.fileWrites ++
                        [{ filename := filename, bytes := bp.blob.take bp.size,
                           addFitsKeywords := false, filter := ccd.filter }] })
  else (false, ccd)

/-- The method `CCDChip::getImageView`, as the test `view != nullptr`. -/
def CCDChip.getImageView (chip : CCDChip) : FITSMode → Bool
  | FITSMode.FITS_NORMAL => chip.normalImage
  | FITSMode.FITS_FOCUS => chip.focusImage
  | FITSMode.FITS_GUIDE => chip.guideImage
  | FITSMode.FITS_CALIBRATE => chip.calibrationImage
  | FITSMode.FITS_ALIGN => chip.alignImage

/-- The method `CCDChip::setImageView` called with a view showing `data`. -/
def CCDChip.setImageView (chip : CCDChip) (data : FITSData) : FITSMode → CCDChip
  | FITSMode.FITS_NORMAL => { chip with normalImage := true, imageData := some data }
  | FITSMode.FITS_FOCUS => { chip with focusImage := true, imageData := some data }
  | FITSMode.FITS_GUIDE => { chip with guideImage := true, imageData := some data }
  | FITSMode.FITS_CALIBRATE => { chip with calibrationImage := true, imageData := some data }
  | FITSMode.FITS_ALIGN => { chip with alignImage := true, imageData := some data }

/-- The method `CCD::loadImageInView`. -/
def CCD.loadImageInView (ext : Collaborators) (ccd : CCD) (bp : IBLOB) (which : ChipType)
    (targetChip : CCDChip) (data : FITSData) : CCD :=
  if targetChip.getImageView targetChip.captureMode then
    if ext.viewLoadData data = false then
      ccd.emit (Signal.newExposureValue (some which) 0 IPState.IPS_ALERT)
    else
      (ccd.emit (Signal.BLOBUpdated (some bp))).emit (Signal.newImage (some data))
  else ccd

/-- The method `CCD::handleImage`.  The chip pointer is the pair of `which` (the chip it
points to) and `targetChip` (the chip object read through it). -/
def CCD.handleImage (ext : Collaborators) (opts : Options) (ccd0 : CCD) (which : ChipType)
    (targetChip : CCDChip) (bp : IBLOB) (data0 : FITSData) : CCD :=
  let captureMode := targetChip.captureMode
  let normalOrCalibrate : Bool :=
    captureMode = FITSMode.FITS_NORMAL ∨ captureMode = FITSMode.FITS_CALIBRATE
  let useViewer : Bool := opts.useFITSViewer || targetChip.batchMode == false
  let ccd : CCD :=
    if useViewer && !ccd0.viewerWindow && normalOrCalibrate then
      { ccd0 with viewerWindow := true, normalTabID := -1, calibrationTabID := -1 }
    else ccd0
  let data : FITSData :=
    { data0 with device := ccd.deviceName, blobVector := bp.bvp.name, blobElement := bp.name
                 chip := some targetChip.type }
  if normalOrCalibrate then
    if useViewer then
      match ext.viewerLoad data with
      | none => ccd.emit (Signal.newExposureValue (some which) 0 IPState.IPS_ALERT)
      | some tabIndex =>
        let ccd1 : CCD :=
          if captureMode = FITSMode.FITS_NORMAL then { ccd with normalTabID := tabIndex }
          else { ccd with calibrationTabID := tabIndex }
        let ccd2 := ccd1.modifyChip which (fun c => c.setImageView data captureMode)
        (ccd2.emit (Signal.BLOBUpdated (some bp))).emit (Signal.newImage (some data))
    else
      (ccd.emit (Signal.BLOBUpdated (some bp))).emit (Signal.newImage (some data))
  else
    ccd.loadImageInView ext bp which targetChip data

/-- The block of `processBLOB` that creates the file (source lines 1566 – 1578): the file
name and the state after the write, `none` when the name or the write fails. -/
def CCD.materializeBLOB (ext : Collaborators) (opts : Options) (ccd : CCD)
    (targetChip : CCDChip) (format : String) (bp : IBLOB) (is_fits : Bool) :
    Option (String × CCD) :=
  if targetChip.batchMode then
    let gen := ccd.generateFilename ext opts format targetChip.batchMode
    if gen.1 = false then none
    else
      let wr := ccd.writeImageFile ext gen.2 bp is_fits
      if wr.1 = false then none else some (gen.2, wr.2)
  else some (ext.tempPath ++ "/" ++ "image" ++ format, ccd)

/-- The block of `processBLOB` that tells the user (source lines 1586 – 1597): the status
bar line for a saved sequence file, and the notification at most once in three seconds. -/
def CCD.announceBLOB (ext : Collaborators) (ccd : CCD) (targetChip : CCDChip)
    (filename : String) : CCD :=
  let ccd1 : CCD :=
    if targetChip.captureMode = FITSMode.FITS_NORMAL ∧ targetChip.batchMode = true then
      ccd.notice ("file saved to " ++ filename)
    else ccd
  if ccd1.m_LastNotificationTS - ext.now ≤ -3 then
    { ccd1.notice "Image file is received" with m_LastNotificationTS := ext.now }
  else ccd1

/-- The block of `processBLOB` that decodes and shows the payload (source lines
1687 – 1709). -/
def CCD.displayBLOB (ext : Collaborators) (opts : Options) (ccd : CCD) (which : ChipType)
    (targetChip : CCDChip) (bp : IBLOB) (shortFormat filename : String) : CCD :=
  if (targetChip.captureMode = FITSMode.FITS_NORMAL ∨
        targetChip.captureMode = FITSMode.FITS_CALIBRATE) ∧
      opts.useFITSViewer = false ∧ opts.useSummaryPreview = false ∧
      targetChip.batchMode = true then
    (ccd.emit (Signal.BLOBUpdated (some bp))).emit (Signal.newImage none)
  else if ext.loadFromBuffer (bp.blob.take bp.size) shortFormat filename = false then
    ccd.emit (Signal.newExposureValue (some which) 0 IPState.IPS_ALERT)
  else
    ccd.handleImage ext opts which targetChip bp { mode := targetChip.captureMode }

/-- The method `CCD::processBLOB`; `none` stands for a payload on `CCD2` while there is no
guide chip, and for the undefined cases of `processStream`. -/
def CCD.processBLOB (ext : Collaborators) (opts : Options) (ccd0 : CCD) (bp : IBLOB) :
    Option CCD :=
  if bp.bvp.p = IPerm.IP_WO ∨ bp.size = 0 then some ccd0
  else
    let ccd1 : CCD := { ccd0 with BType := BlobType.BLOB_OTHER }
    let format := toLower bp.format
    if containsStr format "stream" ∧ ccd1.streamWindow.isSome then ccd1.processStream bp
    else
      let shortFormat := mid1 format
      let BType : BlobType :=
        if ext.supportedImageFormats.contains (toLatin1 shortFormat) then BlobType.BLOB_IMAGE
        else if containsStr format "fits" then BlobType.BLOB_FITS
        else if RAWFormats.contains shortFormat then BlobType.BLOB_RAW
        else BlobType.BLOB_OTHER
      let ccd2 : CCD := { ccd1 with BType := BType }
      if BType = BlobType.BLOB_OTHER then
        some { ccd2 with delegated := ccd2.delegated ++ [Delegated.processBLOB bp] }
      else
        let which := if bp.name = "CCD2" then ChipType.GUIDE_CCD else ChipType.PRIMARY_CCD
        match ccd2.getChip which with
        | none => none
        | some targetChip =>
          match ccd2.materializeBLOB ext opts targetChip format bp
              (BType = BlobType.BLOB_FITS) with
          | none => some (ccd2.emit (Signal.BLOBUpdated none))
          | some (filename, ccd3) =>
            some ((ccd3.announceBLOB ext targetChip filename).displayBLOB ext opts which
              targetChip bp shortFormat filename)

/-- The classification order in the words of the specification: the format without its
leading separator on the raster allow-list gives image; otherwise a format containing
`fits` gives FITS; otherwise the format without its leading separator among the raw camera
extensions gives raw; otherwise other. -/
def blobTypeInOrder (allowList : List String) (format : String) : BlobType :=
  if toLatin1 (mid1 format) ∈ allowList then BlobType.BLOB_IMAGE
  else if containsStr format "fits" = true then BlobType.BLOB_FITS
  else if mid1 format ∈ ["cr2", "cr3", "crw", "nef", "raf", "dng", "arw"] then BlobType.BLOB_RAW
  else BlobType.BLOB_OTHER

/-! ## A reader of decimal labels

`QString::toDouble` belongs to Qt.  The theorems take it through `Collaborators.toDouble`;
the reader below covers plain decimal literals (`30`, `0.25`, `-1.5`) and serves as the
reader of the sample devices. -/

/-- Read a run of decimal digits, `acc` holding the value read so far. -/
def readDigits : List Char → Nat → Option Nat
  | [], acc => some acc
  | c :: cs, acc => if c.isDigit then readDigits cs (10 * acc + (c.toNat - 48)) else none

/-- Read `digits` or `digits.digits`, with at least one digit in all. -/
def readUnsigned (cs : List Char) : Option ℚ :=
  let whole := cs.takeWhile (fun c => c != '.')
  match cs.dropWhile (fun c => c != '.') with
  | [] => if whole = [] then none else (readDigits whole 0).map (fun n => (n : ℚ))
  | _ :: frac =>
    if whole = [] ∧ frac = [] then none
    else
      match readDigits whole 0, readDigits frac 0 with
      | some n, some f => some ((n : ℚ) + (f : ℚ) / (10 : ℚ) ^ frac.length)
      | _, _ => none

/-- Read an optionally signed decimal literal. -/
def readDecimal (s : String) : Option ℚ :=
  match s.data with
  | '-' :: cs => (readUnsigned cs).map (fun q => -q)
  | '+' :: cs => readUnsigned cs
  | cs => readUnsigned cs

/-! ## The operations as data -/

/-- The chip operations that work on a backing property, with their arguments. -/
inductive ChipOp where
  | getFrame
  | setFrame (x y w h : Int) (force : Bool)
  | resetFrame
  | getFrameMinMax
  | capture (exposure : ℚ)
  | abortExposure
  | setBinning (bin_x bin_y : Int)
  | getBinning
  | getMaxBin
  | setISOIndex (value : Int)
  | setFrameType (fType : CCDFrameType)
  | setFrameTypeByName (name : String)
  | getBayerInfo
  | setImageInfo (width height : Nat) (pixelX pixelY : ℚ) (bitdepth : Nat)
  | getImageInfo
deriving DecidableEq, Repr

/-- Whether the property a chip operation works on is absent from the device. -/
def ChipOp.backingAbsent (ccd : CCD) (type : ChipType) : ChipOp → Bool
  | ChipOp.getFrame | ChipOp.setFrame _ _ _ _ _ | ChipOp.resetFrame | ChipOp.getFrameMinMax =>
    (ccd.chipNumber type "CCD_FRAME" "GUIDER_FRAME").isNone
  | ChipOp.capture _ => (ccd.chipNumber type "CCD_EXPOSURE" "GUIDER_EXPOSURE").isNone
  | ChipOp.abortExposure =>
    (ccd.chipSwitch type "CCD_ABORT_EXPOSURE" "GUIDER_ABORT_EXPOSURE").isNone
  | ChipOp.setBinning _ _ | ChipOp.getBinning | ChipOp.getMaxBin =>
    (ccd.chipNumber type "CCD_BINNING" "GUIDER_BINNING").isNone
  | ChipOp.setISOIndex _ => (ccd.baseDevice.getSwitch "CCD_ISO").isNone
  | ChipOp.setFrameType _ | ChipOp.setFrameTypeByName _ =>
    (ccd.chipSwitch type "CCD_FRAME_TYPE" "GUIDER_FRAME_TYPE").isNone
  | ChipOp.getBayerInfo => (ccd.baseDevice.getText "CCD_CFA").isNone
  | ChipOp.setImageInfo _ _ _ _ _ | ChipOp.getImageInfo =>
    (ccd.chipNumber type "CCD_INFO" "GUIDER_INFO").isNone

/-- Run a chip operation: the boolean it returns and the state it leaves; `none` is the
undefined case of the operation. -/
def ChipOp.run (ext : Collaborators) (opts : Options) (ccd : CCD) (type : ChipType) :
    ChipOp → Option (Bool × CCD)
  | ChipOp.getFrame => some ((CCDChip.getFrame ccd type).1, ccd)
  | ChipOp.setFrame x y w h force => some (CCDChip.setFrame ccd type x y w h force)
  | ChipOp.resetFrame => some (CCDChip.resetFrame ccd type)
  | ChipOp.getFrameMinMax => some ((CCDChip.getFrameMinMax ccd type).1, ccd)
  | ChipOp.capture exposure => CCDChip.capture opts ccd type exposure
  | ChipOp.abortExposure => some (CCDChip.abortExposure ccd type)
  | ChipOp.setBinning bin_x bin_y => some (CCDChip.setBinning ccd type bin_x bin_y)
  | ChipOp.getBinning => some ((CCDChip.getBinning ccd type).1, ccd)
  | ChipOp.getMaxBin => some ((CCDChip.getMaxBin ccd type).1, ccd)
  | ChipOp.setISOIndex value => CCDChip.setISOIndex ccd value
  | ChipOp.setFrameType fType => some (CCDChip.setFrameType ccd type fType)
  | ChipOp.setFrameTypeByName name => some (CCDChip.setFrameTypeByName ccd type name)
  | ChipOp.getBayerInfo => (CCDChip.getBayerInfo ext ccd).map (fun r => (r.1, ccd))
  | ChipOp.setImageInfo width height pixelX pixelY bitdepth =>
    CCDChip.setImageInfo ext ccd type width height pixelX pixelY bitdepth
  | ChipOp.getImageInfo => (CCDChip.getImageInfo ccd type).map (fun r => (r.1, ccd))

/-- The device commands that work on a backing property, with their arguments. -/
inductive DeviceCmd where
  | setCoolerControl (enable : Bool)
  | setUploadMode (mode : UploadMode)
  | setTemperature (value : ℚ)
  | setTransformFormat (format : TransferFormat)
  | setTelescopeType (type : TelescopeType)
  | setVideoStreamEnabled (enable : Bool)
  | setExposureLoopingEnabled (enable : Bool)
  | setExposureLoopCount (count : Nat)
  | setStreamExposure (duration : ℚ)
  | setStreamingFrame (x y w h : Int)
  | startRecording
  | startDurationRecording (duration : ℚ)
  | startFramesRecording (frames : Nat)
  | stopRecording
deriving DecidableEq, Repr

/-- Whether a property a device command works on is absent from the device. -/
def DeviceCmd.backingAbsent (ccd : CCD) : DeviceCmd → Bool
  | DeviceCmd.setCoolerControl _ => (ccd.baseDevice.getSwitch "CCD_COOLER").isNone
  | DeviceCmd.setUploadMode _ => (ccd.baseDevice.getSwitch "UPLOAD_MODE").isNone
  | DeviceCmd.setTemperature _ => (ccd.baseDevice.getNumber "CCD_TEMPERATURE").isNone
  | DeviceCmd.setTransformFormat _ => (ccd.baseDevice.getSwitch "CCD_TRANSFER_FORMAT").isNone
  | DeviceCmd.setTelescopeType _ => (ccd.baseDevice.getSwitch "TELESCOPE_TYPE").isNone
  | DeviceCmd.setVideoStreamEnabled _ => (ccd.baseDevice.getSwitch "CCD_VIDEO_STREAM").isNone
  | DeviceCmd.setExposureLoopingEnabled _ =>
    (ccd.baseDevice.getSwitch "CCD_EXPOSURE_LOOP").isNone
  | DeviceCmd.setExposureLoopCount _ =>
    (ccd.baseDevice.getNumber "CCD_EXPOSURE_LOOP_COUNT").isNone
  | DeviceCmd.setStreamExposure _ => (ccd.baseDevice.getNumber "STREAMING_EXPOSURE").isNone
  | DeviceCmd.setStreamingFrame _ _ _ _ => (ccd.baseDevice.getNumber "CCD_STREAM_FRAME").isNone
  | DeviceCmd.startRecording | DeviceCmd.stopRecording =>
    (ccd.baseDevice.getSwitch "RECORD_STREAM").isNone
  | DeviceCmd.startDurationRecording _ | DeviceCmd.startFramesRecording _ =>
    (ccd.baseDevice.getNumber "RECORD_OPTIONS").isNone ||
      (ccd.baseDevice.getSwitch "RECORD_STREAM").isNone

/-- Run a device command: the boolean it returns and the state it leaves; `none` is the
undefined case of the command. -/
def DeviceCmd.run (ccd : CCD) : DeviceCmd → Option (Bool × CCD)
  | DeviceCmd.setCoolerControl enable => some (ccd.setCoolerControl enable)
  | DeviceCmd.setUploadMode mode => some (ccd.setUploadMode mode)
  | DeviceCmd.setTemperature value => some (ccd.setTemperature value)
  | DeviceCmd.setTransformFormat format => some (ccd.setTransformFormat format)
  | DeviceCmd.setTelescopeType type => some (ccd.setTelescopeType type)
  | DeviceCmd.setVideoStreamEnabled enable => ccd.setVideoStreamEnabled enable
  | DeviceCmd.setExposureLoopingEnabled enable => ccd.setExposureLoopingEnabled enable
  | DeviceCmd.setExposureLoopCount count => ccd.setExposureLoopCount count
  | DeviceCmd.setStreamExposure duration => ccd.setStreamExposure duration
  | DeviceCmd.setStreamingFrame x y w h => some (ccd.setStreamingFrame x y w h)
  | DeviceCmd.startRecording => some ccd.startRecording
  | DeviceCmd.startDurationRecording duration => some (ccd.startDurationRecording duration)
  | DeviceCmd.startFramesRecording frames => some (ccd.startFramesRecording frames)
  | DeviceCmd.stopRecording => some ccd.stopRecording

/-! ## Sample devices and collaborators -/

/-- Collaborators for the worked examples: the decimal reader, a desktop whose image reader
knows the usual raster formats, and a viewer that accepts everything. -/
def sampleCollaborators : Collaborators :=
  { toDouble := readDecimal
    qstringToInt := fun s => (readDigits s.data 0).elim 0 (fun n => (n : Int))
    hypotf := fun a b => max |a| |b|
    supportedImageFormats := ["bmp", "gif", "jpeg", "jpg", "png", "tif", "tiff"]
    canOpenForWriting := fun _ => true
    timestamp := "2021-03-04T05-06-07"
    now := 100
    tempLocation := "/tmp"
    tempPath := "/tmp"
    loadFromBuffer := fun _ _ _ => true
    viewerLoad := fun _ => some 0
    viewLoadData := fun _ => true }

/-- The switch vector a camera body sends for its shutter presets. -/
def shutterPresets (labels : List String) : Property :=
  Property.switch { name := "CCD_EXPOSURE_PRESETS"
                    sp := labels.map (fun l => { name := "PRESET", label := l }) }

/-- A camera with a full frame of 1280 × 1024 and 1 × 1 binning, up to 4 × 4. -/
def sampleCamera : CCD :=
  { deviceName := "CCD Simulator"
    baseDevice :=
      { numbers :=
          [ { name := "CCD_FRAME"
              np := [ { name := "X", value := 0, min := 0, max := 1279 },
                      { name := "Y", value := 0, min := 0, max := 1023 },
                      { name := "WIDTH", value := 1280, min := 1, max := 1280 },
                      { name := "HEIGHT", value := 1024, min := 1, max := 1024 } ] },
            { name := "CCD_BINNING"
              np := [ { name := "HOR_BIN", value := 1, min := 1, max := 4 },
                      { name := "VER_BIN", value := 1, min := 1, max := 4 } ] },
            { name := "CCD_EXPOSURE"
              np := [ { name := "CCD_EXPOSURE_VALUE", value := 1, min := 0, max := 3600 } ] } ] } }

/-- A camera whose binning vector declares no range (`min = max = 0`) and reports 2 × 2. -/
def unboundedBinCamera : CCD :=
  { deviceName := "Guide Camera"
    baseDevice :=
      { numbers :=
          [ { name := "CCD_BINNING"
              np := [ { name := "HOR_BIN", value := 2, min := 0, max := 0 },
                      { name := "VER_BIN", value := 2, min := 0, max := 0 } ] } ] } }

/-- A camera that has not defined any property yet. -/
def bareCamera : CCD := { deviceName := "CCD Simulator" }

/-- A raw frame of a DSLR arriving on the primary blob channel. -/
def rawFrame : IBLOB :=
  { name := "CCD1", format := ".cr2", blob := [73, 73, 42, 0], size := 4
    bvp := { name := "CCD1", p := IPerm.IP_RO } }

/-- The sample camera with an open stream window that is enabled. -/
def streamingCamera : CCD :=
  { sampleCamera with streamWindow := some { streamEnabled := true } }

/-- A live frame on the primary blob channel. -/
def streamFrame : IBLOB :=
  { name := "CCD1", format := ".fits.stream", blob := [1, 2, 3, 4], size := 4
    bvp := { name := "CCD1", p := IPerm.IP_RO } }

/-- A payload whose format no classification rule knows. -/
def unknownFrame : IBLOB :=
  { name := "CCD1", format := ".xyz", blob := [1, 2, 3, 4], size := 4
    bvp := { name := "CCD1", p := IPerm.IP_RO } }

/-- The echo of a blob vector the client may only write. -/
def echoFrame : IBLOB :=
  { name := "CCD1", format := ".fits", blob := [1, 2, 3, 4], size := 4
    bvp := { name := "CCD1", p := IPerm.IP_WO } }

/-- A FITS frame on the primary blob channel. -/
def fitsFrame : IBLOB :=
  { name := "CCD1", format := ".fits", blob := [83, 73, 77, 80], size := 4
    bvp := { name := "CCD1", p := IPerm.IP_RO } }

/-- The sample collaborators with an image decoder that rejects every buffer. -/
def failingDecoder : Collaborators :=
  { sampleCollaborators with loadFromBuffer := fun _ _ _ => false }

/-- The sample collaborators on a desktop whose image reader has a raw plugin: the list of
`QImageReader::supportedImageFormats ()` holds the camera formats too. -/
def rawReader : Collaborators :=
  { sampleCollaborators with
    supportedImageFormats :=
      ["arw", "bmp", "cr2", "crw", "dng", "gif", "jpeg", "jpg", "nef", "png", "raf", "tif",
       "tiff"] }

/-- A directory closed by one separator: the text `<dir>/` of the file name pattern. -/
def closeDirectory (dir : String) : String :=
  if dir.data.getLast? = some '/' then dir else dir ++ "/"

/-- The text `<dir>/` in batch mode: the capture directory of the device, or the configured
default when that is empty, closed by one separator. -/
def sequenceDirectory (opts : Options) (ccd : CCD) : String :=
  closeDirectory (if ccd.fitsDir = "" then opts.fitsDir else ccd.fitsDir)

/-- Whether the characters `cs` follow the picture `ps`, where `d` stands for any decimal
digit and every other character for itself. -/
def followsPicture : List Char → List Char → Bool
  | [], [] => true
  | p :: ps, c :: cs =>
    (if p = 'd' then c.isDigit else p == c) && followsPicture ps cs
  | _, _ => false

/-- Whether a text has the shape of `QDateTime::toString ("yyyy-MM-ddThh-mm-ss")`: four
digits of the year, then month, day, hour, minute and second with two digits each. -/
def timestampShape (ts : String) : Bool :=
  followsPicture "dddd-dd-ddTdd-dd-dd".data ts.data

/-- The sample camera in a capture sequence: directory `/data`, prefix `Light`, counter 7. -/
def sequenceCamera : CCD :=
  { sampleCamera with fitsDir := "/data", seqPrefix := "Light", nextSequenceID := 7 }

/-- The sample camera after a subframe of 640 × 480 at (16, 8) has been set. -/
def subframedCamera : CCD :=
  { deviceName := "CCD Simulator"
    baseDevice :=
      { numbers :=
          [ { name := "CCD_FRAME"
              np := [ { name := "X", value := 16, min := 0, max := 1279 },
                      { name := "Y", value := 8, min := 0, max := 1023 },
                      { name := "WIDTH", value := 640, min := 1, max := 1280 },
                      { name := "HEIGHT", value := 480, min := 1, max := 1024 } ] } ] } }

/-- The frame type vector of a camera with the given switch on. -/
def frameTypeVector (selected : String) : ISwitchVectorProperty :=
  { name := "CCD_FRAME_TYPE"
    sp := ["FRAME_LIGHT", "FRAME_BIAS", "FRAME_DARK", "FRAME_FLAT"].map (fun n =>
      { name := n, s := if n = selected then ISState.ISS_ON else ISState.ISS_OFF }) }

/-- A camera set to light frames, its primary chip in the normal capture mode. -/
def lightFrameCamera : CCD :=
  { deviceName := "CCD Simulator"
    baseDevice := { switches := [frameTypeVector "FRAME_LIGHT"] } }

/-- A camera that reports dark frames as selected, its primary chip in the normal capture
mode. -/
def darkFrameCamera : CCD :=
  { deviceName := "CCD Simulator"
    baseDevice := { switches := [frameTypeVector "FRAME_DARK"] } }

/-- A DSLR body with four ISO settings, `200` selected. -/
def isoCamera : CCD :=
  { deviceName := "DSLR"
    baseDevice :=
      { switches :=
          [ { name := "CCD_ISO"
              sp := [ { name := "ISO0", label := "100" },
                      { name := "ISO1", label := "200", s := ISState.ISS_ON },
                      { name := "ISO2", label := "400" },
                      { name := "ISO3", label := "800" } ] } ] } }

/-- The sample camera with a guide head. -/
def guideHeadCamera : CCD :=
  { sampleCamera with HasGuideHead := true, guideChip := some { type := ChipType.GUIDE_CCD } }

/-- An exposure vector reporting a failed exposure with `value` seconds left. -/
def failedExposure (vector field : String) (value : ℚ) : INumberVectorProperty :=
  { name := vector, s := IPState.IPS_ALERT, np := [ { name := field, value := value } ] }

/-! ## The events delivered to the device -/

/-- A call the INDI listener makes on the device: a property has been defined
(`registerProperty`) or has changed (`processNumber`, `processSwitch`, `processText`,
`processBLOB`). -/
inductive DeviceEvent where
  | registerProperty (prop : Property)
  | processNumber (nvp : INumberVectorProperty)
  | processSwitch (svp : ISwitchVectorProperty)
  | processText (tvp : ITextVectorProperty)
  | processBLOB (bp : IBLOB)
deriving DecidableEq, Repr

/-- Deliver one event; `none` is the undefined case of the method called. -/
def CCD.deliver (ext : Collaborators) (opts : Options) (ccd : CCD) : DeviceEvent → Option CCD
  | DeviceEvent.registerProperty prop => CCD.registerProperty ext ccd prop
  | DeviceEvent.processNumber nvp => ccd.processNumber nvp
  | DeviceEvent.processSwitch svp => ccd.processSwitch svp
  | DeviceEvent.processText tvp => some (ccd.processText tvp)
  | DeviceEvent.processBLOB bp => ccd.processBLOB ext opts bp

/-- Deliver a sequence of events, the first one first. -/
def CCD.deliverAll (ext : Collaborators) (opts : Options) (ccd : CCD) :
    List DeviceEvent → Option CCD
  | [] => some ccd
  | e :: es =>
    match ccd.deliver ext opts e with
    | none => none
    | some ccd1 => ccd1.deliverAll ext opts es

/-- The capability flags of a chip: `CanBin`, `CanSubframe`, `CanAbort`. -/
def CCDChip.capabilities (chip : CCDChip) : Bool × Bool × Bool :=
  (chip.CanBin, chip.CanSubframe, chip.CanAbort)

/-- The capability flags of the device: `HasCooler`, `HasCoolerControl`, `HasVideoStream`,
`HasGuideHead`. -/
def CCD.capabilities (ccd : CCD) : Bool × Bool × Bool × Bool :=
  (ccd.HasCooler, ccd.HasCoolerControl, ccd.HasVideoStream, ccd.HasGuideHead)

/-- Every capability flag of the chip that is true before is true after. -/
def CCDChip.flagsKept (before after : CCDChip) : Prop :=
  (before.CanBin = true → after.CanBin = true) ∧
  (before.CanSubframe = true → after.CanSubframe = true) ∧
  (before.CanAbort = true → after.CanAbort = true)

/-- Every capability flag of the device that is true before is true after. -/
def CCD.flagsKept (before after : CCD) : Prop :=
  (before.HasCooler = true → after.HasCooler = true) ∧
  (before.HasCoolerControl = true → after.HasCoolerControl = true) ∧
  (before.HasVideoStream = true → after.HasVideoStream = true) ∧
  (before.HasGuideHead = true → after.HasGuideHead = true)

/-- A guide chip that exists before exists after, with every true flag still true. -/
def CCD.guideFlagsKept (before after : CCD) : Prop :=
  ∀ g, before.guideChip = some g → ∃ g', after.guideChip = some g' ∧ g.flagsKept g'

/-- The definition of a guide head property by the driver: a number vector the client may
write. -/
def guiderNumber (name : String) : Property :=
  Property.number { name := name, p := IPerm.IP_RW, np := [] }

/-- The capability flags of the primary chip, of the guide chip when there is one, and of
the device. -/
def CCD.allCapabilities (ccd : CCD) :
    (Bool × Bool × Bool) × Option (Bool × Bool × Bool) × (Bool × Bool × Bool × Bool) :=
  (ccd.primaryChip.capabilities, ccd.guideChip.map CCDChip.capabilities, ccd.capabilities)

/-- What the gain pointer and the offset pointer refer to, with the permissions stored
beside them. -/
def CCD.bindings (ccd : CCD) : Option FieldRef × IPerm × Option FieldRef × IPerm :=
  (ccd.gainN, ccd.gainPerm, ccd.offsetN, ccd.offsetPerm)

/-- The gain vector of a camera that has no offset control. -/
def gainVector : Property :=
  Property.number { name := "CCD_GAIN", p := IPerm.IP_RW, np := [ { name := "GAIN", value := 10 } ] }

/-- A read-only vector of housekeeping values, one of them labelled `Gain`. -/
def statusVector : Property :=
  Property.number { name := "CCD_STATUS", p := IPerm.IP_RO
                    np := [ { name := "TEMPERATURE", label := "Sensor", value := 20 },
                            { name := "ADC", label := "Gain", value := 3 } ] }

/-- A rapid guide vector of the primary chip reporting a star at `(x, y)` with fit `fit`. -/
def guideStar (x y fit : ℚ) : INumberVectorProperty :=
  { name := "CCD_RAPID_GUIDE_DATA", s := IPState.IPS_OK
    np := [ { name := "GUIDESTAR_X", value := x }, { name := "GUIDESTAR_Y", value := y },
            { name := "GUIDESTAR_FIT", value := fit } ] }

/-! ## The background file writer

`writeImageFile` hands a FITS payload to `QtConcurrent::run`.  The members it shares with
that thread are modelled on their own: the future `fileWriteThread`, the buffer the thread
reads from, and the files on the disk.  The thread advances in steps of one byte, so that a
step of the thread can fall between any two statements of the device. -/

/-- A running call of `WriteImageFileInternal`: its arguments (the buffer is passed by
pointer and read from `fileWriteBuffer` while the call runs) and the bytes written so far. -/
structure WriteTask where
  filename : String
  size : Nat
  add_fits_keywords : Bool
  filter : String
  written : List Nat := []
deriving DecidableEq, Repr

/-- A file as `WriteImageFileInternal` leaves it: the bytes, and the `FILTER` keyword when
`addFITSKeywords` has been called. -/
structure DiskFile where
  filename : String
  bytes : List Nat
  filterKeyword : Option String
deriving DecidableEq, Repr

/-- The members of `ISD::CCD` that `writeImageFile` works on, and the disk. -/
structure FileWriter where
  /-- The future `fileWriteThread`: `some` while `isRunning ()` is true. -/
  fileWriteThread : Option WriteTask := none
  fileWriteBuffer : List Nat := []
  fileWriteBufferSize : Nat := 0
  fileWriteFilename : String := ""
  filter : String := ""
  disk : List DiskFile := []
deriving DecidableEq, Repr

/-- One step of the background thread inside `WriteImageFileInternal`: the next byte is read
from the buffer and written, or, with all `size` bytes written, the file is closed, the
keyword added and the future finishes.  `none` stands for a read outside the buffer. -/
def FileWriter.threadStep (w : FileWriter) : Option FileWriter :=
  match w.fileWriteThread with
  | none => some w
  | some t =>
    if t.written.length < t.size then
      match w.fileWriteBuffer[t.written.length]? with
      | none => none
      | some b => some { w with fileWriteThread := some { t with written := t.written ++ [b] } }
    else
      some { w with
        fileWriteThread := none
        disk := w.disk ++
          [{ filename := t.filename, bytes := t.written
             filterKeyword := if t.add_fits_keywords then some t.filter else none }] }

/-- The background thread makes `k` steps. -/
def FileWriter.threadSteps (w : FileWriter) : Nat → Option FileWriter
  | 0 => some w
  | k + 1 =>
    match w.threadStep with
    | none => none
    | some w1 => w1.threadSteps k

/-- The call `fileWriteThread.waitForFinished ()`: the caller stands still while the thread
makes the steps it has left. -/
def FileWriter.waitForFinished (w : FileWriter) : Option FileWriter :=
  match w.fileWriteThread with
  | none => some w
  | some t => w.threadSteps (t.size - t.written.length + 1)

/-- The call `memcpy (dst, src, n)` on the contents of `dst`. -/
def memcpy (dst src : List Nat) (n : Nat) : List Nat :=
  src.take n ++ dst.drop n

/-- The FITS branch of `CCD::writeImageFile` (source lines 1442 – 1472) on the shared
members.  A fresh buffer is filled with zeros here; `memcpy` overwrites it. -/
def FileWriter.writeImageFile (w : FileWriter) (filename : String) (bp : IBLOB) :
    Option (Bool × FileWriter) :=
  match (if w.fileWriteThread.isSome then w.waitForFinished else some w) with
  | none => none
  | some w1 =>
    let w2 : FileWriter := { w1 with fileWriteFilename := filename }
    let w3 : FileWriter :=
      if w2.fileWriteBufferSize ≠ bp.size then
        { w2 with fileWriteBufferSize := bp.size, fileWriteBuffer := List.replicate bp.size 0 }
      else w2
    let w4 : FileWriter := { w3 with fileWriteBuffer := memcpy w3.fileWriteBuffer bp.blob bp.size }
    some (true,
      { w4 with
        fileWriteThread := some { filename := w4.fileWriteFilename, size := bp.size
                                  add_fits_keywords := true, filter := w4.filter }
        filter := "" })

/-- The part of the destructor `CCD::~CCD` that concerns the writer (source lines 912 – 915):
wait for a running write, then free the buffer. -/
def FileWriter.destroy (w : FileWriter) : Option FileWriter :=
  match (if w.fileWriteThread.isSome then w.waitForFinished else some w) with
  | none => none
  | some w1 => some { w1 with fileWriteBuffer := [], fileWriteBufferSize := 0 }

/-- The file a FITS payload is meant to become. -/
def fitsFile (filename : String) (bp : IBLOB) (filter : String) : DiskFile :=
  { filename := filename, bytes := bp.blob.take bp.size, filterKeyword := some filter }

/-- The second frame of a sequence. -/
def secondFrame : IBLOB :=
  { name := "CCD1", format := ".fits", blob := [70, 73, 84, 83], size := 4
    bvp := { name := "CCD1", p := IPerm.IP_RO } }

/-- The writer after the running call `t` has written its `size` bytes and returned. -/
def FileWriter.finish (w : FileWriter) (t : WriteTask) : FileWriter :=
  { w with
    fileWriteThread := none
    disk := w.disk ++
      [{ filename := t.filename, bytes := w.fileWriteBuffer.take t.size
         filterKeyword := if t.add_fits_keywords then some t.filter else none }] }

/-- A camera that reports its sensor: 1280 × 1024 pixels of 5.2 µm, 16 bits per pixel. -/
def infoCamera : CCD :=
  { deviceName := "CCD Simulator"
    baseDevice :=
      { numbers :=
          [ { name := "CCD_INFO", p := IPerm.IP_RO
              np := [ { name := "CCD_MAX_X", value := 1280 },
                      { name := "CCD_MAX_Y", value := 1024 },
                      { name := "CCD_PIXEL_SIZE", value := 26 / 5 },
                      { name := "CCD_PIXEL_SIZE_X", value := 26 / 5 },
                      { name := "CCD_PIXEL_SIZE_Y", value := 26 / 5 },
                      { name := "CCD_BITSPERPIXEL", value := 16 } ] } ] } }

/-- Whether a signal tells the listeners what became of a payload for the chip `which`:
a blob-updated signal, a new-image signal, or the exposure progress `(which, 0, alert)`. -/
def Signal.isReceipt (which : ChipType) : Signal → Bool
  | Signal.BLOBUpdated _ => true
  | Signal.newImage _ => true
  | Signal.newExposureValue chip value state =>
    decide (chip = some which ∧ value = 0 ∧ state = IPState.IPS_ALERT)
  | _ => false

/-- The sample camera while the focus module captures, before a focus view has been set. -/
def focusCamera : CCD :=
  { sampleCamera with
    primaryChip := { type := ChipType.PRIMARY_CCD, captureMode := FITSMode.FITS_FOCUS } }

/-! ## `resetFrame` over IEEE doubles

The property store above holds finite doubles.  The bounds of a frame field come from the
driver and can be infinite or not-a-number; for `CCDChip::resetFrame`, which compares the
stored values with the bounds, this section carries the two frame vectors with such values. -/

/-- A C `double`: a finite value, an infinity, or not-a-number.  Finite values are carried
exactly; the one operation on them below is the test whether a difference is zero, and the
difference of two finite doubles is zero exactly when they are equal. -/
inductive Double where
  | finite (q : ℚ)
  | posInf
  | negInf
  | nan
deriving DecidableEq, Repr

/-- The subtraction of doubles: not-a-number is contagious, and so is the difference of two
infinities of the same sign. -/
def Double.sub : Double → Double → Double
  | Double.finite a, Double.finite b => Double.finite (a - b)
  | Double.nan, _ => Double.nan
  | _, Double.nan => Double.nan
  | Double.posInf, Double.posInf => Double.nan
  | Double.negInf, Double.negInf => Double.nan
  | Double.posInf, _ => Double.posInf
  | Double.negInf, _ => Double.negInf
  | Double.finite _, Double.posInf => Double.negInf
  | Double.finite _, Double.negInf => Double.posInf

/-- The function `std::fabs`. -/
def Double.fabs : Double → Double
  | Double.finite q => Double.finite |q|
  | Double.posInf => Double.posInf
  | Double.negInf => Double.posInf
  | Double.nan => Double.nan

/-- The conversion of a double to `bool`: false for zero, true for everything else,
not-a-number included. -/
def Double.toBool : Double → Bool
  | Double.finite q => decide (q ≠ 0)
  | _ => true

/-- The test `!std::fabs (a - b)` of `resetFrame`. -/
def Double.notFabsSub (a b : Double) : Bool := !(Double.fabs (Double.sub a b)).toBool

/-- The function `std::isfinite`. -/
def Double.isFinite : Double → Bool
  | Double.finite _ => true
  | _ => false

/-- An `INumber` with IEEE values. -/
structure IEEENumber where
  name : String
  value : Double
  min : Double
  max : Double
deriving DecidableEq, Repr

/-- The frame vectors of the two chips as the base device holds them (`none`: the vector is
not defined), and the vectors sent. -/
structure IEEEFrames where
  ccdFrame : Option (List IEEENumber) := none
  guiderFrame : Option (List IEEENumber) := none
  sent : List (List IEEENumber) := []
deriving DecidableEq, Repr

/-- The function `IUFindNumber` on IEEE fields. -/
def IUFindIEEENumber (np : List IEEENumber) (name : String) : Option IEEENumber :=
  np.find? (fun n => n.name == name)

/-- The write `IUFindNumber (nvp, name)->value = v` on IEEE fields. -/
def setIEEEValue (np : List IEEENumber) (name : String) (v : Double) : List IEEENumber :=
  modifyFirst (fun n => n.name == name) (fun n => { n with value := v }) np

/-- The `switch (type)` of `resetFrame`: the frame vector of this chip. -/
def IEEEFrames.frame (s : IEEEFrames) : ChipType → Option (List IEEENumber)
  | ChipType.PRIMARY_CCD => s.ccdFrame
  | ChipType.GUIDE_CCD => s.guiderFrame

/-- The mutated frame vector of this chip is in the store and has been sent. -/
def IEEEFrames.storeAndSend (s : IEEEFrames) (type : ChipType) (np : List IEEENumber) :
    IEEEFrames :=
  match type with
  | ChipType.PRIMARY_CCD => { s with ccdFrame := some np, sent := s.sent ++ [np] }
  | ChipType.GUIDE_CCD => { s with guiderFrame := some np, sent := s.sent ++ [np] }

/-- The method `CCDChip::resetFrame` (source lines 345 – 386) over IEEE doubles. -/
def IEEEFrames.resetFrame (s : IEEEFrames) (type : ChipType) : Bool × IEEEFrames :=
  match s.frame type with
  | none => (false, s)
  | some frameProp =>
    match IUFindIEEENumber frameProp "X", IUFindIEEENumber frameProp "Y",
          IUFindIEEENumber frameProp "WIDTH", IUFindIEEENumber frameProp "HEIGHT" with
    | some xarg, some yarg, some warg, some harg =>
      if Double.notFabsSub xarg.value xarg.min && Double.notFabsSub yarg.value yarg.min &&
          Double.notFabsSub warg.value warg.max && Double.notFabsSub harg.value harg.max then
        (false, s)
      else
        (true, s.storeAndSend type
          (setIEEEValue (setIEEEValue (setIEEEValue (setIEEEValue frameProp "X" xarg.min)
            "Y" yarg.min) "WIDTH" warg.max) "HEIGHT" harg.max))
    | _, _, _, _ => (false, s)

/-- A finite field of the property store as an IEEE field. -/
def INumber.toIEEE (n : INumber) : IEEENumber :=
  { name := n.name, value := Double.finite n.value, min := Double.finite n.min
    max := Double.finite n.max }

/-- The frame vectors of a device, as IEEE vectors. -/
def CCD.frames (ccd : CCD) : IEEEFrames :=
  { ccdFrame := (ccd.baseDevice.getNumber "CCD_FRAME").map (fun v => v.np.map INumber.toIEEE)
    guiderFrame :=
      (ccd.baseDevice.getNumber "GUIDER_FRAME").map (fun v => v.np.map INumber.toIEEE) }

/-- A sensor of 1280 × 1024 whose driver declares no upper bound for width and height:
`max` is infinite. -/
def unboundedFrames : IEEEFrames :=
  { ccdFrame := some
      [ { name := "X", value := Double.finite 0, min := Double.finite 0,
          max := Double.finite 1279 },
        { name := "Y", value := Double.finite 0, min := Double.finite 0,
          max := Double.finite 1023 },
        { name := "WIDTH", value := Double.finite 1280, min := Double.finite 1,
          max := Double.posInf },
        { name := "HEIGHT", value := Double.finite 1024, min := Double.finite 1,
          max := Double.posInf } ] }

/-- The frame vector of the subframed camera, over IEEE doubles: all bounds finite. -/
def subframedFrame : List IEEENumber :=
  [ { name := "X", value := Double.finite 16, min := Double.finite 0,
      max := Double.finite 1279 },
    { name := "Y", value := Double.finite 8, min := Double.finite 0,
      max := Double.finite 1023 },
    { name := "WIDTH", value := Double.finite 640, min := Double.finite 1,
      max := Double.finite 1280 },
    { name := "HEIGHT", value := Double.finite 480, min := Double.finite 1,
      max := Double.finite 1024 } ]

/-! # Properties -/

theorem find?_modifyFirst_same {α : Type} (p : α → Bool) (f : α → α) (l : List α) (a : α)
    (h : l.find? p = some a) (hf : p (f a) = true) :
    (modifyFirst p f l).find? p = some (f a) := by
  induction l with
  | nil => simp at h
  | cons b bs ih =>
    by_cases hb : p b = true
    · have hab : b = a := by simpa [List.find?, hb] using h
      subst hab
      simp [modifyFirst, hb, List.find?, hf]
    · have hb' : p b = false := by simpa using hb
      have h' : bs.find? p = some a := by simpa [List.find?, hb'] using h
      simp [modifyFirst, hb', List.find?, ih h']

theorem find?_modifyFirst_other {α : Type} (p q : α → Bool) (f : α → α) (l : List α)
    (hdisj : ∀ a, p a = true → q a = false) (hq : ∀ a, q (f a) = q a) :
    (modifyFirst p f l).find? q = l.find? q := by
  induction l with
  | nil => rfl
  | cons b bs ih =>
    by_cases hb : p b = true
    · have h1 : q b = false := hdisj b hb
      have h2 : q (f b) = false := by rw [hq, h1]
      simp [modifyFirst, hb, List.find?, h1, h2]
    · have hb' : p b = false := by simpa using hb
      simp only [modifyFirst, hb', List.find?, ih]

theorem toInt_intCast (x : Int) : toInt (x : ℚ) = x := by
  simp [toInt]

theorem notFabs_iff (d : ℚ) : notFabs d = true ↔ d = 0 := by
  simp [notFabs]

theorem IUFindNumber_setValue_same (nvp : INumberVectorProperty) (n : String) (v : ℚ)
    (a : INumber) (h : IUFindNumber nvp n = some a) :
    IUFindNumber (nvp.setValue n v) n = some { a with value := v } := by
  unfold IUFindNumber INumberVectorProperty.setValue
  have ha : (a.name == n) = true := by
    have := List.find?_some h
    simpa using this
  exact find?_modifyFirst_same _ _ _ a h (by simpa using ha)

theorem IUFindNumber_setValue_other (nvp : INumberVectorProperty) (n m : String) (v : ℚ)
    (hnm : n ≠ m) : IUFindNumber (nvp.setValue n v) m = IUFindNumber nvp m := by
  unfold IUFindNumber INumberVectorProperty.setValue
  apply find?_modifyFirst_other
  · intro a ha
    have : a.name = n := by simpa using ha
    simp [this, hnm]
  · intro a
    rfl

@[simp] theorem setValue_name (nvp : INumberVectorProperty) (n : String) (v : ℚ) :
    (nvp.setValue n v).name = nvp.name := rfl

theorem getNumber_name (d : BaseDevice) (n : String) (v : INumberVectorProperty)
    (h : d.getNumber n = some v) : v.name = n := by
  have := List.find?_some h
  simpa using this

theorem getNumber_putNumber (d : BaseDevice) (n : String) (v w : INumberVectorProperty)
    (h : d.getNumber n = some v) (hw : w.name = n) :
    (d.putNumber w).getNumber n = some w := by
  unfold BaseDevice.getNumber at h ⊢
  unfold BaseDevice.putNumber
  simp only [hw]
  exact find?_modifyFirst_same (fun x => x.name == n) (fun _ => w) d.numbers v h (by simp [hw])

theorem chipNumber_storeAndSendNumber (ccd : CCD) (type : ChipType) (a b : String)
    (v w : INumberVectorProperty) (h : ccd.chipNumber type a b = some v) (hw : w.name = v.name) :
    (ccd.storeAndSendNumber w).chipNumber type a b = some w := by
  cases type <;> simp only [CCD.chipNumber, CCD.storeAndSendNumber] at h ⊢
  · exact getNumber_putNumber _ _ v w h (by rw [hw, getNumber_name _ _ _ h])
  · exact getNumber_putNumber _ _ v w h (by rw [hw, getNumber_name _ _ _ h])

/-- C1. With the frame vector of the chip present and holding the fields `X`, `Y`, `WIDTH`
and `HEIGHT`, `setFrame (x, y, w, h, force)` answers `true` for every integer tuple, and a
`getFrame` right after it answers `true` with exactly `(x, y, w, h)`. -/
theorem setFrame_then_getFrame (ccd : CCD) (type : ChipType) (frameProp : INumberVectorProperty)
    (x y w h : Int) (force : Bool)
    (hprop : ccd.chipNumber type "CCD_FRAME" "GUIDER_FRAME" = some frameProp)
    (hx : (IUFindNumber frameProp "X").isSome) (hy : (IUFindNumber frameProp "Y").isSome)
    (hw : (IUFindNumber frameProp "WIDTH").isSome)
    (hh : (IUFindNumber frameProp "HEIGHT").isSome) :
    (CCDChip.setFrame ccd type x y w h force).1 = true ∧
    CCDChip.getFrame (CCDChip.setFrame ccd type x y w h force).2 type =
      (true, { x := some x, y := some y, w := some w, h := some h }) := by
  obtain ⟨xarg, hxa⟩ := Option.isSome_iff_exists.mp hx
  obtain ⟨yarg, hya⟩ := Option.isSome_iff_exists.mp hy
  obtain ⟨warg, hwa⟩ := Option.isSome_iff_exists.mp hw
  obtain ⟨harg, hha⟩ := Option.isSome_iff_exists.mp hh
  by_cases hsame : (!force && notFabs (xarg.value - x) && notFabs (yarg.value - y) &&
          notFabs (warg.value - w) && notFabs (harg.value - h)) = true
  · have hset : CCDChip.setFrame ccd type x y w h force = (true, ccd) := by
      simp only [CCDChip.setFrame, hprop, hxa, hya, hwa, hha, hsame, if_true]
    simp only [Bool.and_eq_true, notFabs_iff, sub_eq_zero] at hsame
    obtain ⟨⟨⟨⟨_, ex⟩, ey⟩, ew⟩, eh⟩ := hsame
    rw [hset]
    refine ⟨rfl, ?_⟩
    simp only [CCDChip.getFrame, hprop, hxa, hya, hwa, hha, ex, ey, ew, eh, toInt_intCast]
  · have hset : CCDChip.setFrame ccd type x y w h force = (true, ccd.storeAndSendNumber
          ((((frameProp.setValue "X" x).setValue "Y" y).setValue "WIDTH" w).setValue "HEIGHT" h)) := by
      simp only [CCDChip.setFrame, hprop, hxa, hya, hwa, hha, hsame]
      simp
    rw [hset]
    refine ⟨rfl, ?_⟩
    have hstore := chipNumber_storeAndSendNumber ccd type "CCD_FRAME" "GUIDER_FRAME" frameProp
      ((((frameProp.setValue "X" x).setValue "Y" y).setValue "WIDTH" w).setValue "HEIGHT" h)
      hprop rfl
    have fx : IUFindNumber ((((frameProp.setValue "X" x).setValue "Y" y).setValue "WIDTH" w).setValue "HEIGHT" h) "X" = some { xarg with value := x } := by
      rw [IUFindNumber_setValue_other _ _ _ _ (by decide), IUFindNumber_setValue_other _ _ _ _ (by decide),
        IUFindNumber_setValue_other _ _ _ _ (by decide)]
      exact IUFindNumber_setValue_same _ _ _ _ hxa
    have fy : IUFindNumber ((((frameProp.setValue "X" x).setValue "Y" y).setValue "WIDTH" w).setValue "HEIGHT" h) "Y" = some { yarg with value := y } := by
      rw [IUFindNumber_setValue_other _ _ _ _ (by decide), IUFindNumber_setValue_other _ _ _ _ (by decide)]
      apply IUFindNumber_setValue_same
      rw [IUFindNumber_setValue_other _ _ _ _ (by decide)]
      exact hya
    have fw : IUFindNumber ((((frameProp.setValue "X" x).setValue "Y" y).setValue "WIDTH" w).setValue "HEIGHT" h) "WIDTH" = some { warg with value := w } := by
      rw [IUFindNumber_setValue_other _ _ _ _ (by decide)]
      apply IUFindNumber_setValue_same
      rw [IUFindNumber_setValue_other _ _ _ _ (by decide), IUFindNumber_setValue_other _ _ _ _ (by decide)]
      exact hwa
    have fh : IUFindNumber ((((frameProp.setValue "X" x).setValue "Y" y).setValue "WIDTH" w).setValue "HEIGHT" h) "HEIGHT" = some { harg with value := h } := by
      apply IUFindNumber_setValue_same
      rw [IUFindNumber_setValue_other _ _ _ _ (by decide), IUFindNumber_setValue_other _ _ _ _ (by decide),
        IUFindNumber_setValue_other _ _ _ _ (by decide)]
      exact hha
    simp only [CCDChip.getFrame, hstore, fx, fy, fw, fh, toInt_intCast]

/-- C1 on the sample camera: the frame `(16, 8, 640, 480)` is read back. -/
theorem setFrame_then_getFrame_witness :
    (CCDChip.setFrame sampleCamera ChipType.PRIMARY_CCD 16 8 640 480 false).1 = true ∧
    CCDChip.getFrame (CCDChip.setFrame sampleCamera ChipType.PRIMARY_CCD 16 8 640 480 false).2
        ChipType.PRIMARY_CCD =
      (true, { x := some 16, y := some 8, w := some 640, h := some 480 }) :=
  setFrame_then_getFrame sampleCamera ChipType.PRIMARY_CCD
    { name := "CCD_FRAME"
      np := [ { name := "X", value := 0, min := 0, max := 1279 },
              { name := "Y", value := 0, min := 0, max := 1023 },
              { name := "WIDTH", value := 1280, min := 1, max := 1280 },
              { name := "HEIGHT", value := 1024, min := 1, max := 1024 } ] }
    16 8 640 480 false (by rfl) (by decide) (by decide) (by decide) (by decide)

/-- C2. With the binning vector of the chip present and holding `HOR_BIN` and `VER_BIN`, a
request `(bin_x, bin_y)` within the declared maxima makes `setBinning` answer `true`, and a
`getBinning` right after it answers `true` with `(bin_x, bin_y)`. -/
theorem setBinning_then_getBinning (ccd : CCD) (type : ChipType)
    (binProp : INumberVectorProperty) (horBin verBin : INumber) (bin_x bin_y : Int)
    (hprop : ccd.chipNumber type "CCD_BINNING" "GUIDER_BINNING" = some binProp)
    (hhor : IUFindNumber binProp "HOR_BIN" = some horBin)
    (hver : IUFindNumber binProp "VER_BIN" = some verBin)
    (hx : (bin_x : ℚ) ≤ horBin.max) (hy : (bin_y : ℚ) ≤ verBin.max) :
    (CCDChip.setBinning ccd type bin_x bin_y).1 = true ∧
    CCDChip.getBinning (CCDChip.setBinning ccd type bin_x bin_y).2 type =
      (true, bin_x, bin_y) := by
  by_cases hsame : (notFabs (horBin.value - bin_x) && notFabs (verBin.value - bin_y)) = true
  · have hset : CCDChip.setBinning ccd type bin_x bin_y = (true, ccd) := by
      simp only [CCDChip.setBinning, hprop, hhor, hver, hsame, if_true]
    simp only [Bool.and_eq_true, notFabs_iff, sub_eq_zero] at hsame
    rw [hset]
    refine ⟨rfl, ?_⟩
    simp only [CCDChip.getBinning, hprop, hhor, hver, hsame.1, hsame.2, toInt_intCast]
  · have hmax : ((bin_x : ℚ) > horBin.max || (bin_y : ℚ) > verBin.max) = false := by
      simp [not_lt.mpr hx, not_lt.mpr hy]
    have hset : CCDChip.setBinning ccd type bin_x bin_y = (true, ccd.storeAndSendNumber
        ((binProp.setValue "HOR_BIN" bin_x).setValue "VER_BIN" bin_y)) := by
      simp only [CCDChip.setBinning, hprop, hhor, hver, hsame, hmax]
      simp
    rw [hset]
    refine ⟨rfl, ?_⟩
    have hstore := chipNumber_storeAndSendNumber ccd type "CCD_BINNING" "GUIDER_BINNING" binProp
      ((binProp.setValue "HOR_BIN" bin_x).setValue "VER_BIN" bin_y) hprop rfl
    have fh : IUFindNumber ((binProp.setValue "HOR_BIN" bin_x).setValue "VER_BIN" bin_y)
        "HOR_BIN" = some { horBin with value := bin_x } := by
      rw [IUFindNumber_setValue_other _ _ _ _ (by decide)]
      exact IUFindNumber_setValue_same _ _ _ _ hhor
    have fv : IUFindNumber ((binProp.setValue "HOR_BIN" bin_x).setValue "VER_BIN" bin_y)
        "VER_BIN" = some { verBin with value := bin_y } := by
      apply IUFindNumber_setValue_same
      rw [IUFindNumber_setValue_other _ _ _ _ (by decide)]
      exact hver
    simp only [CCDChip.getBinning, hstore, fh, fv, toInt_intCast]

/-- C2 on the sample camera: 2 × 2 binning is read back. -/
theorem setBinning_then_getBinning_witness :
    (CCDChip.setBinning sampleCamera ChipType.PRIMARY_CCD 2 2).1 = true ∧
    CCDChip.getBinning (CCDChip.setBinning sampleCamera ChipType.PRIMARY_CCD 2 2).2
      ChipType.PRIMARY_CCD = (true, 2, 2) :=
  setBinning_then_getBinning sampleCamera ChipType.PRIMARY_CCD
    { name := "CCD_BINNING"
      np := [ { name := "HOR_BIN", value := 1, min := 1, max := 4 },
              { name := "VER_BIN", value := 1, min := 1, max := 4 } ] }
    { name := "HOR_BIN", value := 1, min := 1, max := 4 }
    { name := "VER_BIN", value := 1, min := 1, max := 4 } 2 2
    (by rfl) (by rfl) (by rfl) (by norm_num) (by norm_num)

/-- C3, as stated, fails: the camera reports 2 × 2 binning while its vector declares the
maximum `0`; the request `(2, 2)` exceeds the maximum, yet `setBinning` answers `true`. -/
theorem setBinning_over_max_counterexample :
    unboundedBinCamera.chipNumber ChipType.PRIMARY_CCD "CCD_BINNING" "GUIDER_BINNING" =
      some { name := "CCD_BINNING"
             np := [ { name := "HOR_BIN", value := 2, min := 0, max := 0 },
                     { name := "VER_BIN", value := 2, min := 0, max := 0 } ] } ∧
    ((2 : Int) : ℚ) > (0 : ℚ) ∧
    ¬ ((CCDChip.setBinning unboundedBinCamera ChipType.PRIMARY_CCD 2 2).1 = false) := by
  refine ⟨by rfl, by norm_num, ?_⟩
  decide!

/-- C3, amended. With the binning vector present, a request above a declared maximum never
sends and never changes the state; `setBinning` answers `false`, unless the request equals
the stored bin values, where it answers `true`. -/
theorem setBinning_over_max (ccd : CCD) (type : ChipType)
    (binProp : INumberVectorProperty) (horBin verBin : INumber) (bin_x bin_y : Int)
    (hprop : ccd.chipNumber type "CCD_BINNING" "GUIDER_BINNING" = some binProp)
    (hhor : IUFindNumber binProp "HOR_BIN" = some horBin)
    (hver : IUFindNumber binProp "VER_BIN" = some verBin)
    (hover : (bin_x : ℚ) > horBin.max ∨ (bin_y : ℚ) > verBin.max) :
    (CCDChip.setBinning ccd type bin_x bin_y).2 = ccd ∧
    ((CCDChip.setBinning ccd type bin_x bin_y).1 = true ↔
      (horBin.value = bin_x ∧ verBin.value = bin_y)) := by
  have hmax : ((bin_x : ℚ) > horBin.max || (bin_y : ℚ) > verBin.max) = true := by
    simpa using hover
  by_cases hsame : (notFabs (horBin.value - bin_x) && notFabs (verBin.value - bin_y)) = true
  · have hset : CCDChip.setBinning ccd type bin_x bin_y = (true, ccd) := by
      simp only [CCDChip.setBinning, hprop, hhor, hver, hsame, if_true]
    simp only [Bool.and_eq_true, notFabs_iff, sub_eq_zero] at hsame
    rw [hset]
    exact ⟨rfl, fun _ => hsame, fun _ => rfl⟩
  · have hset : CCDChip.setBinning ccd type bin_x bin_y = (false, ccd) := by
      simp only [CCDChip.setBinning, hprop, hhor, hver, hsame, hmax]
      simp
    simp only [Bool.and_eq_true, notFabs_iff, sub_eq_zero] at hsame
    rw [hset]
    exact ⟨rfl, fun h => by simp at h, fun h => absurd h hsame⟩

/-- C3, amended, on the sample camera: 5 × 1 exceeds the maximum 4 and differs from the
stored 1 × 1, so the call answers `false` and the state stays. -/
theorem setBinning_over_max_witness :
    (CCDChip.setBinning sampleCamera ChipType.PRIMARY_CCD 5 1).2 = sampleCamera ∧
    (CCDChip.setBinning sampleCamera ChipType.PRIMARY_CCD 5 1).1 = false :=
  have h := setBinning_over_max sampleCamera ChipType.PRIMARY_CCD
    { name := "CCD_BINNING"
      np := [ { name := "HOR_BIN", value := 1, min := 1, max := 4 },
              { name := "VER_BIN", value := 1, min := 1, max := 4 } ] }
    { name := "HOR_BIN", value := 1, min := 1, max := 4 }
    { name := "VER_BIN", value := 1, min := 1, max := 4 } 5 1
    (by rfl) (by rfl) (by rfl) (Or.inl (by norm_num))
  ⟨h.1, Bool.eq_false_iff.mpr (fun ht => absurd (h.2.mp ht).1 (by norm_num))⟩

/-- C4 at a failing input.  The camera offers the presets `1` and `3000000` seconds, so the
stored bounds are `(1, 3000000)`; with the presets forced, a request of `1500000` seconds
lies strictly between the bounds, and `capture` sends `1500000`, which is no preset: both
presets are at least `1e6` away, the start value of `diff`. -/
theorem capture_far_presets_sends_request :
    (CCD.registerProperty sampleCollaborators sampleCamera (shutterPresets ["1", "3000000"])).map
        (fun c => (c.m_ExposurePresets, c.m_ExposurePresetsMinMax)) =
      some ([("1", 1), ("3000000", 3000000)], (1, 3000000)) ∧
    ((CCD.registerProperty sampleCollaborators sampleCamera
          (shutterPresets ["1", "3000000"])).bind
        (fun c => CCDChip.capture { forceDSLRPresets := true } c ChipType.PRIMARY_CCD 1500000)).map
        (fun r => (r.1, r.2.sent)) =
      some (true, [Sent.number { name := "CCD_EXPOSURE", p := IPerm.IP_RO
                                 np := [{ name := "CCD_EXPOSURE_VALUE", value := 1500000 }] }]) ∧
    (1500000 : ℚ) ∉ [(1 : ℚ), 3000000] := by
  decide!

/-- C5. With the exposure vector of the chip present (and holding its value field), if the
presets are not forced, or the preset table is empty, or the request is not strictly between
the stored preset bounds, then `capture` answers `true` and sends one vector whose single
field carries exactly the requested exposure. -/
theorem capture_sends_request_unchanged (opts : Options) (ccd : CCD) (type : ChipType)
    (expProp : INumberVectorProperty) (first : INumber) (exposure : ℚ)
    (hprop : ccd.chipNumber type "CCD_EXPOSURE" "GUIDER_EXPOSURE" = some expProp)
    (hfirst : expProp.np[0]? = some first)
    (hcond : opts.forceDSLRPresets = false ∨ ccd.m_ExposurePresets = [] ∨
      ¬ (ccd.m_ExposurePresetsMinMax.1 < exposure ∧ exposure < ccd.m_ExposurePresetsMinMax.2)) :
    CCDChip.capture opts ccd type exposure =
      some (true, { ccd with sent := ccd.sent ++
        [Sent.number { device := expProp.device, name := expProp.name, label := expProp.label
                       p := IPerm.IP_RO, s := IPState.IPS_IDLE
                       np := [{ name := first.name, value := exposure }] }] }) := by
  have hexp : presetExposure opts ccd exposure = exposure := by
    unfold presetExposure
    rcases hcond with h | h | h
    · simp [h]
    · simp [h]
    · by_cases h1 : ccd.m_ExposurePresetsMinMax.1 < exposure
      · have h2 : ¬ exposure < ccd.m_ExposurePresetsMinMax.2 := fun h2 => h ⟨h1, h2⟩
        simp [h2]
      · simp [h1]
  simp only [CCDChip.capture, hprop, hfirst, hexp, CCD.sendNewNumber]

/-- C5 on the sample camera, presets not forced: half a second is sent as it is. -/
theorem capture_sends_request_unchanged_witness :
    CCDChip.capture { forceDSLRPresets := false } sampleCamera ChipType.PRIMARY_CCD (1 / 2) =
      some (true, { sampleCamera with sent := sampleCamera.sent ++
        [Sent.number { device := "", name := "CCD_EXPOSURE", label := ""
                       p := IPerm.IP_RO, s := IPState.IPS_IDLE
                       np := [{ name := "CCD_EXPOSURE_VALUE", value := 1 / 2 }] }] }) :=
  capture_sends_request_unchanged { forceDSLRPresets := false } sampleCamera ChipType.PRIMARY_CCD
    { name := "CCD_EXPOSURE"
      np := [ { name := "CCD_EXPOSURE_VALUE", value := 1, min := 0, max := 3600 } ] }
    { name := "CCD_EXPOSURE_VALUE", value := 1, min := 0, max := 3600 } (1 / 2)
    (by rfl) (by rfl) (Or.inl rfl)

/-- C7 at a failing input.  After the registration of the single preset `2000000` the table
holds exactly that value, yet the stored minimum is `1000000`, the start value of the scan,
and not the minimum of the table. -/
theorem registerProperty_preset_min_keeps_start_value :
    (CCD.registerProperty sampleCollaborators sampleCamera (shutterPresets ["2000000"])).map
        (fun c => (c.m_ExposurePresets, c.m_ExposurePresetsMinMax)) =
      some ([("2000000", 2000000)], (1000000, 2000000)) := by
  decide!

theorem splitSlashChars_ne_nil (cs : List Char) : splitSlashChars cs ≠ [] := by
  induction cs with
  | nil => simp [splitSlashChars]
  | cons c cs ih =>
    unfold splitSlashChars
    split
    · simp
    · split <;> simp

theorem splitSlashChars_no_slash (b : List Char) (hb : '/' ∉ b) : splitSlashChars b = [b] := by
  induction b with
  | nil => rfl
  | cons c cs ih =>
    have hc : c ≠ '/' := fun h => hb (by simp [h])
    have hcs : '/' ∉ cs := fun h => hb (by simp [h])
    simp [splitSlashChars, hc, ih hcs]

theorem splitSlashChars_append (a b : List Char) (ha : '/' ∉ a) :
    splitSlashChars (a ++ '/' :: b) = a :: splitSlashChars b := by
  induction a with
  | nil => simp [splitSlashChars]
  | cons c cs ih =>
    have hc : c ≠ '/' := fun h => ha (by simp [h])
    have hcs : '/' ∉ cs := fun h => ha (by simp [h])
    simp [splitSlashChars, hc, ih hcs]

theorem splitSlashChars_single (cs q : List Char) (h : splitSlashChars cs = [q]) : cs = q := by
  induction cs generalizing q with
  | nil => simpa [splitSlashChars] using h
  | cons c cs ih =>
    unfold splitSlashChars at h
    split at h
    · simp only [List.cons.injEq] at h
      exact absurd h.2 (splitSlashChars_ne_nil cs)
    · split at h
      · rename_i hnil
        exact absurd hnil (splitSlashChars_ne_nil cs)
      · rename_i p ps hps
        simp only [List.cons.injEq] at h
        obtain ⟨hq, hnil⟩ := h
        subst hnil
        rw [ih p hps, hq]

theorem splitSlashChars_pair (cs p q : List Char) (h : splitSlashChars cs = [p, q]) :
    cs = p ++ '/' :: q := by
  induction cs generalizing p with
  | nil => simp [splitSlashChars] at h
  | cons c cs ih =>
    unfold splitSlashChars at h
    split at h
    · rename_i hc
      simp only [List.cons.injEq] at h
      obtain ⟨hp, hq⟩ := h
      have := splitSlashChars_single cs q (by simpa using hq)
      subst hc
      simp [← hp, this]
    · split at h
      · simp at h
      · rename_i p' ps hps
        simp only [List.cons.injEq] at h
        obtain ⟨hp, hq⟩ := h
        have := ih p' (by rw [hps, hq])
        rw [this, ← hp]
        simp

theorem readDigits_all_digits (cs : List Char) (acc n : Nat) (h : readDigits cs acc = some n) :
    ∀ c ∈ cs, c.isDigit = true := by
  induction cs generalizing acc with
  | nil => simp
  | cons c cs ih =>
    unfold readDigits at h
    split at h
    · rename_i hc
      intro d hd
      rcases List.mem_cons.mp hd with rfl | hd
      · exact hc
      · exact ih _ h d hd
    · simp at h

theorem dropWhile_head_fails {α : Type} (p : α → Bool) (l : List α) (d : α) (rest : List α)
    (h : l.dropWhile p = d :: rest) : p d = false := by
  induction l with
  | nil => simp at h
  | cons a as ih =>
    by_cases ha : p a = true
    · rw [List.dropWhile_cons_of_pos ha] at h
      exact ih h
    · rw [List.dropWhile_cons_of_neg ha] at h
      simp only [List.cons.injEq] at h
      rw [← h.1]
      simpa using ha

theorem readUnsigned_no_slash (cs : List Char) (q : ℚ) (h : readUnsigned cs = some q) :
    '/' ∉ cs := by
  have hsplit := List.takeWhile_append_dropWhile (fun c => c != '.') cs
  have hdig : ∀ (l : List Char) (n : Nat), readDigits l 0 = some n → '/' ∉ l := by
    intro l n hl hmem
    have := readDigits_all_digits l 0 n hl '/' hmem
    exact absurd this (by decide)
  unfold readUnsigned at h
  simp only at h
  split at h
  · rename_i hdrop
    rw [hdrop, List.append_nil] at hsplit
    rw [hsplit] at h
    split at h
    · simp at h
    · cases hr : readDigits cs 0 with
      | none => simp [hr] at h
      | some n => exact hdig cs n hr
  · rename_i d frac hdrop
    have hd : d = '.' := by
      have := dropWhile_head_fails _ _ _ _ hdrop
      simpa using this
    split at h
    · simp at h
    · split at h
      · rename_i n f hn hf
        rw [← hsplit, hdrop, hd]
        intro hmem
        rcases List.mem_append.mp hmem with hm | hm
        · exact hdig _ n hn hm
        · rcases List.mem_cons.mp hm with hm | hm
          · exact absurd hm (by decide)
          · exact hdig _ f hf hm
      · simp at h

theorem readDecimal_no_slash (s : String) (q : ℚ) (h : readDecimal s = some q) :
    '/' ∉ s.data := by
  unfold readDecimal at h
  split at h
  · rename_i cs hs
    rw [hs]
    cases hr : readUnsigned cs with
    | none => simp [hr] at h
    | some r =>
      have := readUnsigned_no_slash cs r hr
      intro hmem
      rcases List.mem_cons.mp hmem with hm | hm
      · exact absurd hm (by decide)
      · exact this hm
  · rename_i cs hs
    rw [hs]
    have := readUnsigned_no_slash cs q h
    intro hmem
    rcases List.mem_cons.mp hmem with hm | hm
    · exact absurd hm (by decide)
    · exact this hm
  · exact readUnsigned_no_slash _ q h
theorem splitSlash_append (a b : String) (ha : '/' ∉ a.data) (hb : '/' ∉ b.data) :
    splitSlash (a ++ "/" ++ b) = [a, b] := by
  have hdata : (a ++ "/" ++ b).data = a.data ++ '/' :: b.data := by
    simp [String.data_append]
  unfold splitSlash
  rw [hdata, splitSlashChars_append _ _ ha, splitSlashChars_no_slash _ hb]
  rfl

theorem splitSlash_pair (key num den : String) (h : splitSlash key = [num, den]) :
    key = num ++ "/" ++ den := by
  unfold splitSlash at h
  match hs : splitSlashChars key.data, h with
  | [p, q], h =>
    have hk := splitSlashChars_pair _ _ _ hs
    simp only [List.map_cons, List.map_nil, List.cons.injEq, and_true] at h
    apply String.ext
    rw [← h.1, ← h.2]
    simp [String.data_append, hk]

theorem foldl_registerPresetSwitch_presets (ext : Collaborators) (l : List ISwitch) (ccd : CCD) :
    (l.foldl (registerPresetSwitch ext) ccd).m_ExposurePresets =
      l.foldl (fun m sw =>
        match exposurePresetValue ext sw.label with
        | some v => qmapInsert sw.label v m
        | none => m) ccd.m_ExposurePresets := by
  induction l generalizing ccd with
  | nil => rfl
  | cons sw rest ih =>
    simp only [List.foldl_cons]
    rw [ih]
    rfl

theorem mem_qmapInsert (key : String) (v : ℚ) (m : List (String × ℚ)) :
    (key, v) ∈ qmapInsert key v m := by
  induction m with
  | nil => simp [qmapInsert]
  | cons kv rest ih =>
    obtain ⟨k, w⟩ := kv
    unfold qmapInsert
    split
    · simp
    · split
      · simp
      · simp [ih]

theorem registerProperty_presets_eq (ext : Collaborators) (ccd : CCD)
    (svp : ISwitchVectorProperty) (hname : svp.name = "CCD_EXPOSURE_PRESETS") :
    CCD.registerProperty ext ccd (Property.switch svp) =
      some { svp.sp.foldl (registerPresetSwitch ext)
               (if ccd.baseDevice.connected then { ccd with readyTimerStarted := true }
                else ccd) with
             delegated :=
               (svp.sp.foldl (registerPresetSwitch ext)
                 (if ccd.baseDevice.connected then { ccd with readyTimerStarted := true }
                  else ccd)).delegated ++ [Delegated.registerProperty "CCD_EXPOSURE_PRESETS"] } := by
  simp [CCD.registerProperty, Property.getName, Property.getSwitch, hname]

/-- C6. Registering `CCD_EXPOSURE_PRESETS` folds the switch labels into the preset table:
a label with a value is inserted under that label, a label without one leaves the table as
it is.  The value of a label that reads as a decimal is that decimal; the value of `a/b`
with decimals `a`, `b` and `b > 0` is `a / b`; any other label has no value.  (The decimal
reader accepts no text that contains `/`.) -/
theorem registerProperty_exposure_presets (ext : Collaborators) (ccd : CCD)
    (svp : ISwitchVectorProperty) (hname : svp.name = "CCD_EXPOSURE_PRESETS")
    (hslash : ∀ s v, ext.toDouble s = some v → '/' ∉ s.data) :
    (∃ ccd', CCD.registerProperty ext ccd (Property.switch svp) = some ccd' ∧
      ccd'.m_ExposurePresets =
        svp.sp.foldl (fun m sw =>
          match exposurePresetValue ext sw.label with
          | some v => qmapInsert sw.label v m
          | none => m) ccd.m_ExposurePresets) ∧
    (∀ key v m, (key, v) ∈ qmapInsert key v m) ∧
    (∀ key v, ext.toDouble key = some v → exposurePresetValue ext key = some v) ∧
    (∀ a b n d, ext.toDouble a = some n → ext.toDouble b = some d → 0 < d →
      exposurePresetValue ext (a ++ "/" ++ b) = some (n / d)) ∧
    (∀ key, ext.toDouble key = none →
      (¬ ∃ a b n d, key = a ++ "/" ++ b ∧ ext.toDouble a = some n ∧
        ext.toDouble b = some d ∧ 0 < d) →
      exposurePresetValue ext key = none) := by
  refine ⟨?_, mem_qmapInsert, ?_, ?_, ?_⟩
  · refine ⟨_, registerProperty_presets_eq ext ccd svp hname, ?_⟩
    simp only []
    rw [foldl_registerPresetSwitch_presets]
    split <;> rfl
  · intro key v h
    simp [exposurePresetValue, h]
  · intro a b n d ha hb hd
    have hnone : ext.toDouble (a ++ "/" ++ b) = none := by
      cases hw : ext.toDouble (a ++ "/" ++ b) with
      | none => rfl
      | some v =>
        exact absurd (by simp [String.data_append]) (hslash _ v hw)
    simp [exposurePresetValue, hnone, splitSlash_append a b (hslash a n ha) (hslash b d hb), ha, hb,
      hd]
  · intro key hkey hno
    unfold exposurePresetValue
    rw [hkey]
    simp only
    split
    · rename_i num den hsplit
      split
      · rename_i n d hn hd
        split
        · rename_i hpos
          exact absurd ⟨num, den, n, d, splitSlash_pair _ _ _ hsplit, hn, hd, hpos⟩ hno
        · rfl
      · rfl
    · rfl

/-- C6 with the decimal reader: of the labels `30`, `1/100` and `1/0` the first two enter the
table with the values 30 and 1/100, the third does not. -/
theorem registerProperty_exposure_presets_witness :
    ∃ ccd', CCD.registerProperty sampleCollaborators sampleCamera
        (shutterPresets ["30", "1/100", "1/0"]) = some ccd' ∧
      ccd'.m_ExposurePresets = [("1/100", 1 / 100), ("30", 30)] := by
  obtain ⟨c, h1, h2⟩ := (registerProperty_exposure_presets sampleCollaborators sampleCamera
    { name := "CCD_EXPOSURE_PRESETS"
      sp := ["30", "1/100", "1/0"].map (fun l => { name := "PRESET", label := l }) }
    rfl readDecimal_no_slash).1
  refine ⟨c, h1, ?_⟩
  rw [h2]
  decide!

/-- C8. Every chip operation whose backing property is absent from the device answers
`false` and leaves the whole state as it was: nothing is sent, no property value and no
chip member changes. -/
theorem chip_operation_without_property (ext : Collaborators) (opts : Options) (ccd : CCD)
    (type : ChipType) (op : ChipOp) (habsent : op.backingAbsent ccd type = true) :
    op.run ext opts ccd type = some (false, ccd) := by
  cases op <;> simp only [ChipOp.backingAbsent, Option.isNone_iff_eq_none] at habsent
  case getFrame => simp [ChipOp.run, CCDChip.getFrame, habsent]
  case setFrame => simp [ChipOp.run, CCDChip.setFrame, habsent]
  case resetFrame => simp [ChipOp.run, CCDChip.resetFrame, habsent]
  case getFrameMinMax => simp [ChipOp.run, CCDChip.getFrameMinMax, habsent]
  case capture => simp [ChipOp.run, CCDChip.capture, habsent]
  case abortExposure => simp [ChipOp.run, CCDChip.abortExposure, habsent]
  case setBinning => simp [ChipOp.run, CCDChip.setBinning, habsent]
  case getBinning => simp [ChipOp.run, CCDChip.getBinning, habsent]
  case getMaxBin => simp [ChipOp.run, CCDChip.getMaxBin, habsent]
  case setISOIndex => simp [ChipOp.run, CCDChip.setISOIndex, habsent]
  case setFrameType fType =>
    cases type <;> simp [ChipOp.run, CCDChip.setFrameType, CCD.chipSwitch] at habsent ⊢ <;>
      simp [habsent]
  case setFrameTypeByName name =>
    have h : ∀ f, CCDChip.setFrameType ccd type f = (false, ccd) := by
      intro f
      cases type <;> simp [CCDChip.setFrameType, CCD.chipSwitch] at habsent ⊢ <;>
        simp [habsent]
    simp only [ChipOp.run, CCDChip.setFrameTypeByName, h]
    simp
  case getBayerInfo => simp [ChipOp.run, CCDChip.getBayerInfo, habsent]
  case setImageInfo => simp [ChipOp.run, CCDChip.setImageInfo, habsent]
  case getImageInfo => simp [ChipOp.run, CCDChip.getImageInfo, habsent]

/-- C8 on a camera without properties: a forced `setFrame` on the guide chip. -/
theorem chip_operation_without_property_witness :
    (ChipOp.setFrame 16 8 640 480 true).run sampleCollaborators {} bareCamera
      ChipType.GUIDE_CCD = some (false, bareCamera) :=
  chip_operation_without_property sampleCollaborators {} bareCamera ChipType.GUIDE_CCD
    (ChipOp.setFrame 16 8 640 480 true) (by rfl)

/-- C9, as stated, fails on a camera without any property: `setExposureLoopingEnabled (true)`
answers `false` but has stored `true` in the looping flag, and `setTransformFormat` called
with the current format answers `true`. -/
theorem device_command_without_property_counterexample :
    (DeviceCmd.setExposureLoopingEnabled true).backingAbsent bareCamera = true ∧
    (DeviceCmd.setExposureLoopingEnabled true).run bareCamera =
      some (false, { bareCamera with IsLooping := true }) ∧
    bareCamera.IsLooping = false ∧
    (DeviceCmd.setTransformFormat TransferFormat.FORMAT_FITS).backingAbsent bareCamera = true ∧
    (DeviceCmd.setTransformFormat TransferFormat.FORMAT_FITS).run bareCamera =
      some (true, bareCamera) := by
  decide!

/-- C9, amended. A device command whose backing property is absent sends nothing and
changes no property value.  It answers `false`, except `setTransformFormat` and
`setTelescopeType` asked for the value already current, which answer `true`.  The device
state stays as it was, except that `setExposureLoopingEnabled` stores its argument in the
looping flag. -/
theorem device_command_without_property (ccd : CCD) (cmd : DeviceCmd)
    (habsent : cmd.backingAbsent ccd = true) :
    cmd.run ccd =
      some (decide (cmd = DeviceCmd.setTransformFormat ccd.transferFormat ∨
                    cmd = DeviceCmd.setTelescopeType ccd.telescopeType),
            match cmd with
            | DeviceCmd.setExposureLoopingEnabled enable => { ccd with IsLooping := enable }
            | _ => ccd) := by
  cases cmd <;> simp only [DeviceCmd.backingAbsent, Option.isNone_iff_eq_none,
    Bool.or_eq_true] at habsent
  case setCoolerControl => simp [DeviceCmd.run, CCD.setCoolerControl, habsent]
  case setUploadMode => simp [DeviceCmd.run, CCD.setUploadMode, habsent]
  case setTemperature => simp [DeviceCmd.run, CCD.setTemperature, habsent]
  case setTransformFormat =>
    rename_i format _
    by_cases h : format = ccd.transferFormat
    · simp [DeviceCmd.run, CCD.setTransformFormat, h]
    · simp [DeviceCmd.run, CCD.setTransformFormat, h, habsent]
  case setTelescopeType =>
    rename_i type _
    by_cases h : type = ccd.telescopeType
    · simp [DeviceCmd.run, CCD.setTelescopeType, h]
    · simp [DeviceCmd.run, CCD.setTelescopeType, h, habsent]
  case setVideoStreamEnabled => simp [DeviceCmd.run, CCD.setVideoStreamEnabled, habsent]
  case setExposureLoopingEnabled =>
    simp [DeviceCmd.run, CCD.setExposureLoopingEnabled, habsent]
  case setExposureLoopCount => simp [DeviceCmd.run, CCD.setExposureLoopCount, habsent]
  case setStreamExposure => simp [DeviceCmd.run, CCD.setStreamExposure, habsent]
  case setStreamingFrame => simp [DeviceCmd.run, CCD.setStreamingFrame, habsent]
  case startRecording => simp [DeviceCmd.run, CCD.startRecording, habsent]
  case startDurationRecording =>
    rcases habsent with h | h
    · simp [DeviceCmd.run, CCD.startDurationRecording, h]
    · simp only [DeviceCmd.run, CCD.startDurationRecording, h]
      split
      · simp
      · split <;> simp
  case startFramesRecording =>
    rcases habsent with h | h
    · simp [DeviceCmd.run, CCD.startFramesRecording, h]
    · simp only [DeviceCmd.run, CCD.startFramesRecording, h]
      split
      · simp
      · split <;> simp_all
  case stopRecording => simp [DeviceCmd.run, CCD.stopRecording, habsent]

/-- C9, amended, on a camera without properties: `setTemperature` answers `false` and the
state stays. -/
theorem device_command_without_property_witness :
    (DeviceCmd.setTemperature (-10)).backingAbsent bareCamera = true ∧
    (DeviceCmd.setTemperature (-10)).run bareCamera = some (false, bareCamera) :=
  ⟨by rfl,
   (device_command_without_property bareCamera (DeviceCmd.setTemperature (-10)) (by rfl)).trans
     (by rfl)⟩

@[simp] theorem emit_BType (ccd : CCD) (sig : Signal) : (ccd.emit sig).BType = ccd.BType := rfl

theorem modifyChip_BType (ccd : CCD) (type : ChipType) (f : CCDChip → CCDChip) :
    (ccd.modifyChip type f).BType = ccd.BType := by
  cases type <;> rfl

theorem loadImageInView_BType (ext : Collaborators) (ccd : CCD) (bp : IBLOB) (which : ChipType)
    (targetChip : CCDChip) (data : FITSData) :
    (ccd.loadImageInView ext bp which targetChip data).BType = ccd.BType := by
  unfold CCD.loadImageInView
  split
  · split <;> rfl
  · rfl

theorem handleImage_BType (ext : Collaborators) (opts : Options) (ccd : CCD) (which : ChipType)
    (targetChip : CCDChip) (bp : IBLOB) (data : FITSData) :
    (ccd.handleImage ext opts which targetChip bp data).BType = ccd.BType := by
  unfold CCD.handleImage
  simp only
  split
  · split
    · split
      · simp only [emit_BType]
        split <;> rfl
      · simp only [emit_BType, modifyChip_BType]
        split <;> split <;> rfl
    · simp only [emit_BType]
      split <;> rfl
  · rw [loadImageInView_BType]
    split <;> rfl

theorem writeImageFile_BType (ext : Collaborators) (ccd : CCD) (filename : String) (bp : IBLOB)
    (is_fits : Bool) : (ccd.writeImageFile ext filename bp is_fits).2.BType = ccd.BType := by
  unfold CCD.writeImageFile
  split
  · rfl
  · split <;> rfl
theorem materializeBLOB_BType (ext : Collaborators) (opts : Options) (ccd : CCD)
    (targetChip : CCDChip) (format : String) (bp : IBLOB) (is_fits : Bool) (filename : String)
    (ccd' : CCD) (h : ccd.materializeBLOB ext opts targetChip format bp is_fits =
      some (filename, ccd')) : ccd'.BType = ccd.BType := by
  unfold CCD.materializeBLOB at h
  split at h
  · simp only at h
    split at h
    · simp at h
    · split at h
      · simp at h
      · simp only [Option.some.injEq, Prod.mk.injEq] at h
        rw [← h.2, writeImageFile_BType]
  · simp only [Option.some.injEq, Prod.mk.injEq] at h
    rw [← h.2]

theorem announceBLOB_BType (ext : Collaborators) (ccd : CCD) (targetChip : CCDChip)
    (filename : String) : (ccd.announceBLOB ext targetChip filename).BType = ccd.BType := by
  unfold CCD.announceBLOB
  simp only
  split <;> split <;> rfl

theorem displayBLOB_BType (ext : Collaborators) (opts : Options) (ccd : CCD) (which : ChipType)
    (targetChip : CCDChip) (bp : IBLOB) (shortFormat filename : String) :
    (ccd.displayBLOB ext opts which targetChip bp shortFormat filename).BType = ccd.BType := by
  unfold CCD.displayBLOB
  split
  · rfl
  · split
    · rfl
    · exact handleImage_BType _ _ _ _ _ _ _

theorem blobTypeInOrder_eq (allowList : List String) (format : String) :
    (if allowList.contains (toLatin1 (mid1 format)) then BlobType.BLOB_IMAGE
     else if containsStr format "fits" then BlobType.BLOB_FITS
     else if RAWFormats.contains (mid1 format) then BlobType.BLOB_RAW
     else BlobType.BLOB_OTHER) = blobTypeInOrder allowList format := by
  simp [blobTypeInOrder, RAWFormats]

/-- C10, as stated, fails in its last sentence: the allow-list is asked first, so with an
image reader that lists `cr2` (a raw plugin is installed) the format `.cr2` with no stream
window is classified image, not raw. -/
theorem processBLOB_cr2_image_counterexample :
    (sampleCamera.processBLOB rawReader {} rawFrame).map (fun c => c.BType) =
      some BlobType.BLOB_IMAGE ∧
    sampleCamera.streamWindow = none ∧ rawFrame.format = ".cr2" := by
  decide!

/-- C10, amended. An accepted payload that is not routed to the stream path is classified in
this order, on the format in lower case: without its leading separator on the raster
allow-list gives image; otherwise containing `fits` gives FITS; otherwise without its
leading separator among `cr2, cr3, crw, nef, raf, dng, arw` gives raw; otherwise other.  The
format `.cr2` is raw when the allow-list does not hold `cr2`, and image when it does.  A
payload that is not other needs its target chip: one on `CCD2` needs the guide chip. -/
theorem processBLOB_classification_order (ext : Collaborators) (opts : Options) (ccd : CCD)
    (bp : IBLOB) (haccept : ¬ (bp.bvp.p = IPerm.IP_WO ∨ bp.size = 0))
    (hnostream : ¬ (containsStr (toLower bp.format) "stream" = true ∧
      ccd.streamWindow.isSome = true))
    (htarget : bp.name = "CCD2" →
      blobTypeInOrder ext.supportedImageFormats (toLower bp.format) ≠ BlobType.BLOB_OTHER →
      ccd.guideChip.isSome = true) :
    ∃ ccd', ccd.processBLOB ext opts bp = some ccd' ∧
      ccd'.BType = blobTypeInOrder ext.supportedImageFormats (toLower bp.format) ∧
      (bp.format = ".cr2" → "cr2" ∉ ext.supportedImageFormats →
        ccd'.BType = BlobType.BLOB_RAW) ∧
      (bp.format = ".cr2" → "cr2" ∈ ext.supportedImageFormats →
        ccd'.BType = BlobType.BLOB_IMAGE) := by
  have hcr2i : "cr2" ∈ ext.supportedImageFormats →
      blobTypeInOrder ext.supportedImageFormats (toLower ".cr2") = BlobType.BLOB_IMAGE := by
    intro hin
    have h1 : toLatin1 (mid1 (toLower ".cr2")) = "cr2" := by decide
    simp [blobTypeInOrder, h1, hin]
  have hcr2 : "cr2" ∉ ext.supportedImageFormats →
      blobTypeInOrder ext.supportedImageFormats (toLower ".cr2") = BlobType.BLOB_RAW := by
    intro hnot
    have h1 : toLatin1 "cr2" = "cr2" := by decide
    have h2 : containsStr (toLower ".cr2") "fits" = false := by decide
    have h3 : mid1 (toLower ".cr2") = "cr2" := by decide
    simp [blobTypeInOrder, h1, h2, h3, hnot]
  unfold CCD.processBLOB
  rw [if_neg haccept]
  simp only []
  rw [if_neg hnostream, blobTypeInOrder_eq]
  have hcr2' : bp.format = ".cr2" → "cr2" ∉ ext.supportedImageFormats →
      blobTypeInOrder ext.supportedImageFormats (toLower bp.format) = BlobType.BLOB_RAW := by
    intro hf
    rw [hf]
    exact hcr2
  have hcr2i' : bp.format = ".cr2" → "cr2" ∈ ext.supportedImageFormats →
      blobTypeInOrder ext.supportedImageFormats (toLower bp.format) = BlobType.BLOB_IMAGE := by
    intro hf
    rw [hf]
    exact hcr2i
  generalize blobTypeInOrder ext.supportedImageFormats (toLower bp.format) = BT
    at hcr2' hcr2i' htarget ⊢
  split
  · exact ⟨_, rfl, rfl, hcr2', hcr2i'⟩
  · rename_i hother
    have hchip : ∃ chip, CCD.getChip { ccd with BType := BT }
        (if bp.name = "CCD2" then ChipType.GUIDE_CCD else ChipType.PRIMARY_CCD) = some chip := by
      by_cases hn : bp.name = "CCD2"
      · obtain ⟨g, hg⟩ := Option.isSome_iff_exists.mp (htarget hn hother)
        exact ⟨g, by simp [hn, CCD.getChip, hg]⟩
      · exact ⟨ccd.primaryChip, by simp [hn, CCD.getChip]⟩
    obtain ⟨chip, hchip⟩ := hchip
    simp only [hchip]
    split
    · exact ⟨_, rfl, rfl, hcr2', hcr2i'⟩
    · rename_i filename ccd3 hmat
      have hB : ((ccd3.announceBLOB ext chip filename).displayBLOB ext opts
          (if bp.name = "CCD2" then ChipType.GUIDE_CCD else ChipType.PRIMARY_CCD) chip bp
          (mid1 (toLower bp.format)) filename).BType = BT := by
        rw [displayBLOB_BType, announceBLOB_BType,
          materializeBLOB_BType _ _ _ _ _ _ _ _ _ hmat]
      exact ⟨_, rfl, hB, fun hf hnot => hB.trans (hcr2' hf hnot),
        fun hf hin => hB.trans (hcr2i' hf hin)⟩

/-- C10, amended, on the sample camera: a `.cr2` payload with no stream window is classified
raw by the reader of raster formats. -/
theorem processBLOB_classification_order_witness :
    (sampleCamera.processBLOB sampleCollaborators {} rawFrame).map (fun c => c.BType) =
      some BlobType.BLOB_RAW := by
  obtain ⟨c, h1, _, h3, _⟩ := processBLOB_classification_order sampleCollaborators {}
    sampleCamera rawFrame (by decide) (by decide) (by decide)
  rw [h1, Option.map_some', h3 rfl (by decide)]

/-! ### The nearest-preset loop and the bounds scan inside their working range -/

theorem closestPresetLoop_invariant (e : ℚ) (values : List ℚ) (acc : ℚ × ℚ) :
    let r := values.foldl
      (fun acc oneValue =>
        let newDiff := |e - oneValue|
        if newDiff < acc.1 then (newDiff, oneValue) else acc) acc
    (r = acc ∨ (r.2 ∈ values ∧ r.1 = |e - r.2|)) ∧ r.1 ≤ acc.1 ∧
      ∀ v ∈ values, r.1 ≤ |e - v| := by
  induction values generalizing acc with
  | nil => simp
  | cons v vs ih =>
    simp only [List.foldl_cons]
    by_cases hlt : |e - v| < acc.1
    · simp only [hlt, if_true]
      obtain ⟨h1, h2, h3⟩ := ih (|e - v|, v)
      refine ⟨?_, ?_, ?_⟩
      · rcases h1 with h | ⟨hm, hd⟩
        · right
          rw [h]
          simp
        · right
          exact ⟨List.mem_cons_of_mem _ hm, hd⟩
      · exact le_trans h2 (le_of_lt hlt)
      · intro w hw
        rcases List.mem_cons.mp hw with rfl | hw
        · exact h2
        · exact h3 w hw
    · simp only [hlt, if_false]
      obtain ⟨h1, h2, h3⟩ := ih acc
      refine ⟨?_, h2, ?_⟩
      · rcases h1 with h | ⟨hm, hd⟩
        · left
          exact h
        · right
          exact ⟨List.mem_cons_of_mem _ hm, hd⟩
      · intro w hw
        rcases List.mem_cons.mp hw with rfl | hw
        · exact le_trans h2 (not_lt.mp hlt)
        · exact h3 w hw

/-- Inside its working range the loop of `capture` finds a nearest preset: when some preset is
closer than `1e6` to the request, the value chosen is a preset and no preset is closer. -/
theorem closestPresetLoop_nearest (e : ℚ) (values : List ℚ)
    (hnear : ∃ v ∈ values, |e - v| < 1000000) :
    (closestPresetLoop e values).2 ∈ values ∧
    ∀ v ∈ values, |e - (closestPresetLoop e values).2| ≤ |e - v| := by
  obtain ⟨h1, _, h3⟩ := closestPresetLoop_invariant e values (1000000, e)
  simp only at h1 h3
  change (closestPresetLoop e values = (1000000, e) ∨ _) at h1
  change (∀ v ∈ values, (closestPresetLoop e values).1 ≤ |e - v|) at h3
  rcases h1 with h | ⟨hm, hd⟩
  · obtain ⟨v, hv, hlt⟩ := hnear
    have := h3 v hv
    rw [h] at this
    exact absurd hlt (not_lt.mpr this)
  · exact ⟨hm, fun v hv => hd ▸ h3 v hv⟩

theorem presetsMinMax_invariant (values : List ℚ) (acc : ℚ × ℚ) :
    let r := values.foldl
      (fun acc oneValue =>
        (if oneValue < acc.1 then oneValue else acc.1,
         if oneValue > acc.2 then oneValue else acc.2)) acc
    (r.1 = acc.1 ∨ r.1 ∈ values) ∧ r.1 ≤ acc.1 ∧ (∀ v ∈ values, r.1 ≤ v) ∧
    (r.2 = acc.2 ∨ r.2 ∈ values) ∧ acc.2 ≤ r.2 ∧ (∀ v ∈ values, v ≤ r.2) := by
  induction values generalizing acc with
  | nil => simp
  | cons v vs ih =>
    simp only [List.foldl_cons]
    obtain ⟨a1, a2, a3, b1, b2, b3⟩ :=
      ih (if v < acc.1 then v else acc.1, if v > acc.2 then v else acc.2)
    simp only at a1 a2 a3 b1 b2 b3
    have hmin : (if v < acc.1 then v else acc.1) ≤ acc.1 ∧ (if v < acc.1 then v else acc.1) ≤ v := by
      split
      · rename_i h
        exact ⟨le_of_lt h, le_refl _⟩
      · rename_i h
        exact ⟨le_refl _, not_lt.mp h⟩
    have hmax : acc.2 ≤ (if v > acc.2 then v else acc.2) ∧ v ≤ (if v > acc.2 then v else acc.2) := by
      split
      · rename_i h
        exact ⟨le_of_lt h, le_refl _⟩
      · rename_i h
        exact ⟨le_refl _, not_lt.mp h⟩
    refine ⟨?_, le_trans a2 hmin.1, ?_, ?_, le_trans hmax.1 b2, ?_⟩
    · rcases a1 with h | h
      · rw [h]
        split
        · right
          simp
        · left
          rfl
      · right
        exact List.mem_cons_of_mem _ h
    · intro w hw
      rcases List.mem_cons.mp hw with rfl | hw
      · exact le_trans a2 hmin.2
      · exact a3 w hw
    · rcases b1 with h | h
      · rw [h]
        split
        · right
          simp
        · left
          rfl
      · right
        exact List.mem_cons_of_mem _ h
    · intro w hw
      rcases List.mem_cons.mp hw with rfl | hw
      · exact le_trans hmax.2 b2
      · exact b3 w hw

/-- Inside its working range the bounds scan is exact: for a non-empty table whose values all
lie strictly between `1e-6` and `1e6`, the pair computed is the least and the greatest value
of the table. -/
theorem presetsMinMax_exact (values : List ℚ) (hne : values ≠ [])
    (hrange : ∀ v ∈ values, 1 / 1000000 < v ∧ v < 1000000) :
    ((presetsMinMax values).1 ∈ values ∧ ∀ v ∈ values, (presetsMinMax values).1 ≤ v) ∧
    ((presetsMinMax values).2 ∈ values ∧ ∀ v ∈ values, v ≤ (presetsMinMax values).2) := by
  obtain ⟨a1, _, a3, b1, _, b3⟩ := presetsMinMax_invariant values (1000000, 1 / 1000000)
  simp only at a1 a3 b1 b3
  change ((presetsMinMax values).1 = 1000000 ∨ _) at a1
  change (∀ v ∈ values, (presetsMinMax values).1 ≤ v) at a3
  change ((presetsMinMax values).2 = 1 / 1000000 ∨ _) at b1
  change (∀ v ∈ values, v ≤ (presetsMinMax values).2) at b3
  obtain ⟨v0, hv0⟩ := List.exists_mem_of_ne_nil values hne
  refine ⟨⟨?_, a3⟩, ⟨?_, b3⟩⟩
  · rcases a1 with h | h
    · have := a3 v0 hv0
      rw [h] at this
      exact absurd (hrange v0 hv0).2 (not_lt.mpr this)
    · exact h
  · rcases b1 with h | h
    · have := b3 v0 hv0
      rw [h] at this
      exact absurd (hrange v0 hv0).1 (not_lt.mpr this)
    · exact h

/-- C13. A payload whose blob vector is write-only, or whose size is zero, is ignored:
`processBLOB` returns with the whole device state as it was (recorded blob type, signals
and file writes included), whatever the format. -/
theorem processBLOB_rejected_is_noop (ext : Collaborators) (opts : Options) (ccd : CCD)
    (bp : IBLOB) (hreject : bp.bvp.p = IPerm.IP_WO ∨ bp.size = 0) :
    ccd.processBLOB ext opts bp = some ccd := by
  unfold CCD.processBLOB
  rw [if_pos hreject]

/-- C13 on the streaming camera: the write-only echo leaves the state as it was. -/
theorem processBLOB_rejected_is_noop_witness :
    streamingCamera.processBLOB sampleCollaborators {} echoFrame = some streamingCamera :=
  processBLOB_rejected_is_noop sampleCollaborators {} streamingCamera echoFrame
    (Or.inl (by decide))

/-- C12. An accepted payload that is not routed to the stream path and is classified other is
handed to the generic handler, and that is all: the state afterwards is the old one with the
blob type other and the hand-over recorded; no signal is emitted, no file is written and no
file name is stored. -/
theorem processBLOB_other_is_delegated (ext : Collaborators) (opts : Options) (ccd : CCD)
    (bp : IBLOB) (haccept : ¬ (bp.bvp.p = IPerm.IP_WO ∨ bp.size = 0))
    (hnostream : ¬ (containsStr (toLower bp.format) "stream" = true ∧
      ccd.streamWindow.isSome = true))
    (hother : blobTypeInOrder ext.supportedImageFormats (toLower bp.format) =
      BlobType.BLOB_OTHER) :
    ccd.processBLOB ext opts bp =
      some { ccd with BType := BlobType.BLOB_OTHER
                      delegated := ccd.delegated ++ [Delegated.processBLOB bp] } ∧
    ∀ ccd', ccd.processBLOB ext opts bp = some ccd' →
      ccd'.emitted = ccd.emitted ∧ ccd'.fileWrites = ccd.fileWrites ∧
      ccd'.fileWriteFilename = ccd.fileWriteFilename ∧ ccd'.sent = ccd.sent := by
  have h : ccd.processBLOB ext opts bp =
      some { ccd with BType := BlobType.BLOB_OTHER
                      delegated := ccd.delegated ++ [Delegated.processBLOB bp] } := by
    unfold CCD.processBLOB
    rw [if_neg haccept]
    simp only []
    rw [if_neg hnostream, blobTypeInOrder_eq, hother]
    simp
  refine ⟨h, ?_⟩
  intro ccd' h'
  rw [h] at h'
  simp only [Option.some.injEq] at h'
  subst h'
  exact ⟨rfl, rfl, rfl, rfl⟩

/-- C12 on the sample camera: the format `.xyz` goes to the generic handler only. -/
theorem processBLOB_other_is_delegated_witness :
    sampleCamera.processBLOB sampleCollaborators {} unknownFrame =
      some { sampleCamera with BType := BlobType.BLOB_OTHER
                               delegated := [Delegated.processBLOB unknownFrame] } :=
  (processBLOB_other_is_delegated sampleCollaborators {} sampleCamera unknownFrame
    (by decide) (by decide) (by decide)).1

theorem processStream_effects (ccd ccd' : CCD) (bp : IBLOB)
    (h : ccd.processStream bp = some ccd') :
    ccd'.emitted = ccd.emitted ∧ ccd'.fileWrites = ccd.fileWrites ∧
    ccd'.fileWriteFilename = ccd.fileWriteFilename ∧ ccd'.delegated = ccd.delegated ∧
    ccd'.notices = ccd.notices ∧ ccd'.sent = ccd.sent ∧ ccd'.BType = ccd.BType := by
  unfold CCD.processStream at h
  split at h
  · simp only [Option.some.injEq] at h
    subst h
    exact ⟨rfl, rfl, rfl, rfl, rfl, rfl, rfl⟩
  · split at h
    · simp only [Option.some.injEq] at h
      subst h
      exact ⟨rfl, rfl, rfl, rfl, rfl, rfl, rfl⟩
    · simp only at h
      split at h
      · simp at h
      · simp only [Option.some.injEq] at h
        subst h
        exact ⟨rfl, rfl, rfl, rfl, rfl, rfl, rfl⟩

theorem processStream_disabled (ccd : CCD) (bp : IBLOB) (win : StreamWG)
    (hwindow : ccd.streamWindow = some win) (hoff : win.streamEnabled = false) :
    ccd.processStream bp = some ccd := by
  simp [CCD.processStream, hwindow, hoff]

theorem processStream_with_streamFrame (ccd : CCD) (bp : IBLOB) (win : StreamWG)
    (streamFrame : INumberVectorProperty) (w h : INumber)
    (hwindow : ccd.streamWindow = some win)
    (hsf : ccd.baseDevice.getNumber "CCD_STREAM_FRAME" = some streamFrame)
    (hw : IUFindNumber streamFrame "WIDTH" = some w)
    (hh : IUFindNumber streamFrame "HEIGHT" = some h) :
    (ccd.processStream bp).isSome = true := by
  by_cases hoff : win.streamEnabled = false
  · rw [processStream_disabled ccd bp win hwindow hoff]
    rfl
  · simp [CCD.processStream, hwindow, hoff, hsf, hw, hh]

/-- C11. An accepted payload whose format, in lower case, contains `stream` while a stream
window exists is handled by `processStream` and by nothing else: whenever the call returns,
no signal has been emitted (no blob-updated, new-image or exposure-progress), no file has
been written, no file name stored, nothing handed on and nothing sent.  The call does return
when the stream is disabled, and when `CCD_STREAM_FRAME` holds `WIDTH` and `HEIGHT`. -/
theorem processBLOB_stream_is_terminal (ext : Collaborators) (opts : Options) (ccd : CCD)
    (bp : IBLOB) (win : StreamWG) (haccept : ¬ (bp.bvp.p = IPerm.IP_WO ∨ bp.size = 0))
    (hformat : containsStr (toLower bp.format) "stream" = true)
    (hwindow : ccd.streamWindow = some win) :
    ccd.processBLOB ext opts bp =
      CCD.processStream { ccd with BType := BlobType.BLOB_OTHER } bp ∧
    (∀ ccd', ccd.processBLOB ext opts bp = some ccd' →
      ccd'.emitted = ccd.emitted ∧ ccd'.fileWrites = ccd.fileWrites ∧
      ccd'.fileWriteFilename = ccd.fileWriteFilename ∧ ccd'.delegated = ccd.delegated ∧
      ccd'.notices = ccd.notices ∧ ccd'.sent = ccd.sent) ∧
    (win.streamEnabled = false →
      ccd.processBLOB ext opts bp = some { ccd with BType := BlobType.BLOB_OTHER }) ∧
    (∀ streamFrame w h, ccd.baseDevice.getNumber "CCD_STREAM_FRAME" = some streamFrame →
      IUFindNumber streamFrame "WIDTH" = some w → IUFindNumber streamFrame "HEIGHT" = some h →
      ∃ ccd', ccd.processBLOB ext opts bp = some ccd') := by
  have hroute : ccd.processBLOB ext opts bp =
      CCD.processStream { ccd with BType := BlobType.BLOB_OTHER } bp := by
    unfold CCD.processBLOB
    rw [if_neg haccept]
    simp only []
    rw [if_pos ⟨hformat, by simp [hwindow]⟩]
  refine ⟨hroute, ?_, ?_, ?_⟩
  · intro ccd' h
    rw [hroute] at h
    obtain ⟨h1, h2, h3, h4, h5, h6, _⟩ := processStream_effects _ _ _ h
    exact ⟨h1, h2, h3, h4, h5, h6⟩
  · intro hoff
    rw [hroute]
    exact processStream_disabled _ bp win hwindow hoff
  · intro streamFrame w h hsf hw hh
    rw [hroute]
    exact Option.isSome_iff_exists.mp
      (processStream_with_streamFrame _ bp win streamFrame w h hwindow hsf hw hh)

/-- C11 on the streaming camera: the frame `.fits.stream` reaches the stream window and
leaves signals and file writes as they were. -/
theorem processBLOB_stream_is_terminal_witness :
    ∃ ccd', streamingCamera.processBLOB sampleCollaborators {} streamFrame = some ccd' ∧
      ccd'.emitted = [] ∧ ccd'.fileWrites = [] ∧ ccd'.fileWriteFilename = "" ∧
      ccd'.delegated = [] ∧ ccd'.notices = [] ∧ ccd'.sent = [] ∧
      ccd'.streamWindow.map (fun w => w.frames) = some [streamFrame] := by
  have hsome : (streamingCamera.processBLOB sampleCollaborators {} streamFrame).isSome = true := by
    decide!
  obtain ⟨c, hc⟩ := Option.isSome_iff_exists.mp hsome
  obtain ⟨h1, h2, h3, h4, h5, h6⟩ :=
    (processBLOB_stream_is_terminal sampleCollaborators {} streamingCamera streamFrame
      { streamEnabled := true } (by decide) (by decide) rfl).2.1 c hc
  refine ⟨c, hc, h1, h2, h3, h4, h5, h6, ?_⟩
  have hframes : (streamingCamera.processBLOB sampleCollaborators {} streamFrame).bind
      (fun c => c.streamWindow.map (fun w => w.frames)) = some [streamFrame] := by
    decide!
  rw [hc] at hframes
  exact hframes

theorem writeImageFile_emitted (ext : Collaborators) (ccd : CCD) (filename : String) (bp : IBLOB)
    (is_fits : Bool) : (ccd.writeImageFile ext filename bp is_fits).2.emitted = ccd.emitted := by
  unfold CCD.writeImageFile
  split
  · rfl
  · split <;> rfl

theorem announceBLOB_emitted (ext : Collaborators) (ccd : CCD) (targetChip : CCDChip)
    (filename : String) : (ccd.announceBLOB ext targetChip filename).emitted = ccd.emitted := by
  unfold CCD.announceBLOB
  simp only
  split <;> split <;> rfl

theorem materializeBLOB_succeeds (ext : Collaborators) (opts : Options) (ccd : CCD)
    (targetChip : CCDChip) (format : String) (bp : IBLOB) (is_fits : Bool)
    (hfile : targetChip.batchMode = true →
      ext.canOpenForWriting (ccd.generateFilename ext opts format true).2 = true) :
    ∃ filename ccd3, ccd.materializeBLOB ext opts targetChip format bp is_fits =
      some (filename, ccd3) ∧ ccd3.emitted = ccd.emitted := by
  unfold CCD.materializeBLOB
  by_cases hb : targetChip.batchMode = true
  · have hopen := hfile hb
    have hgen : (ccd.generateFilename ext opts format true).1 = true := hopen
    simp only [hb, if_true, hgen]
    have hwr : (ccd.writeImageFile ext (ccd.generateFilename ext opts format true).2 bp
        is_fits).1 = true := by
      by_cases hf : is_fits = true
      · simp [CCD.writeImageFile, hf]
      · simp [CCD.writeImageFile, hf, hopen]
    refine ⟨(ccd.generateFilename ext opts format true).2,
      (ccd.writeImageFile ext (ccd.generateFilename ext opts format true).2 bp is_fits).2, ?_,
      writeImageFile_emitted _ _ _ _ _⟩
    simp [hwr]
  · exact ⟨ext.tempPath ++ "/" ++ "image" ++ format, ccd, by simp [hb], rfl⟩

theorem processNumber_primary_alert (ccd : CCD) (nvp : INumberVectorProperty) (np : INumber)
    (hname : nvp.name = "CCD_EXPOSURE")
    (hfield : IUFindNumber nvp "CCD_EXPOSURE_VALUE" = some np)
    (halert : nvp.s = IPState.IPS_ALERT) :
    ccd.processNumber nvp =
      some { ccd with
        emitted := ccd.emitted ++
          [Signal.newExposureValue (some ChipType.PRIMARY_CCD) np.value IPState.IPS_ALERT,
           Signal.captureFailed]
        delegated := ccd.delegated ++ [Delegated.processNumber "CCD_EXPOSURE"] } := by
  simp [CCD.processNumber, hname, hfield, halert, CCD.emit]

theorem processNumber_guide_alert (ccd : CCD) (nvp : INumberVectorProperty) (np : INumber)
    (hname : nvp.name = "GUIDER_EXPOSURE")
    (hfield : IUFindNumber nvp "GUIDER_EXPOSURE_VALUE" = some np)
    (halert : nvp.s = IPState.IPS_ALERT) :
    ccd.processNumber nvp =
      some { ccd with
        emitted := ccd.emitted ++
          [Signal.newExposureValue ccd.guideChipPtr np.value IPState.IPS_ALERT]
        delegated := ccd.delegated ++ [Delegated.processNumber "GUIDER_EXPOSURE"] } := by
  simp [CCD.processNumber, hname, hfield, halert, CCD.emit]

theorem processNumber_alert_signal (ccd : CCD) (which : ChipType) (chip : CCDChip)
    (hchip : ccd.getChip which = some chip) (nvp : INumberVectorProperty) (np : INumber)
    (hname : nvp.name = (match which with
      | ChipType.PRIMARY_CCD => "CCD_EXPOSURE"
      | ChipType.GUIDE_CCD => "GUIDER_EXPOSURE"))
    (hfield : IUFindNumber nvp (match which with
      | ChipType.PRIMARY_CCD => "CCD_EXPOSURE_VALUE"
      | ChipType.GUIDE_CCD => "GUIDER_EXPOSURE_VALUE") = some np)
    (halert : nvp.s = IPState.IPS_ALERT) :
    ∃ c, ccd.processNumber nvp = some c ∧
      Signal.newExposureValue (some which) np.value IPState.IPS_ALERT ∈ c.emitted := by
  cases which
  · simp only at hname hfield
    exact ⟨_, processNumber_primary_alert ccd nvp np hname hfield halert, by simp⟩
  · simp only at hname hfield
    have hg : ccd.guideChipPtr = some ChipType.GUIDE_CCD := by
      simp only [CCD.getChip] at hchip
      simp [CCD.guideChipPtr, hchip]
    exact ⟨_, processNumber_guide_alert ccd nvp np hname hfield halert, by simp [hg]⟩

theorem displayBLOB_decode_failure (ext : Collaborators) (opts : Options) (ccd : CCD)
    (which : ChipType) (targetChip : CCDChip) (bp : IBLOB) (shortFormat filename : String)
    (hshown : ¬ ((targetChip.captureMode = FITSMode.FITS_NORMAL ∨
        targetChip.captureMode = FITSMode.FITS_CALIBRATE) ∧
      opts.useFITSViewer = false ∧ opts.useSummaryPreview = false ∧
      targetChip.batchMode = true))
    (hdecode : ext.loadFromBuffer (bp.blob.take bp.size) shortFormat filename = false) :
    ccd.displayBLOB ext opts which targetChip bp shortFormat filename =
      ccd.emit (Signal.newExposureValue (some which) 0 IPState.IPS_ALERT) := by
  unfold CCD.displayBLOB
  rw [if_neg hshown, if_pos hdecode]

/-- C14. An accepted image, FITS or raw payload that reaches the decoder (its target chip
exists, its file could be written, and the display is not skipped) and fails to decode makes
`processBLOB` emit exactly one signal: exposure progress `(target chip, 0, alert)`; no
new-image and no blob-updated signal is emitted.  It is the signal `processNumber` emits for
an alert of that chip's exposure vector at the reported value. -/
theorem processBLOB_decode_failure_alert (ext : Collaborators) (opts : Options) (ccd : CCD)
    (bp : IBLOB) (chip : CCDChip) (haccept : ¬ (bp.bvp.p = IPerm.IP_WO ∨ bp.size = 0))
    (hnostream : ¬ (containsStr (toLower bp.format) "stream" = true ∧
      ccd.streamWindow.isSome = true))
    (hkind : blobTypeInOrder ext.supportedImageFormats (toLower bp.format) ≠
      BlobType.BLOB_OTHER)
    (hchip : ccd.getChip (if bp.name = "CCD2" then ChipType.GUIDE_CCD
      else ChipType.PRIMARY_CCD) = some chip)
    (hfile : chip.batchMode = true →
      ext.canOpenForWriting (ccd.generateFilename ext opts (toLower bp.format) true).2 = true)
    (hshown : ¬ ((chip.captureMode = FITSMode.FITS_NORMAL ∨
        chip.captureMode = FITSMode.FITS_CALIBRATE) ∧
      opts.useFITSViewer = false ∧ opts.useSummaryPreview = false ∧ chip.batchMode = true))
    (hdecode : ∀ filename,
      ext.loadFromBuffer (bp.blob.take bp.size) (mid1 (toLower bp.format)) filename = false) :
    (∃ ccd', ccd.processBLOB ext opts bp = some ccd' ∧
      ccd'.emitted = ccd.emitted ++
        [Signal.newExposureValue
          (some (if bp.name = "CCD2" then ChipType.GUIDE_CCD else ChipType.PRIMARY_CCD)) 0
          IPState.IPS_ALERT]) ∧
    (∀ (nvp : INumberVectorProperty) (np : INumber),
      nvp.name = (if bp.name = "CCD2" then "GUIDER_EXPOSURE" else "CCD_EXPOSURE") →
      IUFindNumber nvp (if bp.name = "CCD2" then "GUIDER_EXPOSURE_VALUE"
        else "CCD_EXPOSURE_VALUE") = some np →
      nvp.s = IPState.IPS_ALERT → np.value = 0 →
      ∃ c, ccd.processNumber nvp = some c ∧
        Signal.newExposureValue
          (some (if bp.name = "CCD2" then ChipType.GUIDE_CCD else ChipType.PRIMARY_CCD)) 0
          IPState.IPS_ALERT ∈ c.emitted) := by
  constructor
  · unfold CCD.processBLOB
    rw [if_neg haccept]
    simp only []
    rw [if_neg hnostream, blobTypeInOrder_eq]
    generalize blobTypeInOrder ext.supportedImageFormats (toLower bp.format) = BT at hkind
    rw [if_neg hkind]
    have hchip' : CCD.getChip { ccd with BType := BT }
        (if bp.name = "CCD2" then ChipType.GUIDE_CCD else ChipType.PRIMARY_CCD) = some chip := by
      rw [← hchip]
      split <;> rfl
    simp only [hchip']
    obtain ⟨filename, ccd3, hmat, hem⟩ := materializeBLOB_succeeds ext opts
      { ccd with BType := BT } chip (toLower bp.format) bp (BT = BlobType.BLOB_FITS) hfile
    simp only [hmat]
    refine ⟨_, rfl, ?_⟩
    rw [displayBLOB_decode_failure _ _ _ _ _ _ _ _ hshown (hdecode filename)]
    simp only [CCD.emit, announceBLOB_emitted, hem]
  · intro nvp np hname hfield halert hzero
    by_cases hn : bp.name = "CCD2"
    · simp only [hn, if_true] at hname hfield hchip ⊢
      obtain ⟨c, hc, hmem⟩ := processNumber_alert_signal ccd ChipType.GUIDE_CCD chip hchip nvp np
        hname hfield halert
      exact ⟨c, hc, hzero ▸ hmem⟩
    · simp only [hn, if_false] at hname hfield hchip ⊢
      obtain ⟨c, hc, hmem⟩ := processNumber_alert_signal ccd ChipType.PRIMARY_CCD chip hchip nvp
        np hname hfield halert
      exact ⟨c, hc, hzero ▸ hmem⟩

/-- C14 on the sample camera with a decoder that rejects the buffer: the FITS frame yields
the single signal `(primary chip, 0, alert)`. -/
theorem processBLOB_decode_failure_alert_witness :
    ∃ ccd', sampleCamera.processBLOB failingDecoder {} fitsFrame = some ccd' ∧
      ccd'.emitted =
        [Signal.newExposureValue (some ChipType.PRIMARY_CCD) 0 IPState.IPS_ALERT] :=
  (processBLOB_decode_failure_alert failingDecoder {} sampleCamera fitsFrame
    sampleCamera.primaryChip (by decide) (by decide) (by decide) rfl (by decide) (by decide)
    (fun _ => rfl)).1

theorem isEmpty_eq_decide (s : String) : s.isEmpty = decide (s = "") := by
  by_cases h : s = ""
  · subst h
    rfl
  · have : ¬ (s.isEmpty = true) := fun he => h ((String.isEmpty_iff s).mp he)
    simp [h, this]

/-- C15, as stated, fails for the empty prefix: in batch mode with directory `/data`,
counter 7 and extension `.fits` the name is `/data/007.fits`, without the underscore of
`<dir>/<prefix>_<NNN><ext>`. -/
theorem generateFilename_empty_seqPrefix_counterexample :
    containsStr "" "_ISO8601" = false ∧
    ({ sequenceCamera with seqPrefix := "" }.generateFilename sampleCollaborators {} ".fits"
      true).2 = "/data/007.fits" ∧
    "/data/007.fits" ≠ "/data/" ++ "" ++ "_" ++ "007" ++ ".fits" := by
  decide!

/-- C15, amended. In batch mode, for a sequence prefix without `_ISO8601`, the counter `n`
and the extension `ext`, `generateFilename` produces `<dir>/<prefix>_<NNN><ext>` when the
prefix is not empty and `<dir>/<NNN><ext>` when it is empty; `<dir>` is the capture directory
of the device, or the configured default when that is empty, and `NNN` for `n ≥ 0` is the
decimal of `n` filled with zeros to three digits. -/
theorem generateFilename_batch_name (ext : Collaborators) (opts : Options) (ccd : CCD)
    (format : String) (hplain : containsStr ccd.seqPrefix "_ISO8601" = false) :
    (ccd.seqPrefix ≠ "" →
      (ccd.generateFilename ext opts format true).2 =
        sequenceDirectory opts ccd ++ ccd.seqPrefix ++ "_" ++ asprintf03d ccd.nextSequenceID ++
          format) ∧
    (ccd.seqPrefix = "" →
      (ccd.generateFilename ext opts format true).2 =
        sequenceDirectory opts ccd ++ asprintf03d ccd.nextSequenceID ++ format) ∧
    (0 ≤ ccd.nextSequenceID →
      (asprintf03d ccd.nextSequenceID).data =
        List.replicate (3 - (Nat.toDigits 10 ccd.nextSequenceID.toNat).length) '0' ++
          Nat.toDigits 10 ccd.nextSequenceID.toNat) := by
  refine ⟨?_, ?_, ?_⟩
  · intro hne
    simp [CCD.generateFilename, hplain, isEmpty_eq_decide, hne, sequenceDirectory,
      closeDirectory]
  · intro he
    simp only [CCD.generateFilename, hplain]
    simp [isEmpty_eq_decide, he, sequenceDirectory, closeDirectory]
  · intro hn
    have hlt : ¬ ccd.nextSequenceID < 0 := not_lt.mpr hn
    have hnat : ccd.nextSequenceID.natAbs = ccd.nextSequenceID.toNat := by omega
    simp [asprintf03d, hlt, hnat]

/-- C15, amended, on the sequence camera: prefix `Light`, counter 7 and extension `.fits`
give `/data/Light_007.fits`. -/
theorem generateFilename_batch_name_witness :
    (sequenceCamera.generateFilename sampleCollaborators {} ".fits" true).2 =
      "/data/Light_007.fits" :=
  ((generateFilename_batch_name sampleCollaborators {} sequenceCamera ".fits"
    (by decide)).1 (by decide)).trans (by decide!)

theorem replaceCharsAux_skip (pat rep : List Char) (n : Nat) (cs : List Char) :
    replaceCharsAux pat rep n cs = replaceCharsAux pat rep 0 (cs.drop n) := by
  induction n generalizing cs with
  | zero => simp
  | succ n ih =>
    cases cs with
    | nil => simp [replaceCharsAux]
    | cons c cs => simp [replaceCharsAux, ih]

theorem replaceCharsAux_cons_match (pat rep : List Char) (c : Char) (cs : List Char)
    (hm : pat.isPrefixOf (c :: cs) = true) :
    replaceCharsAux pat rep 0 (c :: cs) =
      rep ++ replaceCharsAux pat rep 0 (cs.drop (pat.length - 1)) := by
  simp [replaceCharsAux, hm, ← replaceCharsAux_skip]

theorem replaceCharsAux_cons_other (pat rep : List Char) (c : Char) (cs : List Char)
    (hm : pat.isPrefixOf (c :: cs) = false) :
    replaceCharsAux pat rep 0 (c :: cs) = c :: replaceCharsAux pat rep 0 cs := by
  simp [replaceCharsAux, hm]

/-- A text that begins the result of a replacement and does not hold the first character of
the replacement begins the original text too. -/
theorem startsReplaced_startsOriginal (pat : List Char) (h : Char) (rt : List Char)
    (s q : List Char) (hq : h ∉ q)
    (hstart : q.isPrefixOf (replaceCharsAux pat (h :: rt) 0 s) = true) :
    q.isPrefixOf s = true := by
  induction s generalizing q with
  | nil => simpa [replaceCharsAux] using hstart
  | cons c cs ih =>
    cases q with
    | nil => simp
    | cons a q' =>
      have ha : a ≠ h := fun e => hq (by simp [e])
      have hq' : h ∉ q' := fun e => hq (by simp [e])
      by_cases hm : pat.isPrefixOf (c :: cs) = true
      · rw [replaceCharsAux_cons_match _ _ _ _ hm] at hstart
        simp [List.isPrefixOf, ha] at hstart
      · have hm' : pat.isPrefixOf (c :: cs) = false := Bool.eq_false_iff.mpr hm
        rw [replaceCharsAux_cons_other _ _ _ _ hm'] at hstart
        simp only [List.isPrefixOf, Bool.and_eq_true, beq_iff_eq] at hstart ⊢
        exact ⟨hstart.1, ih q' hq' hstart.2⟩

theorem noOccurrence_append (p0 : Char) (pt rep rest : List Char) (hp0 : p0 ∉ rep)
    (hrest : rest.tails.any (fun t => (p0 :: pt).isPrefixOf t) = false) :
    (rep ++ rest).tails.any (fun t => (p0 :: pt).isPrefixOf t) = false := by
  induction rep with
  | nil => simpa using hrest
  | cons r rs ih =>
    have hr : p0 ≠ r := fun e => hp0 (by simp [e])
    have hrs : p0 ∉ rs := fun e => hp0 (by simp [e])
    simp only [List.cons_append, List.tails, List.any_cons, Bool.or_eq_false_iff]
    exact ⟨by simp [List.isPrefixOf, hr], ih hrs⟩

/-- After every occurrence of a pattern has been replaced, the pattern does not occur any
more, when the replacement lacks the first character of the pattern and begins with a
character that is not in the pattern. -/
theorem noOccurrence_replaced (p0 : Char) (pt : List Char) (h : Char) (rt : List Char)
    (hp0 : p0 ∉ h :: rt) (hh : h ∉ p0 :: pt) (n : Nat) :
    ∀ s : List Char, s.length ≤ n →
      (replaceCharsAux (p0 :: pt) (h :: rt) 0 s).tails.any
        (fun t => (p0 :: pt).isPrefixOf t) = false := by
  induction n with
  | zero =>
    intro s hs
    have : s = [] := List.length_eq_zero.mp (Nat.le_zero.mp hs)
    subst this
    simp [replaceCharsAux, List.isPrefixOf]
  | succ n ih =>
    intro s hs
    cases s with
    | nil => simp [replaceCharsAux, List.isPrefixOf]
    | cons c cs =>
      have hlen : cs.length ≤ n := by simpa using hs
      by_cases hm : (p0 :: pt).isPrefixOf (c :: cs) = true
      · rw [replaceCharsAux_cons_match _ _ _ _ hm]
        apply noOccurrence_append p0 pt (h :: rt) _ hp0
        apply ih
        rw [List.length_drop]
        omega
      · have hm' : (p0 :: pt).isPrefixOf (c :: cs) = false := Bool.eq_false_iff.mpr hm
        rw [replaceCharsAux_cons_other _ _ _ _ hm']
        simp only [List.tails, List.any_cons, Bool.or_eq_false_iff]
        refine ⟨?_, ih cs hlen⟩
        cases hhead : (p0 :: pt).isPrefixOf (c :: replaceCharsAux (p0 :: pt) (h :: rt) 0 cs) with
        | false => rfl
        | true =>
          exfalso
          simp only [List.isPrefixOf, Bool.and_eq_true, beq_iff_eq] at hhead
          have hpt : h ∉ pt := fun e => hh (by simp [e])
          have := startsReplaced_startsOriginal (p0 :: pt) h rt cs pt hpt hhead.2
          have hfull : (p0 :: pt).isPrefixOf (c :: cs) = true := by
            simp [List.isPrefixOf, hhead.1, this]
          exact hm hfull
theorem followsPicture_chars (ps cs : List Char) (h : followsPicture ps cs = true) :
    ∀ c ∈ cs, c.isDigit = true ∨ (c ∈ ps ∧ c ≠ 'd') := by
  induction ps generalizing cs with
  | nil =>
    cases cs with
    | nil => simp
    | cons c cs => simp [followsPicture] at h
  | cons p ps ih =>
    cases cs with
    | nil => simp
    | cons c cs =>
      simp only [followsPicture, Bool.and_eq_true] at h
      intro x hx
      rcases List.mem_cons.mp hx with rfl | hx
      · by_cases hp : p = 'd'
        · left
          simpa [hp] using h.1
        · right
          have : p = x := by simpa [hp] using h.1
          exact ⟨by simp [this], this ▸ hp⟩
      · rcases ih cs h.2 x hx with hd | hm
        · exact Or.inl hd
        · exact Or.inr ⟨List.mem_cons_of_mem _ hm.1, hm.2⟩

theorem timestampShape_chars (ts : String) (h : timestampShape ts = true) :
    ∀ c ∈ ts.data, c.isDigit = true ∨ c = '-' ∨ c = 'T' := by
  intro c hc
  rcases followsPicture_chars _ _ h c hc with hd | hm
  · exact Or.inl hd
  · have hmem := hm.1
    simp only [String.data, List.mem_cons, List.mem_nil_iff, or_false] at hmem
    have hnd := hm.2
    tauto

theorem timestampShape_head (ts : String) (h : timestampShape ts = true) :
    ∃ y rt, ts.data = y :: rt := by
  cases hts : ts.data with
  | nil => simp [timestampShape, hts, followsPicture] at h
  | cons y rt => exact ⟨y, rt, rfl⟩

/-- C16, as stated, fails.  With the capture directory `/data/ISO8601` the file name still
contains the literal token, which is replaced in the prefix only.  And in the year 1999 the
prefix `ISO860ISO8601_ISO8601` becomes `ISO8601999-…`: the text before the token and the
first digit of the year spell the token again. -/
theorem generateFilename_iso8601_counterexample :
    (containsStr "Light_ISO8601" "_ISO8601" = true ∧
      timestampShape sampleCollaborators.timestamp = true ∧
      ({ sequenceCamera with fitsDir := "/data/ISO8601", seqPrefix := "Light_ISO8601" }.generateFilename
        sampleCollaborators {} ".fits" true).2 =
          "/data/ISO8601/Light_2021-03-04T05-06-07_007.fits" ∧
      containsStr "/data/ISO8601/Light_2021-03-04T05-06-07_007.fits" "ISO8601" = true) ∧
    (containsStr "ISO860ISO8601_ISO8601" "_ISO8601" = true ∧
      timestampShape "1999-12-31T23-59-59" = true ∧
      ({ sequenceCamera with seqPrefix := "ISO860ISO8601_ISO8601" }.generateFilename
        { sampleCollaborators with timestamp := "1999-12-31T23-59-59" } {} ".fits" true).2 =
          "/data/ISO8601999-12-31T23-59-59_1999-12-31T23-59-59_007.fits" ∧
      containsStr "ISO8601999-12-31T23-59-59_1999-12-31T23-59-59" "ISO8601" = true) := by
  decide!

/-- C16, amended. For a sequence prefix containing `_ISO8601`, `generateFilename` produces
`<dir>/<prefix'>_<NNN><ext>`, where `prefix'` is the prefix with every occurrence of the
literal token `ISO8601` replaced by the timestamp `yyyy-MM-ddThh-mm-ss`.  The timestamp
contains no colon, and `prefix'` no longer contains the literal token when the year does
not begin with 0, 1, 6 or 8.  Directory and extension are copied as they are. -/
theorem generateFilename_iso8601_name (ext : Collaborators) (opts : Options) (ccd : CCD)
    (format : String) (batch_mode : Bool)
    (htoken : containsStr ccd.seqPrefix "_ISO8601" = true)
    (hshape : timestampShape ext.timestamp = true) :
    (ccd.generateFilename ext opts format batch_mode).2 =
      (if batch_mode then sequenceDirectory opts ccd else closeDirectory ext.tempLocation) ++
        replaceStr ccd.seqPrefix "ISO8601" ext.timestamp ++ "_" ++
        asprintf03d ccd.nextSequenceID ++ format ∧
    ':' ∉ ext.timestamp.data ∧
    (∀ y, ext.timestamp.data.head? = some y → y ∉ ['0', '1', '6', '8'] →
      containsStr (replaceStr ccd.seqPrefix "ISO8601" ext.timestamp) "ISO8601" = false) := by
  refine ⟨?_, ?_, ?_⟩
  · simp only [CCD.generateFilename, htoken, if_true]
    cases batch_mode <;> simp [sequenceDirectory, closeDirectory, isEmpty_eq_decide]
  · intro hmem
    rcases timestampShape_chars _ hshape ':' hmem with h | h | h
    · exact absurd h (by decide)
    · exact absurd h (by decide)
    · exact absurd h (by decide)
  · intro y hy hyear
    obtain ⟨y', rt, hts⟩ := timestampShape_head _ hshape
    have hyy : y' = y := by simpa [hts] using hy
    subst hyy
    have hchars := timestampShape_chars _ hshape
    have hI : 'I' ∉ ext.timestamp.data := by
      intro hmem
      rcases hchars 'I' hmem with h | h | h
      · exact absurd h (by decide)
      · exact absurd h (by decide)
      · exact absurd h (by decide)
    have hy' : y' ∉ 'I' :: ['S', 'O', '8', '6', '0', '1'] := by
      intro hmem
      have hdig := hchars y' (by simp [hts])
      simp only [List.mem_cons, List.mem_nil_iff, or_false] at hmem hyear
      rcases hmem with rfl | rfl | rfl | rfl | rfl | rfl | rfl
      · exact absurd hdig (by decide)
      · exact absurd hdig (by decide)
      · exact absurd hdig (by decide)
      · exact hyear (by simp)
      · exact hyear (by simp)
      · exact hyear (by simp)
      · exact hyear (by simp)
    rw [hts] at hI
    have := noOccurrence_replaced 'I' ['S', 'O', '8', '6', '0', '1'] y' rt hI hy'
      ccd.seqPrefix.data.length ccd.seqPrefix.data (le_refl _)
    simp only [containsStr, replaceStr, hts]
    exact this

/-- C16, amended, on the sequence camera with the prefix `Light_ISO8601` at
2021-03-04 05:06:07: the name is `/data/Light_2021-03-04T05-06-07_007.fits`. -/
theorem generateFilename_iso8601_name_witness :
    ({ sequenceCamera with seqPrefix := "Light_ISO8601" }.generateFilename
      sampleCollaborators {} ".fits" true).2 = "/data/Light_2021-03-04T05-06-07_007.fits" ∧
    ':' ∉ sampleCollaborators.timestamp.data :=
  have h := generateFilename_iso8601_name sampleCollaborators {}
    { sequenceCamera with seqPrefix := "Light_ISO8601" } ".fits" true (by decide) (by decide)
  ⟨h.1.trans (by decide!), h.2.1⟩

/-- C17. With the frame vector present with its four fields and the stored geometry equal to
`(x, y, w, h)`, the call `setFrame (x, y, w, h, false)` answers `true` and leaves the whole
state as it was: nothing is sent and no property value changes.  The same call with
`force = true` answers `true` and sends exactly one vector. -/
theorem setFrame_same_geometry (ccd : CCD) (type : ChipType) (frameProp : INumberVectorProperty)
    (xarg yarg warg harg : INumber) (x y w h : Int)
    (hprop : ccd.chipNumber type "CCD_FRAME" "GUIDER_FRAME" = some frameProp)
    (hx : IUFindNumber frameProp "X" = some xarg) (hy : IUFindNumber frameProp "Y" = some yarg)
    (hw : IUFindNumber frameProp "WIDTH" = some warg)
    (hh : IUFindNumber frameProp "HEIGHT" = some harg)
    (hvx : xarg.value = x) (hvy : yarg.value = y) (hvw : warg.value = w)
    (hvh : harg.value = h) :
    CCDChip.setFrame ccd type x y w h false = (true, ccd) ∧
    (CCDChip.setFrame ccd type x y w h true).1 = true ∧
    (CCDChip.setFrame ccd type x y w h true).2.sent = ccd.sent ++
      [Sent.number ((((frameProp.setValue "X" x).setValue "Y" y).setValue "WIDTH" w).setValue
        "HEIGHT" h)] := by
  refine ⟨?_, ?_, ?_⟩
  · simp [CCDChip.setFrame, hprop, hx, hy, hw, hh, hvx, hvy, hvw, hvh, notFabs]
  · simp [CCDChip.setFrame, hprop, hx, hy, hw, hh]
  · simp [CCDChip.setFrame, hprop, hx, hy, hw, hh, CCD.storeAndSendNumber]

/-- C17 on the subframed camera: setting the stored frame `(16, 8, 640, 480)` again without
force sends nothing, with force it sends one vector. -/
theorem setFrame_same_geometry_witness :
    CCDChip.setFrame subframedCamera ChipType.PRIMARY_CCD 16 8 640 480 false =
      (true, subframedCamera) ∧
    (CCDChip.setFrame subframedCamera ChipType.PRIMARY_CCD 16 8 640 480 true).2.sent.length = 1 :=
  have h := setFrame_same_geometry subframedCamera ChipType.PRIMARY_CCD
    { name := "CCD_FRAME"
      np := [ { name := "X", value := 16, min := 0, max := 1279 },
              { name := "Y", value := 8, min := 0, max := 1023 },
              { name := "WIDTH", value := 640, min := 1, max := 1280 },
              { name := "HEIGHT", value := 480, min := 1, max := 1024 } ] }
    { name := "X", value := 16, min := 0, max := 1279 }
    { name := "Y", value := 8, min := 0, max := 1023 }
    { name := "WIDTH", value := 640, min := 1, max := 1280 }
    { name := "HEIGHT", value := 480, min := 1, max := 1024 } 16 8 640 480
    (by rfl) (by rfl) (by rfl) (by rfl) (by rfl) (by norm_num) (by norm_num) (by norm_num)
    (by norm_num)
  ⟨h.1, by rw [h.2.2]; rfl⟩

theorem IUFindIEEENumber_set_same (np : List IEEENumber) (n : String) (v : Double)
    (a : IEEENumber) (h : IUFindIEEENumber np n = some a) :
    IUFindIEEENumber (setIEEEValue np n v) n = some { a with value := v } := by
  unfold IUFindIEEENumber at h ⊢
  unfold setIEEEValue
  have hn : (a.name == n) = true := by
    have := List.find?_some h
    simpa using this
  exact find?_modifyFirst_same (fun x => x.name == n) (fun x => { x with value := v }) np a h
    (by simpa using hn)

theorem IUFindIEEENumber_set_other (np : List IEEENumber) (n m : String) (v : Double)
    (hnm : n ≠ m) : IUFindIEEENumber (setIEEEValue np n v) m = IUFindIEEENumber np m := by
  unfold IUFindIEEENumber setIEEEValue
  apply find?_modifyFirst_other
  · intro a ha
    have h1 : a.name = n := by simpa using ha
    simp [h1, hnm]
  · intro a
    rfl

theorem frame_storeAndSend (s : IEEEFrames) (type : ChipType) (np : List IEEENumber) :
    (s.storeAndSend type np).frame type = some np := by
  cases type <;> rfl

theorem sent_storeAndSend (s : IEEEFrames) (type : ChipType) (np : List IEEENumber) :
    (s.storeAndSend type np).sent = s.sent ++ [np] := by
  cases type <;> rfl

theorem notFabsSub_self (d : Double) (h : d.isFinite = true) : Double.notFabsSub d d = true := by
  cases d with
  | finite q => simp [Double.notFabsSub, Double.sub, Double.fabs, Double.toBool]
  | posInf => simp [Double.isFinite] at h
  | negInf => simp [Double.isFinite] at h
  | nan => simp [Double.isFinite] at h

theorem notFabsSub_not_finite (a b : Double) (h : b.isFinite = false) :
    Double.notFabsSub a b = false := by
  cases a <;> cases b <;>
    simp [Double.notFabsSub, Double.sub, Double.fabs, Double.toBool, Double.isFinite] at h ⊢

theorem resetFrameIEEE_result (s : IEEEFrames) (type : ChipType) :
    s.resetFrame type = (false, s) ∨
    ∃ frameProp xarg yarg warg harg,
      s.frame type = some frameProp ∧
      IUFindIEEENumber frameProp "X" = some xarg ∧
      IUFindIEEENumber frameProp "Y" = some yarg ∧
      IUFindIEEENumber frameProp "WIDTH" = some warg ∧
      IUFindIEEENumber frameProp "HEIGHT" = some harg ∧
      s.resetFrame type = (true, s.storeAndSend type
        (setIEEEValue (setIEEEValue (setIEEEValue (setIEEEValue frameProp "X" xarg.min)
          "Y" yarg.min) "WIDTH" warg.max) "HEIGHT" harg.max)) := by
  unfold IEEEFrames.resetFrame
  split
  · exact Or.inl rfl
  · rename_i frameProp hprop
    split
    · rename_i xarg yarg warg harg hx hy hw hh
      split
      · exact Or.inl rfl
      · exact Or.inr ⟨frameProp, xarg, yarg, warg, harg, hprop, hx, hy, hw, hh, rfl⟩
    · exact Or.inl rfl

theorem resetFrameIEEE_fields_after (frameProp : List IEEENumber)
    (xarg yarg warg harg : IEEENumber)
    (hx : IUFindIEEENumber frameProp "X" = some xarg)
    (hy : IUFindIEEENumber frameProp "Y" = some yarg)
    (hw : IUFindIEEENumber frameProp "WIDTH" = some warg)
    (hh : IUFindIEEENumber frameProp "HEIGHT" = some harg) (vx vy vw vh : Double) :
    IUFindIEEENumber (setIEEEValue (setIEEEValue (setIEEEValue (setIEEEValue frameProp "X" vx)
      "Y" vy) "WIDTH" vw) "HEIGHT" vh) "X" = some { xarg with value := vx } ∧
    IUFindIEEENumber (setIEEEValue (setIEEEValue (setIEEEValue (setIEEEValue frameProp "X" vx)
      "Y" vy) "WIDTH" vw) "HEIGHT" vh) "Y" = some { yarg with value := vy } ∧
    IUFindIEEENumber (setIEEEValue (setIEEEValue (setIEEEValue (setIEEEValue frameProp "X" vx)
      "Y" vy) "WIDTH" vw) "HEIGHT" vh) "WIDTH" = some { warg with value := vw } ∧
    IUFindIEEENumber (setIEEEValue (setIEEEValue (setIEEEValue (setIEEEValue frameProp "X" vx)
      "Y" vy) "WIDTH" vw) "HEIGHT" vh) "HEIGHT" = some { harg with value := vh } := by
  refine ⟨?_, ?_, ?_, ?_⟩
  · rw [IUFindIEEENumber_set_other _ _ _ _ (by decide),
      IUFindIEEENumber_set_other _ _ _ _ (by decide),
      IUFindIEEENumber_set_other _ _ _ _ (by decide)]
    exact IUFindIEEENumber_set_same _ _ _ _ hx
  · rw [IUFindIEEENumber_set_other _ _ _ _ (by decide),
      IUFindIEEENumber_set_other _ _ _ _ (by decide)]
    apply IUFindIEEENumber_set_same
    rw [IUFindIEEENumber_set_other _ _ _ _ (by decide)]
    exact hy
  · rw [IUFindIEEENumber_set_other _ _ _ _ (by decide)]
    apply IUFindIEEENumber_set_same
    rw [IUFindIEEENumber_set_other _ _ _ _ (by decide),
      IUFindIEEENumber_set_other _ _ _ _ (by decide)]
    exact hw
  · apply IUFindIEEENumber_set_same
    rw [IUFindIEEENumber_set_other _ _ _ _ (by decide),
      IUFindIEEENumber_set_other _ _ _ _ (by decide),
      IUFindIEEENumber_set_other _ _ _ _ (by decide)]
    exact hh

/-- C18, as stated, fails for a bound that is not finite.  With `max WIDTH` and
`max HEIGHT` infinite the first `resetFrame` stores the infinite bound and sends; in the
second call `inf - inf` is not-a-number, the test `!std::fabs (…)` is false again, and the
call stores, sends and answers `true` once more: two sends. -/
theorem resetFrame_infinite_bound_counterexample :
    (unboundedFrames.resetFrame ChipType.PRIMARY_CCD).1 = true ∧
    ((unboundedFrames.resetFrame ChipType.PRIMARY_CCD).2.resetFrame ChipType.PRIMARY_CCD).1 =
      true ∧
    ((unboundedFrames.resetFrame ChipType.PRIMARY_CCD).2.resetFrame
      ChipType.PRIMARY_CCD).2.sent.length = 2 := by
  decide!

/-- C18, amended. For every chip and every state of its frame vector, over IEEE doubles, in
which the bounds `min X`, `min Y`, `max WIDTH` and `max HEIGHT` are finite (the stored
values may be anything): a `resetFrame` right after a `resetFrame` answers `false` and
leaves the state as it is, so the two calls send at most one vector; after a first call
that answers `true` the stored geometry is `(min X, min Y, max WIDTH, max HEIGHT)`.  With
one of the four bounds infinite or not-a-number every call writes, sends and answers
`true`. -/
theorem resetFrame_twice_finite (s : IEEEFrames) (type : ChipType)
    (hfinite : ∀ frameProp xarg yarg warg harg, s.frame type = some frameProp →
      IUFindIEEENumber frameProp "X" = some xarg →
      IUFindIEEENumber frameProp "Y" = some yarg →
      IUFindIEEENumber frameProp "WIDTH" = some warg →
      IUFindIEEENumber frameProp "HEIGHT" = some harg →
      xarg.min.isFinite = true ∧ yarg.min.isFinite = true ∧ warg.max.isFinite = true ∧
        harg.max.isFinite = true) :
    (s.resetFrame type).2.resetFrame type = (false, (s.resetFrame type).2) ∧
    ((s.resetFrame type).2.sent = s.sent ∨
      ∃ v, (s.resetFrame type).2.sent = s.sent ++ [v]) ∧
    ((s.resetFrame type).1 = true →
      ∃ frameProp xarg yarg warg harg after,
        s.frame type = some frameProp ∧
        IUFindIEEENumber frameProp "X" = some xarg ∧
        IUFindIEEENumber frameProp "Y" = some yarg ∧
        IUFindIEEENumber frameProp "WIDTH" = some warg ∧
        IUFindIEEENumber frameProp "HEIGHT" = some harg ∧
        (s.resetFrame type).2.frame type = some after ∧
        IUFindIEEENumber after "X" = some { xarg with value := xarg.min } ∧
        IUFindIEEENumber after "Y" = some { yarg with value := yarg.min } ∧
        IUFindIEEENumber after "WIDTH" = some { warg with value := warg.max } ∧
        IUFindIEEENumber after "HEIGHT" = some { harg with value := harg.max }) ∧
    (∀ (t : IEEEFrames) frameProp xarg yarg warg harg, t.frame type = some frameProp →
      IUFindIEEENumber frameProp "X" = some xarg →
      IUFindIEEENumber frameProp "Y" = some yarg →
      IUFindIEEENumber frameProp "WIDTH" = some warg →
      IUFindIEEENumber frameProp "HEIGHT" = some harg →
      (xarg.min.isFinite = false ∨ yarg.min.isFinite = false ∨ warg.max.isFinite = false ∨
        harg.max.isFinite = false) →
      (t.resetFrame type).1 = true ∧
      ∃ v, (t.resetFrame type).2.sent = t.sent ++ [v]) := by
  have hlast : ∀ (t : IEEEFrames) frameProp xarg yarg warg harg,
      t.frame type = some frameProp →
      IUFindIEEENumber frameProp "X" = some xarg →
      IUFindIEEENumber frameProp "Y" = some yarg →
      IUFindIEEENumber frameProp "WIDTH" = some warg →
      IUFindIEEENumber frameProp "HEIGHT" = some harg →
      (xarg.min.isFinite = false ∨ yarg.min.isFinite = false ∨ warg.max.isFinite = false ∨
        harg.max.isFinite = false) →
      (t.resetFrame type).1 = true ∧
      ∃ v, (t.resetFrame type).2.sent = t.sent ++ [v] := by
    intro t frameProp xarg yarg warg harg hprop hx hy hw hh hinf
    have htest : (Double.notFabsSub xarg.value xarg.min &&
        Double.notFabsSub yarg.value yarg.min && Double.notFabsSub warg.value warg.max &&
        Double.notFabsSub harg.value harg.max) = false := by
      rcases hinf with h | h | h | h
      · simp [notFabsSub_not_finite _ _ h]
      · simp [notFabsSub_not_finite _ _ h]
      · simp [notFabsSub_not_finite _ _ h]
      · simp [notFabsSub_not_finite _ _ h]
    simp only [IEEEFrames.resetFrame, hprop, hx, hy, hw, hh, htest]
    exact ⟨rfl, _, sent_storeAndSend _ _ _⟩
  rcases resetFrameIEEE_result s type with h | ⟨frameProp, xarg, yarg, warg, harg, hprop, hx,
    hy, hw, hh, h⟩
  · rw [h]
    exact ⟨h, Or.inl rfl, fun ht => by simp at ht, hlast⟩
  · rw [h]
    obtain ⟨f1, f2, f3, f4⟩ := hfinite frameProp xarg yarg warg harg hprop hx hy hw hh
    have hstore := frame_storeAndSend s type
      (setIEEEValue (setIEEEValue (setIEEEValue (setIEEEValue frameProp "X" xarg.min)
        "Y" yarg.min) "WIDTH" warg.max) "HEIGHT" harg.max)
    obtain ⟨fx, fy, fw, fh⟩ := resetFrameIEEE_fields_after frameProp xarg yarg warg harg hx hy
      hw hh xarg.min yarg.min warg.max harg.max
    refine ⟨?_, Or.inr ⟨_, sent_storeAndSend _ _ _⟩, fun _ =>
      ⟨frameProp, xarg, yarg, warg, harg, _, hprop, hx, hy, hw, hh, hstore, fx, fy, fw, fh⟩,
      hlast⟩
    simp only [IEEEFrames.resetFrame, hstore, fx, fy, fw, fh]
    simp [notFabsSub_self _ f1, notFabsSub_self _ f2, notFabsSub_self _ f3,
      notFabsSub_self _ f4]

theorem modifyFirst_map_toIEEE (n : String) (v : ℚ) (l : List INumber) :
    (modifyFirst (fun x => x.name == n) (fun x => { x with value := v }) l).map INumber.toIEEE =
      setIEEEValue (l.map INumber.toIEEE) n (Double.finite v) := by
  unfold setIEEEValue
  induction l with
  | nil => rfl
  | cons a as ih =>
    simp only [modifyFirst, List.map_cons, INumber.toIEEE]
    by_cases h : (a.name == n) = true
    · simp [h, INumber.toIEEE]
    · simp only [h]
      simp only [Bool.false_eq_true, ↓reduceIte, List.map_cons, INumber.toIEEE, List.cons.injEq,
        true_and]
      exact ih

theorem setValue_toIEEE (nvp : INumberVectorProperty) (n : String) (v : ℚ) :
    (nvp.setValue n v).np.map INumber.toIEEE =
      setIEEEValue (nvp.np.map INumber.toIEEE) n (Double.finite v) :=
  modifyFirst_map_toIEEE n v nvp.np

theorem IUFindIEEENumber_toIEEE (nvp : INumberVectorProperty) (n : String) :
    IUFindIEEENumber (nvp.np.map INumber.toIEEE) n = (IUFindNumber nvp n).map INumber.toIEEE := by
  unfold IUFindIEEENumber IUFindNumber
  rw [List.find?_map]
  rfl

theorem notFabsSub_finite (a b : ℚ) :
    Double.notFabsSub (Double.finite a) (Double.finite b) = notFabs (a - b) := by
  simp [Double.notFabsSub, Double.sub, Double.fabs, Double.toBool, notFabs]

theorem frames_frame (ccd : CCD) (type : ChipType) :
    ccd.frames.frame type =
      (ccd.chipNumber type "CCD_FRAME" "GUIDER_FRAME").map (fun v => v.np.map INumber.toIEEE) := by
  cases type <;> rfl

/-- The two models of `resetFrame` agree on a store of finite doubles: the method over IEEE
doubles, run on the frame vectors of a device, gives the answer of `CCDChip.resetFrame` and
the frame vector it leaves in the store. -/
theorem resetFrame_on_finite_store (ccd : CCD) (type : ChipType) :
    (ccd.frames.resetFrame type).1 = (CCDChip.resetFrame ccd type).1 ∧
    (ccd.frames.resetFrame type).2.frame type =
      (CCDChip.resetFrame ccd type).2.frames.frame type := by
  unfold IEEEFrames.resetFrame CCDChip.resetFrame
  rw [frames_frame]
  cases hprop : ccd.chipNumber type "CCD_FRAME" "GUIDER_FRAME" with
  | none => simp [frames_frame, hprop]
  | some frameProp =>
    simp only [Option.map_some', IUFindIEEENumber_toIEEE]
    cases hx : IUFindNumber frameProp "X" with
    | none => simp [frames_frame, hprop]
    | some xarg =>
      cases hy : IUFindNumber frameProp "Y" with
      | none => simp [frames_frame, hprop]
      | some yarg =>
        cases hw : IUFindNumber frameProp "WIDTH" with
        | none => simp [frames_frame, hprop]
        | some warg =>
          cases hh : IUFindNumber frameProp "HEIGHT" with
          | none => simp [frames_frame, hprop]
          | some harg =>
            simp only [Option.map_some', INumber.toIEEE, notFabsSub_finite]
            by_cases htest : (notFabs (xarg.value - xarg.min) &&
                notFabs (yarg.value - yarg.min) && notFabs (warg.value - warg.max) &&
                notFabs (harg.value - harg.max)) = true
            · simp only [htest, if_true]
              simp [frames_frame, hprop]
            · simp only [htest]
              have hstore := chipNumber_storeAndSendNumber ccd type "CCD_FRAME" "GUIDER_FRAME"
                frameProp ((((frameProp.setValue "X" xarg.min).setValue "Y" yarg.min).setValue
                  "WIDTH" warg.max).setValue "HEIGHT" harg.max) hprop rfl
              simp only [Bool.false_eq_true, if_false, frame_storeAndSend, frames_frame, hstore,
                Option.map_some', setValue_toIEEE, true_and]

/-- C18, amended, on the frame vectors of the subframed camera, all bounds finite: the first
`resetFrame` answers `true` and sends one vector, the second answers `false` and leaves the
state as it is. -/
theorem resetFrame_twice_finite_witness :
    (subframedCamera.frames.resetFrame ChipType.PRIMARY_CCD).1 = true ∧
    (subframedCamera.frames.resetFrame ChipType.PRIMARY_CCD).2.sent.length = 1 ∧
    (subframedCamera.frames.resetFrame ChipType.PRIMARY_CCD).2.resetFrame ChipType.PRIMARY_CCD =
      (false, (subframedCamera.frames.resetFrame ChipType.PRIMARY_CCD).2) :=
  ⟨by decide!, by decide!,
    (resetFrame_twice_finite subframedCamera.frames ChipType.PRIMARY_CCD (by
      intro frameProp xarg yarg warg harg hprop hx hy hw hh
      have hp : frameProp = subframedFrame := by
        have h0 : subframedCamera.frames.frame ChipType.PRIMARY_CCD = some subframedFrame := by
          decide!
        rw [h0] at hprop
        exact (Option.some.inj hprop).symm
      subst hp
      have h1 : IUFindIEEENumber subframedFrame "X" = some (subframedFrame.get ⟨0, by decide⟩) := by
        decide!
      have h2 : IUFindIEEENumber subframedFrame "Y" = some (subframedFrame.get ⟨1, by decide⟩) := by
        decide!
      have h3 : IUFindIEEENumber subframedFrame "WIDTH" =
          some (subframedFrame.get ⟨2, by decide⟩) := by decide!
      have h4 : IUFindIEEENumber subframedFrame "HEIGHT" =
          some (subframedFrame.get ⟨3, by decide⟩) := by decide!
      rw [h1] at hx; rw [h2] at hy; rw [h3] at hw; rw [h4] at hh
      rw [← Option.some.inj hx, ← Option.some.inj hy, ← Option.some.inj hw,
        ← Option.some.inj hh]
      decide!)).1⟩

/-- C19, as stated, fails: on a camera set to light frames the enum call for dark frames
answers `true` and selects `FRAME_DARK`, while the names `DARK`, `dark` and `frame_dark`
are unknown to the name call, which answers `false` and changes nothing. -/
theorem setFrameType_name_case_counterexample :
    (CCDChip.setFrameType lightFrameCamera ChipType.PRIMARY_CCD CCDFrameType.FRAME_DARK).1 =
      true ∧
    CCDChip.setFrameTypeByName lightFrameCamera ChipType.PRIMARY_CCD "DARK" =
      (false, lightFrameCamera) ∧
    CCDChip.setFrameTypeByName lightFrameCamera ChipType.PRIMARY_CCD "dark" =
      (false, lightFrameCamera) ∧
    CCDChip.setFrameTypeByName lightFrameCamera ChipType.PRIMARY_CCD "frame_dark" =
      (false, lightFrameCamera) := by
  decide!

/-- C19, amended. The name call maps exactly the spellings `FRAME_LIGHT` / `Light`,
`FRAME_DARK` / `Dark`, `FRAME_BIAS` / `Bias` and `FRAME_FLAT` / `Flat` to the frame type and
then behaves as the enum call; every other name, in whatever letter case, is unknown: the
call answers `false` and leaves the state as it was. -/
theorem setFrameType_name_exact (ccd : CCD) (type : ChipType) (name : String) :
    (name = "FRAME_LIGHT" ∨ name = "Light" →
      CCDChip.setFrameTypeByName ccd type name =
        CCDChip.setFrameType ccd type CCDFrameType.FRAME_LIGHT) ∧
    (name = "FRAME_DARK" ∨ name = "Dark" →
      CCDChip.setFrameTypeByName ccd type name =
        CCDChip.setFrameType ccd type CCDFrameType.FRAME_DARK) ∧
    (name = "FRAME_BIAS" ∨ name = "Bias" →
      CCDChip.setFrameTypeByName ccd type name =
        CCDChip.setFrameType ccd type CCDFrameType.FRAME_BIAS) ∧
    (name = "FRAME_FLAT" ∨ name = "Flat" →
      CCDChip.setFrameTypeByName ccd type name =
        CCDChip.setFrameType ccd type CCDFrameType.FRAME_FLAT) ∧
    (name ∉ ["FRAME_LIGHT", "Light", "FRAME_DARK", "Dark", "FRAME_BIAS", "Bias",
        "FRAME_FLAT", "Flat"] →
      CCDChip.setFrameTypeByName ccd type name = (false, ccd)) := by
  refine ⟨?_, ?_, ?_, ?_, ?_⟩
  · rintro (h | h) <;> subst h <;> simp [CCDChip.setFrameTypeByName]
  · rintro (h | h) <;> subst h <;> simp [CCDChip.setFrameTypeByName]
  · rintro (h | h) <;> subst h <;> simp [CCDChip.setFrameTypeByName]
  · rintro (h | h) <;> subst h <;> simp [CCDChip.setFrameTypeByName]
  · intro h
    simp only [List.mem_cons, List.mem_nil_iff, or_false, not_or] at h
    obtain ⟨h1, h2, h3, h4, h5, h6, h7, h8⟩ := h
    simp [CCDChip.setFrameTypeByName, h1, h2, h3, h4, h5, h6, h7, h8]

/-- C19, amended, on the camera set to light frames: the name `Dark` selects dark frames as
the enum call does. -/
theorem setFrameType_name_exact_witness :
    CCDChip.setFrameTypeByName lightFrameCamera ChipType.PRIMARY_CCD "Dark" =
      CCDChip.setFrameType lightFrameCamera ChipType.PRIMARY_CCD CCDFrameType.FRAME_DARK :=
  (setFrameType_name_exact lightFrameCamera ChipType.PRIMARY_CCD "Dark").2.1 (Or.inr rfl)

/-- C20, as stated, fails: on a camera that reports dark frames as selected, with its chip in
the normal capture mode, `setFrameType (FRAME_DARK)` answers `true` and the capture mode is
still normal. -/
theorem setFrameType_selected_counterexample :
    darkFrameCamera.primaryChip.captureMode = FITSMode.FITS_NORMAL ∧
    (CCDChip.setFrameType darkFrameCamera ChipType.PRIMARY_CCD CCDFrameType.FRAME_DARK).1 =
      true ∧
    (CCDChip.setFrameType darkFrameCamera ChipType.PRIMARY_CCD
      CCDFrameType.FRAME_DARK).2.primaryChip.captureMode = FITSMode.FITS_NORMAL := by
  decide!

theorem getChip_storeAndSendSwitch (ccd : CCD) (svp : ISwitchVectorProperty)
    (type : ChipType) : (ccd.storeAndSendSwitch svp).getChip type = ccd.getChip type := by
  cases type <;> rfl

theorem getChip_modifyChip (ccd : CCD) (type : ChipType) (f : CCDChip → CCDChip) :
    (ccd.modifyChip type f).getChip type = (ccd.getChip type).map f := by
  cases type <;> rfl

/-- C20, amended. For every chip and every frame type `t` other than light: when
`setFrameType (t)` answers `true`, either the switch of `t` was already on and the state,
capture mode included, is as it was, or the switch was not on and the capture mode of the
chip afterwards is calibrate. -/
theorem setFrameType_calibrate (ccd : CCD) (type : ChipType) (chip : CCDChip)
    (fType : CCDFrameType) (hchip : ccd.getChip type = some chip)
    (hcal : fType ≠ CCDFrameType.FRAME_LIGHT)
    (htrue : (CCDChip.setFrameType ccd type fType).1 = true) :
    ∃ frameProp ccdFrame,
      (if type = ChipType.PRIMARY_CCD then ccd.baseDevice.getSwitch "CCD_FRAME_TYPE"
        else ccd.baseDevice.getSwitch "GUIDER_FRAME_TYPE") = some frameProp ∧
      IUFindSwitch frameProp fType.switchName = some ccdFrame ∧
      ((ccdFrame.s = ISState.ISS_ON ∧ (CCDChip.setFrameType ccd type fType).2 = ccd) ∨
       (ccdFrame.s ≠ ISState.ISS_ON ∧
        ((CCDChip.setFrameType ccd type fType).2.getChip type).map (fun c => c.captureMode) =
          some FITSMode.FITS_CALIBRATE)) := by
  unfold CCDChip.setFrameType at htrue ⊢
  split at htrue
  · simp at htrue
  · rename_i frameProp hprop
    rw [hprop]
    simp only
    split at htrue
    · simp at htrue
    · rename_i ccdFrame hfind
      refine ⟨frameProp, ccdFrame, rfl, hfind, ?_⟩
      by_cases hon : ccdFrame.s = ISState.ISS_ON
      · left
        exact ⟨hon, by simp [hon]⟩
      · right
        refine ⟨hon, ?_⟩
        simp only [hon, if_false, hcal, ne_eq, not_false_eq_true, if_true]
        rw [getChip_storeAndSendSwitch, getChip_modifyChip, hchip]
        rfl

/-- C20, amended, on the camera set to light frames: `setFrameType (FRAME_DARK)` answers
`true`, the dark switch was not on, and the capture mode of the primary chip becomes
calibrate. -/
theorem setFrameType_calibrate_witness :
    (CCDChip.setFrameType lightFrameCamera ChipType.PRIMARY_CCD CCDFrameType.FRAME_DARK).1 =
      true ∧
    ∃ frameProp ccdFrame,
      (if ChipType.PRIMARY_CCD = ChipType.PRIMARY_CCD
        then lightFrameCamera.baseDevice.getSwitch "CCD_FRAME_TYPE"
        else lightFrameCamera.baseDevice.getSwitch "GUIDER_FRAME_TYPE") = some frameProp ∧
      IUFindSwitch frameProp CCDFrameType.FRAME_DARK.switchName = some ccdFrame ∧
      ((ccdFrame.s = ISState.ISS_ON ∧
        (CCDChip.setFrameType lightFrameCamera ChipType.PRIMARY_CCD
          CCDFrameType.FRAME_DARK).2 = lightFrameCamera) ∨
       (ccdFrame.s ≠ ISState.ISS_ON ∧
        ((CCDChip.setFrameType lightFrameCamera ChipType.PRIMARY_CCD
          CCDFrameType.FRAME_DARK).2.getChip ChipType.PRIMARY_CCD).map
            (fun c => c.captureMode) = some FITSMode.FITS_CALIBRATE)) :=
  ⟨by decide!, setFrameType_calibrate lightFrameCamera ChipType.PRIMARY_CCD
    lightFrameCamera.primaryChip CCDFrameType.FRAME_DARK rfl (by decide) (by decide!)⟩

theorem getSwitch_name (d : BaseDevice) (n : String) (v : ISwitchVectorProperty)
    (h : d.getSwitch n = some v) : v.name = n := by
  have := List.find?_some h
  simpa using this

theorem getSwitch_putSwitch (d : BaseDevice) (n : String) (v w : ISwitchVectorProperty)
    (h : d.getSwitch n = some v) (hw : w.name = n) :
    (d.putSwitch w).getSwitch n = some w := by
  unfold BaseDevice.getSwitch at h ⊢
  unfold BaseDevice.putSwitch
  simp only [hw]
  exact find?_modifyFirst_same (fun x => x.name == n) (fun _ => w) d.switches v h (by simp [hw])

theorem findIdx?_go_set_on (l : List ISwitch) (i k : Nat) (hi : i < l.length)
    (a : ISwitch) (ha : a.s = ISState.ISS_ON) :
    List.findIdx? (fun n => n.s == ISState.ISS_ON)
      ((l.map (fun n => { n with s := ISState.ISS_OFF })).set i a) k = some (k + i) := by
  induction l generalizing i k with
  | nil => simp at hi
  | cons b bs ih =>
    cases i with
    | zero => simp [List.findIdx?_cons, ha]
    | succ j =>
      have hj : j < bs.length := by simpa using hi
      simp only [List.map_cons, List.set_cons_succ, List.findIdx?_cons]
      rw [ih j (k + 1) hj]
      simp
      omega

theorem states_set_on (l : List ISwitch) (i : Nat) (a : ISwitch)
    (ha : a.s = ISState.ISS_ON) :
    ((l.map (fun n => { n with s := ISState.ISS_OFF })).set i a).map (fun n => n.s) =
      (List.range l.length).map
        (fun j => if j = i then ISState.ISS_ON else ISState.ISS_OFF) := by
  apply List.ext_getElem
  · simp
  · intro j h1 h2
    simp only [List.getElem_map, List.getElem_set, List.getElem_range]
    by_cases hji : i = j
    · subst hji
      simp [ha]
    · have : ¬ j = i := fun h => hji h.symm
      simp [hji, this]

/-- C21. With the `CCD_ISO` vector present with `n` switches and `0 ≤ i < n`, the call
`setISOIndex (i)` answers `true`, sends the vector once, and leaves switch `i` on and every
other switch off, names and labels as they were; `getISOIndex` right after answers `i`;
`getISOList` answers the `n` labels in the order of the vector, before and after the call. -/
theorem setISOIndex_then_getISOIndex (ccd : CCD) (isoProp : ISwitchVectorProperty) (i : Nat)
    (hprop : ccd.baseDevice.getSwitch "CCD_ISO" = some isoProp) (hi : i < isoProp.sp.length) :
    ∃ ccd' isoProp',
      CCDChip.setISOIndex ccd (i : Int) = some (true, ccd') ∧
      ccd'.sent = ccd.sent ++ [Sent.switch isoProp'] ∧
      ccd'.baseDevice.getSwitch "CCD_ISO" = some isoProp' ∧
      isoProp'.sp.map (fun sw => sw.s) =
        (List.range isoProp.sp.length).map
          (fun j => if j = i then ISState.ISS_ON else ISState.ISS_OFF) ∧
      isoProp'.sp.map (fun sw => sw.name) = isoProp.sp.map (fun sw => sw.name) ∧
      CCDChip.getISOIndex ccd' = (i : Int) ∧
      CCDChip.getISOList ccd' = isoProp.sp.map (fun sw => sw.label) ∧
      CCDChip.getISOList ccd = isoProp.sp.map (fun sw => sw.label) ∧
      (CCDChip.getISOList ccd').length = isoProp.sp.length := by
  have hname : isoProp.name = "CCD_ISO" := getSwitch_name _ _ _ hprop
  have hlen : i < (IUResetSwitch isoProp).sp.length := by simpa [IUResetSwitch] using hi
  obtain ⟨n, hn⟩ : ∃ n, (IUResetSwitch isoProp).sp[i]? = some n :=
    ⟨_, List.getElem?_eq_getElem hlen⟩
  let isoProp' : ISwitchVectorProperty :=
    { IUResetSwitch isoProp with
      sp := (IUResetSwitch isoProp).sp.set i { n with s := ISState.ISS_ON } }
  have hset : (IUResetSwitch isoProp).setStateAt i ISState.ISS_ON = some isoProp' := by
    simp [ISwitchVectorProperty.setStateAt, hn, isoProp']
  have hcall : CCDChip.setISOIndex ccd (i : Int) =
      some (true, ccd.storeAndSendSwitch isoProp') := by
    simp [CCDChip.setISOIndex, hprop, hset]
  have hget : (ccd.storeAndSendSwitch isoProp').baseDevice.getSwitch "CCD_ISO" =
      some isoProp' := by
    simp only [CCD.storeAndSendSwitch]
    exact getSwitch_putSwitch _ _ isoProp isoProp' hprop hname
  have hlabels : isoProp'.sp.map (fun sw => sw.label) = isoProp.sp.map (fun sw => sw.label) := by
    apply List.ext_getElem
    · simp [isoProp', IUResetSwitch]
    · intro j h1 h2
      have hnj := hn
      simp only [IUResetSwitch, List.getElem?_map] at hnj
      simp only [isoProp', IUResetSwitch, List.getElem_map, List.getElem_set]
      by_cases hij : i = j
      · subst hij
        rw [List.getElem?_eq_getElem hi] at hnj
        simp only [Option.map_some', Option.some.injEq] at hnj
        simp [← hnj]
      · simp [hij]
  have hnames : isoProp'.sp.map (fun sw => sw.name) = isoProp.sp.map (fun sw => sw.name) := by
    apply List.ext_getElem
    · simp [isoProp', IUResetSwitch]
    · intro j h1 h2
      have hnj := hn
      simp only [IUResetSwitch, List.getElem?_map] at hnj
      simp only [isoProp', IUResetSwitch, List.getElem_map, List.getElem_set]
      by_cases hij : i = j
      · subst hij
        rw [List.getElem?_eq_getElem hi] at hnj
        simp only [Option.map_some', Option.some.injEq] at hnj
        simp [← hnj]
      · simp [hij]
  refine ⟨ccd.storeAndSendSwitch isoProp', isoProp', hcall, rfl, hget, ?_, hnames, ?_, ?_, ?_, ?_⟩
  · exact states_set_on isoProp.sp i _ rfl
  · simp only [CCDChip.getISOIndex, hget, IUFindOnSwitchIndex]
    have := findIdx?_go_set_on isoProp.sp i 0 hi { n with s := ISState.ISS_ON } rfl
    simp only [isoProp', IUResetSwitch]
    rw [this]
    simp
  · simp only [CCDChip.getISOList, hget]
    exact hlabels
  · simp [CCDChip.getISOList, hprop]
  · simp only [CCDChip.getISOList, hget]
    rw [hlabels]
    simp

/-- C21 on the DSLR body: `setISOIndex (2)` leaves `off, off, on, off`, `getISOIndex`
answers 2 and the list is `100, 200, 400, 800`. -/
theorem setISOIndex_then_getISOIndex_witness :
    ∃ ccd' isoProp',
      CCDChip.setISOIndex isoCamera 2 = some (true, ccd') ∧
      ccd'.baseDevice.getSwitch "CCD_ISO" = some isoProp' ∧
      isoProp'.sp.map (fun sw => sw.s) =
        [ISState.ISS_OFF, ISState.ISS_OFF, ISState.ISS_ON, ISState.ISS_OFF] ∧
      CCDChip.getISOIndex ccd' = 2 ∧
      CCDChip.getISOList ccd' = ["100", "200", "400", "800"] := by
  obtain ⟨ccd', isoProp', h1, _, h3, h4, _, h6, h7, _, _⟩ :=
    setISOIndex_then_getISOIndex isoCamera
      { name := "CCD_ISO"
        sp := [ { name := "ISO0", label := "100" },
                { name := "ISO1", label := "200", s := ISState.ISS_ON },
                { name := "ISO2", label := "400" },
                { name := "ISO3", label := "800" } ] } 2 (by rfl) (by decide)
  exact ⟨ccd', isoProp', h1, h3, h4, h6, h7⟩

/-- C22 fails in the code for the guide chip: an alert of `GUIDER_EXPOSURE` yields the
exposure progress signal of the guide chip and no capture failure signal, where the same
alert of `CCD_EXPOSURE` yields the progress signal of the primary chip followed by the
capture failure signal. -/
theorem processNumber_guider_alert_no_failure :
    (guideHeadCamera.processNumber
        (failedExposure "GUIDER_EXPOSURE" "GUIDER_EXPOSURE_VALUE" 2)).map (fun c => c.emitted) =
      some [Signal.newExposureValue (some ChipType.GUIDE_CCD) 2 IPState.IPS_ALERT] ∧
    (guideHeadCamera.processNumber
        (failedExposure "CCD_EXPOSURE" "CCD_EXPOSURE_VALUE" 2)).map (fun c => c.emitted) =
      some [Signal.newExposureValue (some ChipType.PRIMARY_CCD) 2 IPState.IPS_ALERT,
            Signal.captureFailed] := by
  decide!

theorem processNumber_primary_alert_bare (ccd : CCD) (nvp : INumberVectorProperty)
    (hname : nvp.name = "CCD_EXPOSURE")
    (hfield : IUFindNumber nvp "CCD_EXPOSURE_VALUE" = none)
    (halert : nvp.s = IPState.IPS_ALERT) :
    ccd.processNumber nvp =
      some { ccd with
        emitted := ccd.emitted ++ [Signal.captureFailed]
        delegated := ccd.delegated ++ [Delegated.processNumber "CCD_EXPOSURE"] } := by
  simp [CCD.processNumber, hname, hfield, halert, CCD.emit]

theorem processNumber_guide_bare (ccd : CCD) (nvp : INumberVectorProperty)
    (hname : nvp.name = "GUIDER_EXPOSURE")
    (hfield : IUFindNumber nvp "GUIDER_EXPOSURE_VALUE" = none) :
    ccd.processNumber nvp =
      some { ccd with
        delegated := ccd.delegated ++ [Delegated.processNumber "GUIDER_EXPOSURE"] } := by
  simp [CCD.processNumber, hname, hfield]

/-- The signals of an exposure vector in alert, for every device state.  An update of
`CCD_EXPOSURE` adds the exposure progress signal `(primary chip, value, alert)` when the
field `CCD_EXPOSURE_VALUE` is present, and then the capture failure signal.  An update of
`GUIDER_EXPOSURE` adds the exposure progress signal `(guide chip, value, alert)` when the
field `GUIDER_EXPOSURE_VALUE` is present, and never the capture failure signal. -/
theorem processNumber_exposure_alert (ccd : CCD) (nvp : INumberVectorProperty)
    (halert : nvp.s = IPState.IPS_ALERT) :
    (nvp.name = "CCD_EXPOSURE" →
      ∃ ccd', ccd.processNumber nvp = some ccd' ∧
        ccd'.emitted = ccd.emitted ++
          (match IUFindNumber nvp "CCD_EXPOSURE_VALUE" with
           | some np =>
             [Signal.newExposureValue (some ChipType.PRIMARY_CCD) np.value IPState.IPS_ALERT]
           | none => []) ++ [Signal.captureFailed]) ∧
    (nvp.name = "GUIDER_EXPOSURE" →
      ∃ ccd', ccd.processNumber nvp = some ccd' ∧
        ccd'.emitted = ccd.emitted ++
          (match IUFindNumber nvp "GUIDER_EXPOSURE_VALUE" with
           | some np => [Signal.newExposureValue ccd.guideChipPtr np.value IPState.IPS_ALERT]
           | none => [])) := by
  constructor
  · intro hname
    cases hf : IUFindNumber nvp "CCD_EXPOSURE_VALUE" with
    | none => exact ⟨_, processNumber_primary_alert_bare ccd nvp hname hf halert, by simp⟩
    | some np => exact ⟨_, processNumber_primary_alert ccd nvp np hname hf halert, by simp⟩
  · intro hname
    cases hf : IUFindNumber nvp "GUIDER_EXPOSURE_VALUE" with
    | none => exact ⟨_, processNumber_guide_bare ccd nvp hname hf, by simp⟩
    | some np => exact ⟨_, processNumber_guide_alert ccd nvp np hname hf halert, by simp⟩

theorem chipFlagsKept_refl (c : CCDChip) : c.flagsKept c := ⟨id, id, id⟩

theorem chipFlagsKept_trans (a b c : CCDChip) (h1 : a.flagsKept b) (h2 : b.flagsKept c) :
    a.flagsKept c :=
  ⟨fun h => h2.1 (h1.1 h), fun h => h2.2.1 (h1.2.1 h), fun h => h2.2.2 (h1.2.2 h)⟩

theorem deviceFlagsKept_trans (a b c : CCD) (h1 : a.flagsKept b) (h2 : b.flagsKept c) :
    a.flagsKept c :=
  ⟨fun h => h2.1 (h1.1 h), fun h => h2.2.1 (h1.2.1 h), fun h => h2.2.2.1 (h1.2.2.1 h),
   fun h => h2.2.2.2 (h1.2.2.2 h)⟩

theorem guideFlagsKept_trans (a b c : CCD) (h1 : a.guideFlagsKept b)
    (h2 : b.guideFlagsKept c) : a.guideFlagsKept c := by
  intro g hg
  obtain ⟨g1, hg1, k1⟩ := h1 g hg
  obtain ⟨g2, hg2, k2⟩ := h2 g1 hg1
  exact ⟨g2, hg2, chipFlagsKept_trans _ _ _ k1 k2⟩

/-- A step that leaves the flags of both chips as they are and keeps the device flags. -/
theorem flags_of_capabilities (a b : CCD)
    (hp : b.primaryChip.capabilities = a.primaryChip.capabilities)
    (hg : b.guideChip.map CCDChip.capabilities = a.guideChip.map CCDChip.capabilities)
    (hd : a.flagsKept b) :
    a.primaryChip.flagsKept b.primaryChip ∧ a.flagsKept b ∧ a.guideFlagsKept b := by
  refine ⟨?_, hd, ?_⟩
  · simp only [CCDChip.capabilities, Prod.mk.injEq] at hp
    exact ⟨fun h => by rw [hp.1]; exact h, fun h => by rw [hp.2.1]; exact h,
      fun h => by rw [hp.2.2]; exact h⟩
  · intro g hga
    rw [hga] at hg
    cases hgb : b.guideChip with
    | none => simp [hgb] at hg
    | some g' =>
      rw [hgb] at hg
      simp only [Option.map_some', Option.some.injEq, CCDChip.capabilities, Prod.mk.injEq] at hg
      exact ⟨g', rfl, fun h => by rw [hg.1]; exact h, fun h => by rw [hg.2.1]; exact h,
        fun h => by rw [hg.2.2]; exact h⟩

theorem processRapidGuideData_flags (ccd : CCD) (chip : Option ChipType)
    (nvp : INumberVectorProperty) :
    (ccd.processRapidGuideData chip nvp).primaryChip = ccd.primaryChip ∧
    (ccd.processRapidGuideData chip nvp).guideChip = ccd.guideChip ∧
    (ccd.processRapidGuideData chip nvp).capabilities = ccd.capabilities := by
  unfold CCD.processRapidGuideData
  split
  · exact ⟨rfl, rfl, rfl⟩
  · simp only
    split <;> exact ⟨rfl, rfl, rfl⟩

theorem flagsKept_of_capabilities (a b : CCD) (h : b.capabilities = a.capabilities) :
    a.flagsKept b := by
  simp only [CCD.capabilities, Prod.mk.injEq] at h
  exact ⟨fun k => by rw [h.1]; exact k, fun k => by rw [h.2.1]; exact k,
    fun k => by rw [h.2.2.1]; exact k, fun k => by rw [h.2.2.2]; exact k⟩

theorem processNumber_flags (ccd ccd' : CCD) (nvp : INumberVectorProperty)
    (h : ccd.processNumber nvp = some ccd') :
    ccd'.primaryChip = ccd.primaryChip ∧ ccd'.guideChip = ccd.guideChip ∧
    ccd.flagsKept ccd' := by
  unfold CCD.processNumber at h
  simp only [] at h
  repeat' split at h
  all_goals try (simp at h; done)
  all_goals (simp only [Option.some.injEq] at h; subst h)
  all_goals refine ⟨?_, ?_, ?_⟩
  all_goals try rfl
  all_goals try exact (processRapidGuideData_flags _ _ _).1
  all_goals try exact (processRapidGuideData_flags _ _ _).2.1
  all_goals try exact flagsKept_of_capabilities _ _ (processRapidGuideData_flags _ _ _).2.2
  all_goals try exact flagsKept_of_capabilities _ _ rfl
  all_goals simp [CCD.flagsKept, CCD.emit]

theorem processSwitch_flags (ccd ccd' : CCD) (svp : ISwitchVectorProperty)
    (h : ccd.processSwitch svp = some ccd') :
    ccd'.primaryChip = ccd.primaryChip ∧ ccd'.guideChip = ccd.guideChip ∧
    ccd.flagsKept ccd' := by
  unfold CCD.processSwitch at h
  generalize hdone : (fun (c : CCD) =>
    some { c with delegated := c.delegated ++ [Delegated.processSwitch svp.name] }) = done at h
  have hd : ∀ c c', done c = some c' → c'.primaryChip = c.primaryChip ∧
      c'.guideChip = c.guideChip ∧ c.flagsKept c' := by
    intro c c' hc
    rw [← hdone] at hc
    simp only [Option.some.injEq] at hc
    subst hc
    exact ⟨rfl, rfl, flagsKept_of_capabilities _ _ rfl⟩
  clear hdone
  simp only [] at h
  repeat' split at h
  all_goals try (simp at h; done)
  all_goals try first
    | (simp only [Option.some.injEq] at h
       subst h
       exact ⟨rfl, rfl, flagsKept_of_capabilities _ _ rfl⟩)
    | (obtain ⟨k1, k2, k3⟩ := hd _ _ h
       refine ⟨k1, k2, deviceFlagsKept_trans _ _ _ ?_ k3⟩
       simp [CCD.flagsKept, CCD.emit, CCD.notice])
  · rename_i ccd2 hopen _ _ _
    have hc2 : ccd2.primaryChip = ccd.primaryChip ∧ ccd2.guideChip = ccd.guideChip ∧
        ccd.flagsKept ccd2 := by
      repeat' split at hopen
      all_goals try (simp at hopen; done)
      all_goals
        simp only [Option.some.injEq] at hopen
        subst hopen
        exact ⟨rfl, rfl, by simp [CCD.flagsKept]⟩
    obtain ⟨k1, k2, k3⟩ := hd _ _ h
    refine ⟨k1.trans hc2.1, k2.trans hc2.2.1,
      deviceFlagsKept_trans _ _ _ hc2.2.2 (deviceFlagsKept_trans _ _ _ ?_ k3)⟩
    simp [CCD.flagsKept, CCD.emit]
  · rename_i ccd2 hopen _ _
    have hc2 : ccd2.primaryChip = ccd.primaryChip ∧ ccd2.guideChip = ccd.guideChip ∧
        ccd.flagsKept ccd2 := by
      repeat' split at hopen
      all_goals try (simp at hopen; done)
      all_goals
        simp only [Option.some.injEq] at hopen
        subst hopen
        exact ⟨rfl, rfl, by simp [CCD.flagsKept]⟩
    obtain ⟨k1, k2, k3⟩ := hd _ _ h
    exact ⟨k1.trans hc2.1, k2.trans hc2.2.1, deviceFlagsKept_trans _ _ _ hc2.2.2 k3⟩

theorem processText_flags (ccd : CCD) (tvp : ITextVectorProperty) :
    (ccd.processText tvp).primaryChip = ccd.primaryChip ∧
    (ccd.processText tvp).guideChip = ccd.guideChip ∧
    ccd.flagsKept (ccd.processText tvp) := by
  unfold CCD.processText
  simp only []
  repeat' split
  all_goals exact ⟨rfl, rfl, flagsKept_of_capabilities _ _ rfl⟩

theorem foldl_registerPresetSwitch_flags (ext : Collaborators) (l : List ISwitch) (ccd : CCD) :
    (l.foldl (registerPresetSwitch ext) ccd).primaryChip = ccd.primaryChip ∧
    (l.foldl (registerPresetSwitch ext) ccd).guideChip = ccd.guideChip ∧
    (l.foldl (registerPresetSwitch ext) ccd).HasCooler = ccd.HasCooler ∧
    (l.foldl (registerPresetSwitch ext) ccd).HasCoolerControl = ccd.HasCoolerControl ∧
    (l.foldl (registerPresetSwitch ext) ccd).HasVideoStream = ccd.HasVideoStream ∧
    (l.foldl (registerPresetSwitch ext) ccd).HasGuideHead = ccd.HasGuideHead := by
  induction l generalizing ccd with
  | nil => exact ⟨rfl, rfl, rfl, rfl, rfl, rfl⟩
  | cons sw sws ih =>
    simp only [List.foldl_cons]
    exact ih (registerPresetSwitch ext ccd sw)

theorem registerGainOffsetField_flags (controlNP : INumberVectorProperty) (ccd : CCD)
    (field : Nat × INumber) :
    (registerGainOffsetField controlNP ccd field).primaryChip = ccd.primaryChip ∧
    (registerGainOffsetField controlNP ccd field).guideChip = ccd.guideChip ∧
    (registerGainOffsetField controlNP ccd field).HasCooler = ccd.HasCooler ∧
    (registerGainOffsetField controlNP ccd field).HasCoolerControl = ccd.HasCoolerControl ∧
    (registerGainOffsetField controlNP ccd field).HasVideoStream = ccd.HasVideoStream ∧
    (registerGainOffsetField controlNP ccd field).HasGuideHead = ccd.HasGuideHead := by
  unfold registerGainOffsetField
  simp only []
  repeat' split
  all_goals exact ⟨rfl, rfl, rfl, rfl, rfl, rfl⟩

theorem foldl_registerGainOffsetField_flags (controlNP : INumberVectorProperty)
    (l : List (Nat × INumber)) (ccd : CCD) :
    (l.foldl (registerGainOffsetField controlNP) ccd).primaryChip = ccd.primaryChip ∧
    (l.foldl (registerGainOffsetField controlNP) ccd).guideChip = ccd.guideChip ∧
    (l.foldl (registerGainOffsetField controlNP) ccd).HasCooler = ccd.HasCooler ∧
    (l.foldl (registerGainOffsetField controlNP) ccd).HasCoolerControl = ccd.HasCoolerControl ∧
    (l.foldl (registerGainOffsetField controlNP) ccd).HasVideoStream = ccd.HasVideoStream ∧
    (l.foldl (registerGainOffsetField controlNP) ccd).HasGuideHead = ccd.HasGuideHead := by
  induction l generalizing ccd with
  | nil => exact ⟨rfl, rfl, rfl, rfl, rfl, rfl⟩
  | cons f fs ih =>
    simp only [List.foldl_cons]
    obtain ⟨h1, h2, h3, h4, h5, h6⟩ := ih (registerGainOffsetField controlNP ccd f)
    obtain ⟨k1, k2, k3, k4, k5, k6⟩ := registerGainOffsetField_flags controlNP ccd f
    exact ⟨h1.trans k1, h2.trans k2, h3.trans k3, h4.trans k4, h5.trans k5, h6.trans k6⟩

theorem registerProperty_flags (ext : Collaborators) (ccd0 ccd' : CCD) (prop : Property)
    (h : CCD.registerProperty ext ccd0 prop = some ccd') :
    ccd0.primaryChip.flagsKept ccd'.primaryChip ∧ ccd0.flagsKept ccd' ∧
    (prop.getName ≠ "GUIDER_EXPOSURE" → ccd0.guideFlagsKept ccd') := by
  unfold CCD.registerProperty at h
  generalize hccd : (if ccd0.baseDevice.connected then { ccd0 with readyTimerStarted := true }
    else ccd0) = ccd at h
  have hc0 : ccd.primaryChip = ccd0.primaryChip ∧ ccd.guideChip = ccd0.guideChip ∧
      ccd.HasCooler = ccd0.HasCooler ∧ ccd.HasCoolerControl = ccd0.HasCoolerControl ∧
      ccd.HasVideoStream = ccd0.HasVideoStream ∧ ccd.HasGuideHead = ccd0.HasGuideHead := by
    rw [← hccd]
    split <;> exact ⟨rfl, rfl, rfl, rfl, rfl, rfl⟩
  clear hccd
  obtain ⟨e1, e2, e3, e4, e5, e6⟩ := hc0
  simp only [CCDChip.flagsKept, CCD.flagsKept, CCD.guideFlagsKept, ← e1, ← e2, ← e3, ← e4,
    ← e5, ← e6]
  clear e1 e2 e3 e4 e5 e6
  simp only [] at h
  by_cases n0 : prop.getName = "GUIDER_EXPOSURE" <;> [rw [if_pos n0] at h; rw [if_neg n0] at h]
  rotate_left
  by_cases n1 : prop.getName = "CCD_FRAME_TYPE" <;> [rw [if_pos n1] at h; rw [if_neg n1] at h]
  rotate_left
  by_cases n2 : prop.getName = "CCD_FRAME" <;> [rw [if_pos n2] at h; rw [if_neg n2] at h]
  rotate_left
  by_cases n3 : prop.getName = "GUIDER_FRAME" <;> [rw [if_pos n3] at h; rw [if_neg n3] at h]
  rotate_left
  by_cases n4 : prop.getName = "CCD_BINNING" <;> [rw [if_pos n4] at h; rw [if_neg n4] at h]
  rotate_left
  by_cases n5 : prop.getName = "GUIDER_BINNING" <;> [rw [if_pos n5] at h; rw [if_neg n5] at h]
  rotate_left
  by_cases n6 : prop.getName = "CCD_ABORT_EXPOSURE" <;> [rw [if_pos n6] at h; rw [if_neg n6] at h]
  rotate_left
  by_cases n7 : prop.getName = "GUIDER_ABORT_EXPOSURE" <;> [rw [if_pos n7] at h; rw [if_neg n7] at h]
  rotate_left
  by_cases n8 : prop.getName = "CCD_TEMPERATURE" <;> [rw [if_pos n8] at h; rw [if_neg n8] at h]
  rotate_left
  by_cases n9 : prop.getName = "CCD_COOLER" <;> [rw [if_pos n9] at h; rw [if_neg n9] at h]
  rotate_left
  by_cases n10 : prop.getName = "CCD_VIDEO_STREAM" <;> [rw [if_pos n10] at h; rw [if_neg n10] at h]
  rotate_left
  by_cases n11 : prop.getName = "CCD_TRANSFER_FORMAT" <;> [rw [if_pos n11] at h; rw [if_neg n11] at h]
  rotate_left
  by_cases n12 : prop.getName = "CCD_EXPOSURE_PRESETS" <;> [rw [if_pos n12] at h; rw [if_neg n12] at h]
  rotate_left
  by_cases n13 : prop.getName = "CCD_EXPOSURE_LOOP" <;> [rw [if_pos n13] at h; rw [if_neg n13] at h]
  rotate_left
  by_cases n14 : prop.getName = "TELESCOPE_TYPE" <;> [rw [if_pos n14] at h; rw [if_neg n14] at h]
  rotate_left
  by_cases n15 : prop.getName = "CCD_WEBSOCKET_SETTINGS" <;> [rw [if_pos n15] at h; rw [if_neg n15] at h]
  rotate_left
  by_cases n16 : prop.getName = "CCD1" <;> [rw [if_pos n16] at h; rw [if_neg n16] at h]
  rotate_left
  all_goals repeat' split at h
  all_goals try (simp at h; done)
  all_goals
    simp only [Option.some.injEq] at h
    subst h
  all_goals try simp only [foldl_registerPresetSwitch_flags, foldl_registerGainOffsetField_flags]
  all_goals try simp [CCD.emit]
  all_goals
    intro hne g hg
    first
      | exact absurd (by assumption) hne
      | exact ⟨g, hg, id, id, id⟩
      | simp_all

theorem setImageView_capabilities (chip : CCDChip) (data : FITSData) (mode : FITSMode) :
    (chip.setImageView data mode).capabilities = chip.capabilities := by
  cases mode <;> rfl

theorem modifyChip_allCapabilities (ccd : CCD) (type : ChipType) (f : CCDChip → CCDChip)
    (hf : ∀ c, (f c).capabilities = c.capabilities) :
    (ccd.modifyChip type f).allCapabilities = ccd.allCapabilities := by
  cases type
  · simp [CCD.modifyChip, CCD.allCapabilities, hf, CCD.capabilities]
  · cases hg : ccd.guideChip <;>
      simp [CCD.modifyChip, CCD.allCapabilities, hf, CCD.capabilities, hg]

theorem emit_allCapabilities (ccd : CCD) (sig : Signal) :
    (ccd.emit sig).allCapabilities = ccd.allCapabilities := rfl

theorem loadImageInView_allCapabilities (ext : Collaborators) (ccd : CCD) (bp : IBLOB)
    (which : ChipType) (targetChip : CCDChip) (data : FITSData) :
    (ccd.loadImageInView ext bp which targetChip data).allCapabilities =
      ccd.allCapabilities := by
  unfold CCD.loadImageInView
  split
  · split <;> rfl
  · rfl

theorem handleImage_allCapabilities (ext : Collaborators) (opts : Options) (ccd : CCD)
    (which : ChipType) (targetChip : CCDChip) (bp : IBLOB) (data : FITSData) :
    (ccd.handleImage ext opts which targetChip bp data).allCapabilities =
      ccd.allCapabilities := by
  unfold CCD.handleImage
  simp only
  split
  · split
    · split
      · split <;> rfl
      · simp only [emit_allCapabilities]
        rw [modifyChip_allCapabilities _ _ _ (fun c => setImageView_capabilities c _ _)]
        split <;> split <;> rfl
    · split <;> rfl
  · rw [loadImageInView_allCapabilities]
    split <;> rfl

theorem writeImageFile_allCapabilities (ext : Collaborators) (ccd : CCD) (filename : String)
    (bp : IBLOB) (is_fits : Bool) :
    (ccd.writeImageFile ext filename bp is_fits).2.allCapabilities = ccd.allCapabilities := by
  unfold CCD.writeImageFile
  split
  · rfl
  · split <;> rfl

theorem materializeBLOB_allCapabilities (ext : Collaborators) (opts : Options) (ccd : CCD)
    (targetChip : CCDChip) (format : String) (bp : IBLOB) (is_fits : Bool) (filename : String)
    (ccd' : CCD) (h : ccd.materializeBLOB ext opts targetChip format bp is_fits =
      some (filename, ccd')) : ccd'.allCapabilities = ccd.allCapabilities := by
  unfold CCD.materializeBLOB at h
  split at h
  · simp only at h
    split at h
    · simp at h
    · split at h
      · simp at h
      · simp only [Option.some.injEq, Prod.mk.injEq] at h
        rw [← h.2, writeImageFile_allCapabilities]
  · simp only [Option.some.injEq, Prod.mk.injEq] at h
    rw [← h.2]

theorem announceBLOB_allCapabilities (ext : Collaborators) (ccd : CCD) (targetChip : CCDChip)
    (filename : String) :
    (ccd.announceBLOB ext targetChip filename).allCapabilities = ccd.allCapabilities := by
  unfold CCD.announceBLOB
  simp only
  split <;> split <;> rfl

theorem displayBLOB_allCapabilities (ext : Collaborators) (opts : Options) (ccd : CCD)
    (which : ChipType) (targetChip : CCDChip) (bp : IBLOB) (shortFormat filename : String) :
    (ccd.displayBLOB ext opts which targetChip bp shortFormat filename).allCapabilities =
      ccd.allCapabilities := by
  unfold CCD.displayBLOB
  split
  · rfl
  · split
    · rfl
    · exact handleImage_allCapabilities _ _ _ _ _ _ _

theorem processStream_allCapabilities (ccd ccd' : CCD) (bp : IBLOB)
    (h : ccd.processStream bp = some ccd') : ccd'.allCapabilities = ccd.allCapabilities := by
  unfold CCD.processStream at h
  split at h
  · simp only [Option.some.injEq] at h
    subst h
    rfl
  · split at h
    · simp only [Option.some.injEq] at h
      subst h
      rfl
    · simp only at h
      split at h
      · simp at h
      · simp only [Option.some.injEq] at h
        subst h
        rfl

theorem processBLOB_allCapabilities (ext : Collaborators) (opts : Options) (ccd ccd' : CCD)
    (bp : IBLOB) (h : ccd.processBLOB ext opts bp = some ccd') :
    ccd'.allCapabilities = ccd.allCapabilities := by
  unfold CCD.processBLOB at h
  split at h
  · simp only [Option.some.injEq] at h
    rw [← h]
  · simp only [] at h
    split at h
    · exact (processStream_allCapabilities _ _ _ h).trans rfl
    · rw [blobTypeInOrder_eq] at h
      generalize blobTypeInOrder ext.supportedImageFormats (toLower bp.format) = BT at h
      split at h
      · simp only [Option.some.injEq] at h
        rw [← h]
        rfl
      · split at h
        · simp at h
        · split at h
          · simp only [Option.some.injEq] at h
            rw [← h]
            rfl
          · rename_i hmat
            simp only [Option.some.injEq] at h
            rw [← h, displayBLOB_allCapabilities, announceBLOB_allCapabilities,
              materializeBLOB_allCapabilities _ _ _ _ _ _ _ _ _ hmat]
            rfl

theorem flags_of_allCapabilities (a b : CCD) (h : b.allCapabilities = a.allCapabilities) :
    a.primaryChip.flagsKept b.primaryChip ∧ a.flagsKept b ∧ a.guideFlagsKept b := by
  simp only [CCD.allCapabilities, Prod.mk.injEq] at h
  exact flags_of_capabilities a b h.1 h.2.1 (flagsKept_of_capabilities a b h.2.2)

theorem deliver_flags (ext : Collaborators) (opts : Options) (ccd ccd' : CCD) (e : DeviceEvent)
    (h : ccd.deliver ext opts e = some ccd') :
    ccd.primaryChip.flagsKept ccd'.primaryChip ∧ ccd.flagsKept ccd' ∧
    ((∀ prop, e = DeviceEvent.registerProperty prop → prop.getName ≠ "GUIDER_EXPOSURE") →
      ccd.guideFlagsKept ccd') := by
  cases e with
  | registerProperty prop =>
    obtain ⟨h1, h2, h3⟩ := registerProperty_flags ext ccd ccd' prop h
    exact ⟨h1, h2, fun hne => h3 (hne prop rfl)⟩
  | processNumber nvp =>
    obtain ⟨h1, h2, h3⟩ := processNumber_flags ccd ccd' nvp h
    obtain ⟨k1, k2, k3⟩ := flags_of_capabilities ccd ccd' (by rw [h1]) (by rw [h2]) h3
    exact ⟨k1, k2, fun _ => k3⟩
  | processSwitch svp =>
    obtain ⟨h1, h2, h3⟩ := processSwitch_flags ccd ccd' svp h
    obtain ⟨k1, k2, k3⟩ := flags_of_capabilities ccd ccd' (by rw [h1]) (by rw [h2]) h3
    exact ⟨k1, k2, fun _ => k3⟩
  | processText tvp =>
    simp only [CCD.deliver, Option.some.injEq] at h
    subst h
    obtain ⟨h1, h2, h3⟩ := processText_flags ccd tvp
    obtain ⟨k1, k2, k3⟩ := flags_of_capabilities ccd _ (by rw [h1]) (by rw [h2]) h3
    exact ⟨k1, k2, fun _ => k3⟩
  | processBLOB bp =>
    obtain ⟨k1, k2, k3⟩ := flags_of_allCapabilities ccd ccd'
      (processBLOB_allCapabilities ext opts ccd ccd' bp h)
    exact ⟨k1, k2, fun _ => k3⟩

theorem guideFlagsKept_refl (ccd : CCD) : ccd.guideFlagsKept ccd :=
  fun g hg => ⟨g, hg, chipFlagsKept_refl g⟩

/-- C23, as stated, fails for the guide chip: after `GUIDER_EXPOSURE` and a writable
`GUIDER_FRAME` have been defined the guide chip can subframe; when the driver defines
`GUIDER_EXPOSURE` once more the guide chip is replaced and the flag is false again. -/
theorem guide_flags_reset_counterexample :
    ((bareCamera.deliverAll sampleCollaborators {}
        [DeviceEvent.registerProperty (guiderNumber "GUIDER_EXPOSURE"),
         DeviceEvent.registerProperty (guiderNumber "GUIDER_FRAME")]).bind
      (fun c => c.guideChip)).map (fun g => g.CanSubframe) = some true ∧
    ((bareCamera.deliverAll sampleCollaborators {}
        [DeviceEvent.registerProperty (guiderNumber "GUIDER_EXPOSURE"),
         DeviceEvent.registerProperty (guiderNumber "GUIDER_FRAME"),
         DeviceEvent.registerProperty (guiderNumber "GUIDER_EXPOSURE")]).bind
      (fun c => c.guideChip)).map (fun g => g.CanSubframe) = some false := by
  decide!

/-- C23, amended. Over every sequence of property defined and property changed events that
the device handles, a capability flag of the primary chip (`CanBin`, `CanSubframe`,
`CanAbort`) or of the device (`HasCooler`, `HasCoolerControl`, `HasVideoStream`,
`HasGuideHead`) that is true at the start is true at the end.  The same holds for the flags
of the guide chip as long as `GUIDER_EXPOSURE` is not defined again; a definition of
`GUIDER_EXPOSURE` puts a fresh guide chip, all three flags false, in the place of the one
there was. -/
theorem capability_flags_kept (ext : Collaborators) (opts : Options)
    (events : List DeviceEvent) (ccd ccd' : CCD)
    (hrun : ccd.deliverAll ext opts events = some ccd') :
    ccd.primaryChip.flagsKept ccd'.primaryChip ∧ ccd.flagsKept ccd' ∧
    ((∀ prop, DeviceEvent.registerProperty prop ∈ events →
        prop.getName ≠ "GUIDER_EXPOSURE") → ccd.guideFlagsKept ccd') ∧
    (∀ (c : CCD) (prop : Property), prop.getName = "GUIDER_EXPOSURE" →
      (CCD.registerProperty ext c prop).map (fun c' => c'.guideChip.map CCDChip.capabilities) =
        some (some (false, false, false))) := by
  have hlast : ∀ (c : CCD) (prop : Property), prop.getName = "GUIDER_EXPOSURE" →
      (CCD.registerProperty ext c prop).map (fun c' => c'.guideChip.map CCDChip.capabilities) =
        some (some (false, false, false)) := by
    intro c prop hname
    simp [CCD.registerProperty, hname, CCDChip.capabilities]
  induction events generalizing ccd with
  | nil =>
    simp only [CCD.deliverAll, Option.some.injEq] at hrun
    subst hrun
    exact ⟨chipFlagsKept_refl _, ⟨id, id, id, id⟩, fun _ => guideFlagsKept_refl _, hlast⟩
  | cons e es ih =>
    simp only [CCD.deliverAll] at hrun
    cases hstep : ccd.deliver ext opts e with
    | none => simp [hstep] at hrun
    | some ccd1 =>
      rw [hstep] at hrun
      obtain ⟨a1, a2, a3⟩ := deliver_flags ext opts ccd ccd1 e hstep
      obtain ⟨b1, b2, b3, _⟩ := ih ccd1 hrun
      refine ⟨chipFlagsKept_trans _ _ _ a1 b1, deviceFlagsKept_trans _ _ _ a2 b2, ?_, hlast⟩
      intro hne
      exact guideFlagsKept_trans _ _ _
        (a3 (fun prop hp => hne prop (by rw [hp]; exact List.mem_cons_self _ _)))
        (b3 (fun prop hp => hne prop (List.mem_cons_of_mem _ hp)))

/-- C23, amended, on the camera with a guide head: after a writable `GUIDER_BINNING`, a
writable `CCD_FRAME`, a cooler update and a frame the guide chip can bin and the primary
chip can subframe, and every flag that was true still is. -/
theorem capability_flags_kept_witness :
    ∃ ccd', guideHeadCamera.deliverAll sampleCollaborators {}
        [DeviceEvent.registerProperty (guiderNumber "GUIDER_BINNING"),
         DeviceEvent.registerProperty (guiderNumber "CCD_FRAME"),
         DeviceEvent.processSwitch { name := "CCD_COOLER", sp := [ { name := "COOLER_ON" } ] },
         DeviceEvent.processBLOB fitsFrame] = some ccd' ∧
      guideHeadCamera.primaryChip.flagsKept ccd'.primaryChip ∧
      guideHeadCamera.flagsKept ccd' ∧ guideHeadCamera.guideFlagsKept ccd' ∧
      ccd'.HasGuideHead = true := by
  have hsome : (guideHeadCamera.deliverAll sampleCollaborators {}
        [DeviceEvent.registerProperty (guiderNumber "GUIDER_BINNING"),
         DeviceEvent.registerProperty (guiderNumber "CCD_FRAME"),
         DeviceEvent.processSwitch { name := "CCD_COOLER", sp := [ { name := "COOLER_ON" } ] },
         DeviceEvent.processBLOB fitsFrame]).isSome = true := by
    decide!
  obtain ⟨c, hc⟩ := Option.isSome_iff_exists.mp hsome
  obtain ⟨h1, h2, h3, _⟩ := capability_flags_kept sampleCollaborators {} _ guideHeadCamera c hc
  refine ⟨c, hc, h1, h2, h3 ?_, h2.2.2.2 rfl⟩
  intro prop hp
  simp only [List.mem_cons, DeviceEvent.registerProperty.injEq, reduceCtorEq,
    List.not_mem_nil, or_false] at hp
  rcases hp with rfl | rfl <;> decide

theorem foldl_registerPresetSwitch_bindings (ext : Collaborators) (l : List ISwitch)
    (ccd : CCD) : (l.foldl (registerPresetSwitch ext) ccd).bindings = ccd.bindings := by
  induction l generalizing ccd with
  | nil => rfl
  | cons sw sws ih =>
    simp only [List.foldl_cons]
    exact ih (registerPresetSwitch ext ccd sw)

/-- What `registerProperty` does to the gain and offset bindings: nothing, or, while one of
the two is unbound and the property is a number vector, the scan of that vector. -/
theorem registerProperty_bindings (ext : Collaborators) (ccd0 ccd' : CCD) (prop : Property)
    (h : CCD.registerProperty ext ccd0 prop = some ccd') :
    ccd'.bindings = ccd0.bindings ∨
    ∃ controlNP ccd1, prop.getNumber = some controlNP ∧
      (ccd0.gainN = none ∨ ccd0.offsetN = none) ∧ ccd1.bindings = ccd0.bindings ∧
      ccd'.bindings =
        (controlNP.np.enum.foldl (registerGainOffsetField controlNP) ccd1).bindings := by
  unfold CCD.registerProperty at h
  generalize hccd : (if ccd0.baseDevice.connected then { ccd0 with readyTimerStarted := true }
    else ccd0) = ccd at h
  have hc0 : ccd.bindings = ccd0.bindings := by
    rw [← hccd]
    split <;> rfl
  have hc1 : ccd.gainN = ccd0.gainN ∧ ccd.offsetN = ccd0.offsetN := by
    simp only [CCD.bindings, Prod.mk.injEq] at hc0
    exact ⟨hc0.1, hc0.2.2.1⟩
  clear hccd
  rw [← hc0, ← hc1.1, ← hc1.2]
  clear hc0 hc1
  simp only [] at h
  by_cases n0 : prop.getName = "GUIDER_EXPOSURE" <;> [rw [if_pos n0] at h; rw [if_neg n0] at h]
  rotate_left
  by_cases n1 : prop.getName = "CCD_FRAME_TYPE" <;> [rw [if_pos n1] at h; rw [if_neg n1] at h]
  rotate_left
  by_cases n2 : prop.getName = "CCD_FRAME" <;> [rw [if_pos n2] at h; rw [if_neg n2] at h]
  rotate_left
  by_cases n3 : prop.getName = "GUIDER_FRAME" <;> [rw [if_pos n3] at h; rw [if_neg n3] at h]
  rotate_left
  by_cases n4 : prop.getName = "CCD_BINNING" <;> [rw [if_pos n4] at h; rw [if_neg n4] at h]
  rotate_left
  by_cases n5 : prop.getName = "GUIDER_BINNING" <;> [rw [if_pos n5] at h; rw [if_neg n5] at h]
  rotate_left
  by_cases n6 : prop.getName = "CCD_ABORT_EXPOSURE" <;>
    [rw [if_pos n6] at h; rw [if_neg n6] at h]
  rotate_left
  by_cases n7 : prop.getName = "GUIDER_ABORT_EXPOSURE" <;>
    [rw [if_pos n7] at h; rw [if_neg n7] at h]
  rotate_left
  by_cases n8 : prop.getName = "CCD_TEMPERATURE" <;> [rw [if_pos n8] at h; rw [if_neg n8] at h]
  rotate_left
  by_cases n9 : prop.getName = "CCD_COOLER" <;> [rw [if_pos n9] at h; rw [if_neg n9] at h]
  rotate_left
  by_cases n10 : prop.getName = "CCD_VIDEO_STREAM" <;>
    [rw [if_pos n10] at h; rw [if_neg n10] at h]
  rotate_left
  by_cases n11 : prop.getName = "CCD_TRANSFER_FORMAT" <;>
    [rw [if_pos n11] at h; rw [if_neg n11] at h]
  rotate_left
  by_cases n12 : prop.getName = "CCD_EXPOSURE_PRESETS" <;>
    [rw [if_pos n12] at h; rw [if_neg n12] at h]
  rotate_left
  by_cases n13 : prop.getName = "CCD_EXPOSURE_LOOP" <;>
    [rw [if_pos n13] at h; rw [if_neg n13] at h]
  rotate_left
  by_cases n14 : prop.getName = "TELESCOPE_TYPE" <;>
    [rw [if_pos n14] at h; rw [if_neg n14] at h]
  rotate_left
  by_cases n15 : prop.getName = "CCD_WEBSOCKET_SETTINGS" <;>
    [rw [if_pos n15] at h; rw [if_neg n15] at h]
  rotate_left
  by_cases n16 : prop.getName = "CCD1" <;> [rw [if_pos n16] at h; rw [if_neg n16] at h]
  rotate_left
  · split at h
    · rename_i hscan
      split at h
      · rename_i controlNP hnum
        simp only [Option.some.injEq] at h
        subst h
        exact Or.inr ⟨controlNP, ccd, hnum, hscan.1, rfl, rfl⟩
      · simp only [Option.some.injEq] at h
        subst h
        exact Or.inl rfl
    · simp only [Option.some.injEq] at h
      subst h
      exact Or.inl rfl
  all_goals repeat' split at h
  all_goals try (simp at h; done)
  all_goals
    simp only [Option.some.injEq] at h
    subst h
    left
  all_goals first
    | rfl
    | exact foldl_registerPresetSwitch_bindings _ _ _

theorem foldl_registerGainOffsetField_gain (controlNP : INumberVectorProperty)
    (l : List (Nat × INumber)) (ccd : CCD)
    (hno : ∀ f ∈ l, toLower f.2.name ≠ "gain" ∧ toLower f.2.label ≠ "gain") :
    (l.foldl (registerGainOffsetField controlNP) ccd).gainN = ccd.gainN ∧
    (l.foldl (registerGainOffsetField controlNP) ccd).gainPerm = ccd.gainPerm := by
  induction l generalizing ccd with
  | nil => exact ⟨rfl, rfl⟩
  | cons f fs ih =>
    simp only [List.foldl_cons]
    obtain ⟨h1, h2⟩ := ih (registerGainOffsetField controlNP ccd f)
      (fun g hg => hno g (List.mem_cons_of_mem _ hg))
    have hf := hno f (List.mem_cons_self _ _)
    have hstep : (registerGainOffsetField controlNP ccd f).gainN = ccd.gainN ∧
        (registerGainOffsetField controlNP ccd f).gainPerm = ccd.gainPerm := by
      unfold registerGainOffsetField
      simp only [hf.1, hf.2, or_self, if_false]
      split <;> exact ⟨rfl, rfl⟩
    exact ⟨h1.trans hstep.1, h2.trans hstep.2⟩

theorem foldl_registerGainOffsetField_offset (controlNP : INumberVectorProperty)
    (l : List (Nat × INumber)) (ccd : CCD)
    (hno : ∀ f ∈ l, toLower f.2.name ≠ "offset" ∧ toLower f.2.label ≠ "offset") :
    (l.foldl (registerGainOffsetField controlNP) ccd).offsetN = ccd.offsetN ∧
    (l.foldl (registerGainOffsetField controlNP) ccd).offsetPerm = ccd.offsetPerm := by
  induction l generalizing ccd with
  | nil => exact ⟨rfl, rfl⟩
  | cons f fs ih =>
    simp only [List.foldl_cons]
    obtain ⟨h1, h2⟩ := ih (registerGainOffsetField controlNP ccd f)
      (fun g hg => hno g (List.mem_cons_of_mem _ hg))
    have hf := hno f (List.mem_cons_self _ _)
    have hstep : (registerGainOffsetField controlNP ccd f).offsetN = ccd.offsetN ∧
        (registerGainOffsetField controlNP ccd f).offsetPerm = ccd.offsetPerm := by
      unfold registerGainOffsetField
      simp only [hf.1, hf.2, or_self, if_false]
      split <;> exact ⟨rfl, rfl⟩
    exact ⟨h1.trans hstep.1, h2.trans hstep.2⟩

/-- C24 fails in the code while the offset is unbound.  After the vector `CCD_GAIN` has
bound the gain to its field 0 with read-write permission, the definition of the read-only
vector `CCD_STATUS`, whose field 1 is labelled `Gain`, binds the gain to that field and
stores the read-only permission: the first match does not win. -/
theorem registerProperty_gain_rebound :
    (bareCamera.deliverAll sampleCollaborators {}
        [DeviceEvent.registerProperty gainVector]).map (fun c => c.bindings) =
      some (some { vector := "CCD_GAIN", index := 0 }, IPerm.IP_RW, none, IPerm.IP_RO) ∧
    (bareCamera.deliverAll sampleCollaborators {}
        [DeviceEvent.registerProperty gainVector,
         DeviceEvent.registerProperty statusVector]).map (fun c => c.bindings) =
      some (some { vector := "CCD_STATUS", index := 1 }, IPerm.IP_RO, none, IPerm.IP_RO) := by
  decide!

/-- What does hold of the bindings.  Once the gain field and the offset field are both
bound, no sequence of later property definitions changes the field or the permission of
either binding.  At any time, the definition of a vector without a field named or labelled
`gain` leaves the gain binding as it was, and likewise for `offset`. -/
theorem gain_offset_bindings_kept (ext : Collaborators) (opts : Options)
    (props : List Property) (ccd ccd' : CCD)
    (hgain : ccd.gainN ≠ none) (hoffset : ccd.offsetN ≠ none)
    (hrun : ccd.deliverAll ext opts (props.map DeviceEvent.registerProperty) = some ccd') :
    ccd'.bindings = ccd.bindings ∧
    (∀ (c c' : CCD) (prop : Property), CCD.registerProperty ext c prop = some c' →
      ((∀ nvp, prop.getNumber = some nvp →
          ∀ f ∈ nvp.np, toLower f.name ≠ "gain" ∧ toLower f.label ≠ "gain") →
        c'.gainN = c.gainN ∧ c'.gainPerm = c.gainPerm) ∧
      ((∀ nvp, prop.getNumber = some nvp →
          ∀ f ∈ nvp.np, toLower f.name ≠ "offset" ∧ toLower f.label ≠ "offset") →
        c'.offsetN = c.offsetN ∧ c'.offsetPerm = c.offsetPerm)) := by
  constructor
  · induction props generalizing ccd with
    | nil =>
      simp only [List.map_nil, CCD.deliverAll, Option.some.injEq] at hrun
      rw [← hrun]
    | cons p ps ih =>
      simp only [List.map_cons, CCD.deliverAll, CCD.deliver] at hrun
      cases hstep : CCD.registerProperty ext ccd p with
      | none => simp [hstep] at hrun
      | some ccd1 =>
        rw [hstep] at hrun
        have hb : ccd1.bindings = ccd.bindings := by
          rcases registerProperty_bindings ext ccd ccd1 p hstep with hb | ⟨_, _, _, hun, _, _⟩
          · exact hb
          · rcases hun with hun | hun
            · exact absurd hun hgain
            · exact absurd hun hoffset
        have hb' := hb
        simp only [CCD.bindings, Prod.mk.injEq] at hb'
        have := ih ccd1 (by rw [hb'.1]; exact hgain) (by rw [hb'.2.2.1]; exact hoffset) hrun
        exact this.trans hb
  · intro c c' prop hstep
    rcases registerProperty_bindings ext c c' prop hstep with
      hb | ⟨controlNP, c1, hnum, _, hc1, hb⟩
    · simp only [CCD.bindings, Prod.mk.injEq] at hb
      exact ⟨fun _ => ⟨hb.1, hb.2.1⟩, fun _ => ⟨hb.2.2.1, hb.2.2.2⟩⟩
    · simp only [CCD.bindings, Prod.mk.injEq] at hb hc1
      constructor
      · intro hno
        have hk := foldl_registerGainOffsetField_gain controlNP controlNP.np.enum c1
          (fun f hf => hno controlNP hnum f.2 (List.snd_mem_of_mem_enum hf))
        exact ⟨hb.1.trans (hk.1.trans hc1.1), hb.2.1.trans (hk.2.trans hc1.2.1)⟩
      · intro hno
        have hk := foldl_registerGainOffsetField_offset controlNP controlNP.np.enum c1
          (fun f hf => hno controlNP hnum f.2 (List.snd_mem_of_mem_enum hf))
        exact ⟨hb.2.2.1.trans (hk.1.trans hc1.2.2.1), hb.2.2.2.trans (hk.2.trans hc1.2.2.2)⟩

theorem registerProperty_guider_number_absent (ext : Collaborators) (ccd : CCD)
    (nvp : INumberVectorProperty) (hchip : ccd.guideChip = none)
    (hname : nvp.name = "GUIDER_FRAME" ∨ nvp.name = "GUIDER_BINNING")
    (hperm : nvp.p ≠ IPerm.IP_RO) :
    CCD.registerProperty ext ccd (Property.number nvp) = none := by
  have hg : (if ccd.baseDevice.connected then { ccd with readyTimerStarted := true }
      else ccd).guideChip = none := by
    split
    · exact hchip
    · exact hchip
  unfold CCD.registerProperty
  generalize (if ccd.baseDevice.connected then { ccd with readyTimerStarted := true }
    else ccd) = ccd1 at hg ⊢
  simp only []
  rcases hname with hname | hname
  · have e : (Property.number nvp).getName = "GUIDER_FRAME" := hname
    rw [if_neg (by rw [e]; decide), if_neg (by rw [e]; decide), if_neg (by rw [e]; decide),
      if_pos e]
    simp [Property.getNumber, hperm, hg]
  · have e : (Property.number nvp).getName = "GUIDER_BINNING" := hname
    rw [if_neg (by rw [e]; decide), if_neg (by rw [e]; decide), if_neg (by rw [e]; decide),
      if_neg (by rw [e]; decide), if_neg (by rw [e]; decide), if_pos e]
    simp [Property.getNumber, hperm, hg]

/-- C25 fails in the code: only `GUIDER_EXPOSURE` creates the guide chip.  On a device where
nothing has been defined yet, the definition of a writable `GUIDER_FRAME`, `GUIDER_BINNING`
or `GUIDER_ABORT_EXPOSURE` sets a flag through the absent guide chip (`none` in the model);
after `GUIDER_EXPOSURE` the same definitions are handled. -/
theorem registerProperty_guide_chip_absent :
    CCD.registerProperty sampleCollaborators bareCamera (guiderNumber "GUIDER_FRAME") = none ∧
    CCD.registerProperty sampleCollaborators bareCamera (guiderNumber "GUIDER_BINNING") = none ∧
    CCD.registerProperty sampleCollaborators bareCamera
      (Property.switch { name := "GUIDER_ABORT_EXPOSURE", p := IPerm.IP_RW, sp := [] }) = none ∧
    (bareCamera.deliverAll sampleCollaborators {}
      [DeviceEvent.registerProperty (guiderNumber "GUIDER_FRAME"),
       DeviceEvent.registerProperty (guiderNumber "GUIDER_EXPOSURE")]) = none ∧
    ((bareCamera.deliverAll sampleCollaborators {}
      [DeviceEvent.registerProperty (guiderNumber "GUIDER_EXPOSURE"),
       DeviceEvent.registerProperty (guiderNumber "GUIDER_FRAME"),
       DeviceEvent.registerProperty (guiderNumber "GUIDER_BINNING"),
       DeviceEvent.registerProperty
         (Property.switch { name := "GUIDER_ABORT_EXPOSURE", p := IPerm.IP_RW, sp := [] })]).bind
      (fun c => c.guideChip)).map CCDChip.capabilities = some (true, true, true) := by
  decide!

theorem processNumber_rapid_guide (ccd : CCD) (nvp : INumberVectorProperty)
    (hname : nvp.name = "CCD_RAPID_GUIDE_DATA" ∨ nvp.name = "GUIDER_RAPID_GUIDE_DATA") :
    ccd.processNumber nvp =
      some { ccd.processRapidGuideData
          (if nvp.name = "CCD_RAPID_GUIDE_DATA" then some ChipType.PRIMARY_CCD
           else ccd.guideChipPtr) nvp with
        delegated := ccd.delegated ++ [Delegated.processNumber nvp.name] } := by
  have hdel : ∀ chip, (ccd.processRapidGuideData chip nvp).delegated = ccd.delegated := by
    intro chip
    unfold CCD.processRapidGuideData
    split
    · rfl
    · simp only
      split <;> rfl
  rcases hname with hname | hname
  · simp [CCD.processNumber, hname, hdel]
  · simp [CCD.processNumber, hname, hdel]

/-- C26. An update of `CCD_RAPID_GUIDE_DATA` (chip: the primary chip) or of
`GUIDER_RAPID_GUIDE_DATA` (chip: the guide chip pointer) is handled, and the signals it adds
are: in the alert state exactly one guide star signal `(chip, -1, -1, -1)`; otherwise one
guide star signal `(chip, x, y, fit)` when `GUIDESTAR_X`, `GUIDESTAR_Y` and `GUIDESTAR_FIT`
are all present with values `x ≥ 0`, `y ≥ 0`, `fit ≥ 0`, and no signal in every other case. -/
theorem processNumber_guide_star (ccd : CCD) (nvp : INumberVectorProperty)
    (hname : nvp.name = "CCD_RAPID_GUIDE_DATA" ∨ nvp.name = "GUIDER_RAPID_GUIDE_DATA") :
    ∃ ccd', ccd.processNumber nvp = some ccd' ∧
      ccd'.emitted = ccd.emitted ++
        (if nvp.s = IPState.IPS_ALERT then
          [Signal.newGuideStarData
            (if nvp.name = "CCD_RAPID_GUIDE_DATA" then some ChipType.PRIMARY_CCD
             else ccd.guideChipPtr) (-1) (-1) (-1)]
         else
          match IUFindNumber nvp "GUIDESTAR_X", IUFindNumber nvp "GUIDESTAR_Y",
                IUFindNumber nvp "GUIDESTAR_FIT" with
          | some x, some y, some fit =>
            if 0 ≤ x.value ∧ 0 ≤ y.value ∧ 0 ≤ fit.value then
              [Signal.newGuideStarData
                (if nvp.name = "CCD_RAPID_GUIDE_DATA" then some ChipType.PRIMARY_CCD
                 else ccd.guideChipPtr) x.value y.value fit.value]
            else []
          | _, _, _ => []) := by
  refine ⟨_, processNumber_rapid_guide ccd nvp hname, ?_⟩
  simp only
  generalize (if nvp.name = "CCD_RAPID_GUIDE_DATA" then some ChipType.PRIMARY_CCD
    else ccd.guideChipPtr) = chip
  unfold CCD.processRapidGuideData
  by_cases halert : nvp.s = IPState.IPS_ALERT
  · simp [halert, CCD.emit]
  · simp only [halert, if_false]
    cases hx : IUFindNumber nvp "GUIDESTAR_X" with
    | none => norm_num
    | some x =>
      cases hy : IUFindNumber nvp "GUIDESTAR_Y" with
      | none => norm_num
      | some y =>
        cases hf : IUFindNumber nvp "GUIDESTAR_FIT" with
        | none => norm_num
        | some fit =>
          simp only [ge_iff_le]
          split <;> simp [CCD.emit]

/-- C26 on the sample camera: a star at `(12, 7)` with fit `3/2` yields the one signal
`(primary chip, 12, 7, 3/2)`. -/
theorem processNumber_guide_star_witness :
    ∃ ccd', sampleCamera.processNumber (guideStar 12 7 (3 / 2)) = some ccd' ∧
      ccd'.emitted =
        [Signal.newGuideStarData (some ChipType.PRIMARY_CCD) 12 7 (3 / 2)] := by
  obtain ⟨c, hc, he⟩ := processNumber_guide_star sampleCamera (guideStar 12 7 (3 / 2))
    (Or.inl rfl)
  refine ⟨c, hc, he.trans ?_⟩
  decide!

/-- C27. `capture` sends a copy and leaves the property store alone.  Whatever the exposure,
the options and the presets: with the exposure vector absent the call answers `false` and the
state is as it was; with the vector present and holding a first field the call answers `true`
and the state afterwards is the old one with one vector more in the outbox, so every vector
of the store keeps its fields, values and state.  The vector sent has one field, named like
the first field of the live vector, and the device, name and label of the live vector. -/
theorem capture_sends_copy (opts : Options) (ccd : CCD) (type : ChipType) (exposure : ℚ) :
    (ccd.chipNumber type "CCD_EXPOSURE" "GUIDER_EXPOSURE" = none →
      CCDChip.capture opts ccd type exposure = some (false, ccd)) ∧
    (∀ expProp first, ccd.chipNumber type "CCD_EXPOSURE" "GUIDER_EXPOSURE" = some expProp →
      expProp.np[0]? = some first →
      ∃ v : INumberVectorProperty,
        CCDChip.capture opts ccd type exposure =
          some (true, { ccd with sent := ccd.sent ++ [Sent.number v] }) ∧
        v.np.map (fun n => n.name) = [first.name] ∧
        v.device = expProp.device ∧ v.name = expProp.name ∧ v.label = expProp.label) ∧
    (∀ r, CCDChip.capture opts ccd type exposure = some r →
      r.2.baseDevice = ccd.baseDevice ∧ r.2 = { ccd with sent := r.2.sent }) := by
  refine ⟨?_, ?_, ?_⟩
  · intro h
    simp [CCDChip.capture, h]
  · intro expProp first h hf
    refine ⟨{ device := expProp.device, name := expProp.name, label := expProp.label,
              p := IPerm.IP_RO, s := IPState.IPS_IDLE,
              np := [ { name := first.name, value := presetExposure opts ccd exposure } ] },
      ?_, rfl, rfl, rfl, rfl⟩
    simp [CCDChip.capture, h, hf, CCD.sendNewNumber]
  · intro r h
    unfold CCDChip.capture at h
    split at h
    · simp only [Option.some.injEq] at h
      subst h
      exact ⟨rfl, rfl⟩
    · split at h
      · simp at h
      · simp only [Option.some.injEq] at h
        subst h
        exact ⟨rfl, rfl⟩

/-- C27 on the sample camera: `capture (2.5)` sends the one field `CCD_EXPOSURE_VALUE` under
the name `CCD_EXPOSURE` and the store is the one of before. -/
theorem capture_sends_copy_witness :
    ∃ v : INumberVectorProperty,
      CCDChip.capture {} sampleCamera ChipType.PRIMARY_CCD (5 / 2) =
        some (true, { sampleCamera with sent := sampleCamera.sent ++ [Sent.number v] }) ∧
      v.np.map (fun n => n.name) = ["CCD_EXPOSURE_VALUE"] ∧
      v.device = "" ∧ v.name = "CCD_EXPOSURE" ∧ v.label = "" :=
  (capture_sends_copy {} sampleCamera ChipType.PRIMARY_CCD (5 / 2)).2.1
    { name := "CCD_EXPOSURE"
      np := [ { name := "CCD_EXPOSURE_VALUE", value := 1, min := 0, max := 3600 } ] }
    { name := "CCD_EXPOSURE_VALUE", value := 1, min := 0, max := 3600 } (by rfl) (by rfl)

theorem threadSteps_idle (w : FileWriter) (k : Nat) (h : w.fileWriteThread = none) :
    w.threadSteps k = some w := by
  induction k with
  | zero => rfl
  | succ k ih => simp [FileWriter.threadSteps, FileWriter.threadStep, h, ih]

/-- The background thread alone: while a call runs on a buffer it fits in, having copied the
first bytes of the buffer, `k` steps copy the next `k` bytes, and with the steps left over
the call returns, leaving the first `size` bytes of the buffer in the file. -/
theorem threadSteps_running (k : Nat) (w : FileWriter) (t : WriteTask)
    (ht : w.fileWriteThread = some t) (hsize : t.size ≤ w.fileWriteBuffer.length)
    (hle : t.written.length ≤ t.size)
    (hw : t.written = w.fileWriteBuffer.take t.written.length) :
    w.threadSteps k =
      some (if k ≤ t.size - t.written.length then
        { w with
          fileWriteThread :=
            some { t with written := w.fileWriteBuffer.take (t.written.length + k) } }
        else w.finish t) := by
  induction k generalizing w t with
  | zero =>
    simp only [FileWriter.threadSteps, Nat.zero_le, if_true, Nat.add_zero, ← hw]
    rw [← ht]
  | succ k ih =>
    simp only [FileWriter.threadSteps, FileWriter.threadStep, ht]
    by_cases hlt : t.written.length < t.size
    · have hidx : t.written.length < w.fileWriteBuffer.length := by omega
      simp only [hlt, if_true, List.getElem?_eq_getElem hidx]
      have hw1 : t.written ++ [w.fileWriteBuffer[t.written.length]] =
          w.fileWriteBuffer.take (t.written.length + 1) := by
        rw [List.take_succ, List.getElem?_eq_getElem hidx, ← hw]
        rfl
      have := ih { w with fileWriteThread := some { t with written := t.written ++
          [w.fileWriteBuffer[t.written.length]] } }
        { t with written := t.written ++ [w.fileWriteBuffer[t.written.length]] } rfl hsize
        (by simp; omega) (by simp [hw1])
      rw [this]
      simp only [List.length_append, List.length_singleton]
      have e1 : (k ≤ t.size - (t.written.length + 1)) ↔ (k + 1 ≤ t.size - t.written.length) := by
        omega
      by_cases hk : k ≤ t.size - (t.written.length + 1)
      · rw [if_pos hk, if_pos (e1.mp hk)]
        have : t.written.length + 1 + k = t.written.length + (k + 1) := by omega
        rw [this]
      · rw [if_neg hk, if_neg (fun h => hk (e1.mpr h))]
        rfl
    · have heq : t.written.length = t.size := by omega
      simp only [hlt, if_false]
      rw [threadSteps_idle _ _ rfl]
      have : ¬ (k + 1 ≤ t.size - t.written.length) := by omega
      rw [if_neg this]
      simp only [FileWriter.finish]
      rw [← heq, ← hw]

theorem waitForFinished_running (w : FileWriter) (t : WriteTask)
    (ht : w.fileWriteThread = some t) (hsize : t.size ≤ w.fileWriteBuffer.length)
    (hle : t.written.length ≤ t.size)
    (hw : t.written = w.fileWriteBuffer.take t.written.length) :
    w.waitForFinished = some (w.finish t) := by
  simp only [FileWriter.waitForFinished, ht]
  rw [threadSteps_running _ w t ht hsize hle hw, if_neg (by omega)]

theorem memcpy_whole (dst src : List Nat) (n : Nat) (hd : dst.length = n) :
    memcpy dst src n = src.take n := by
  simp [memcpy, List.drop_eq_nil_of_le (le_of_eq hd)]

theorem writeImageFile_idle (w : FileWriter) (filename : String) (bp : IBLOB)
    (hidle : w.fileWriteThread = none)
    (hbuf : w.fileWriteBuffer.length = w.fileWriteBufferSize) :
    w.writeImageFile filename bp =
      some (true,
        { fileWriteThread := some { filename := filename, size := bp.size
                                    add_fits_keywords := true, filter := w.filter }
          fileWriteBuffer := bp.blob.take bp.size
          fileWriteBufferSize := bp.size
          fileWriteFilename := filename
          filter := ""
          disk := w.disk }) := by
  simp only [FileWriter.writeImageFile, hidle, Option.isSome_none, Bool.false_eq_true, if_false]
  by_cases hs : w.fileWriteBufferSize = bp.size
  · simp [hs, memcpy_whole _ _ _ (hbuf.trans hs)]
  · simp [hs, memcpy_whole]

theorem writeImageFile_running (w : FileWriter) (t : WriteTask) (filename : String)
    (bp : IBLOB) (ht : w.fileWriteThread = some t)
    (hbuf : w.fileWriteBuffer.length = w.fileWriteBufferSize)
    (hsize : t.size ≤ w.fileWriteBuffer.length) (hle : t.written.length ≤ t.size)
    (hw : t.written = w.fileWriteBuffer.take t.written.length) :
    w.writeImageFile filename bp = (w.finish t).writeImageFile filename bp := by
  have hwait := waitForFinished_running w t ht hsize hle hw
  rw [writeImageFile_idle (w.finish t) filename bp rfl hbuf]
  simp only [FileWriter.writeImageFile, ht, Option.isSome_some, if_true, hwait]
  by_cases hs : w.fileWriteBufferSize = bp.size
  · simp [FileWriter.finish, hs, memcpy_whole _ _ _ (hbuf.trans hs)]
  · simp [FileWriter.finish, hs, memcpy_whole]

/-- C28. A FITS write is issued on an idle writer, the background thread makes any number
`k` of steps, and a second FITS write is issued.  Whatever `k` is, so whether the first
write is still pending or not, when the second call returns the first file is on the disk
with exactly the bytes of the first payload, and only the second write is in flight, with
the buffer holding the second payload.  When the device is destroyed the second file
follows with the bytes of the second payload: two files, in the order of the calls. -/
theorem writeImageFile_serialized (w : FileWriter) (f1 f2 : String) (bp1 bp2 : IBLOB)
    (k : Nat) (hidle : w.fileWriteThread = none)
    (hbuf : w.fileWriteBuffer.length = w.fileWriteBufferSize)
    (h1 : bp1.size ≤ bp1.blob.length) (h2 : bp2.size ≤ bp2.blob.length) :
    ∃ w1 w2 w3 w4,
      w.writeImageFile f1 bp1 = some (true, w1) ∧
      w1.threadSteps k = some w2 ∧
      w2.writeImageFile f2 bp2 = some (true, w3) ∧
      w3.disk = w.disk ++ [fitsFile f1 bp1 w.filter] ∧
      w3.fileWriteThread =
        some { filename := f2, size := bp2.size, add_fits_keywords := true, filter := "" } ∧
      w3.fileWriteBuffer = bp2.blob.take bp2.size ∧
      w3.destroy = some w4 ∧
      w4.disk = w.disk ++ [fitsFile f1 bp1 w.filter, fitsFile f2 bp2 ""] ∧
      w4.fileWriteThread = none := by
  have hlen1 : (bp1.blob.take bp1.size).length = bp1.size := by
    rw [List.length_take]; omega
  have hlen2 : (bp2.blob.take bp2.size).length = bp2.size := by
    rw [List.length_take]; omega
  -- the state the first call leaves
  let t1 : WriteTask :=
    { filename := f1, size := bp1.size, add_fits_keywords := true, filter := w.filter }
  let w1 : FileWriter :=
    { fileWriteThread := some t1, fileWriteBuffer := bp1.blob.take bp1.size
      fileWriteBufferSize := bp1.size, fileWriteFilename := f1, filter := "", disk := w.disk }
  have hcall1 : w.writeImageFile f1 bp1 = some (true, w1) :=
    writeImageFile_idle w f1 bp1 hidle hbuf
  have hsteps := threadSteps_running k w1 t1 rfl (le_of_eq hlen1.symm) (Nat.zero_le _) rfl
  -- the state the second call leaves
  let t2 : WriteTask :=
    { filename := f2, size := bp2.size, add_fits_keywords := true, filter := "" }
  let w3 : FileWriter :=
    { fileWriteThread := some t2, fileWriteBuffer := bp2.blob.take bp2.size
      fileWriteBufferSize := bp2.size, fileWriteFilename := f2, filter := ""
      disk := w.disk ++ [fitsFile f1 bp1 w.filter] }
  have hfin : (w1.finish t1).writeImageFile f2 bp2 = some (true, w3) := by
    rw [writeImageFile_idle (w1.finish t1) f2 bp2 rfl hlen1]
    simp [FileWriter.finish, w1, t1, w3, t2, fitsFile]
  have hdestroy : w3.destroy =
      some { (w3.finish t2) with fileWriteBuffer := [], fileWriteBufferSize := 0 } := by
    have hwait := waitForFinished_running w3 t2 rfl (le_of_eq hlen2.symm) (Nat.zero_le _) rfl
    simp only [FileWriter.destroy]
    simp only [w3, Option.isSome_some, if_true] at hwait ⊢
    rw [hwait]
  by_cases hk : k ≤ t1.size - t1.written.length
  · rw [if_pos hk] at hsteps
    have hk' : k ≤ bp1.size := by simpa [t1] using hk
    let t1k : WriteTask := { t1 with written := w1.fileWriteBuffer.take (t1.written.length + k) }
    let w2 : FileWriter := { w1 with fileWriteThread := some t1k }
    refine ⟨w1, w2, w3, _, hcall1, hsteps, ?_, rfl, rfl, rfl, hdestroy, ?_, rfl⟩
    · rw [writeImageFile_running w2 t1k f2 bp2 rfl hlen1 (le_of_eq hlen1.symm)]
      · exact hfin
      · simp only [t1k, t1, w1, List.length_take, List.length_nil, Nat.zero_add]
        omega
      · simp [t1k, t1, w2, w1, List.take_take]
    · simp [FileWriter.finish, w3, t2, fitsFile]
  · rw [if_neg hk] at hsteps
    refine ⟨w1, _, w3, _, hcall1, hsteps, hfin, rfl, rfl, rfl, hdestroy, ?_, rfl⟩
    simp [FileWriter.finish, w3, t2, fitsFile]

/-- C28 on two frames of four bytes: with two bytes of the first file written when the
second call comes, the disk ends with the two payloads in the order of the calls. -/
theorem writeImageFile_serialized_witness :
    ∃ w1 w2 w3 w4,
      ({} : FileWriter).writeImageFile "/data/Light_001.fits" fitsFrame = some (true, w1) ∧
      w1.threadSteps 2 = some w2 ∧
      w2.writeImageFile "/data/Light_002.fits" secondFrame = some (true, w3) ∧
      w3.disk = [] ++ [fitsFile "/data/Light_001.fits" fitsFrame ""] ∧
      w3.fileWriteThread =
        some { filename := "/data/Light_002.fits", size := secondFrame.size
               add_fits_keywords := true, filter := "" } ∧
      w3.fileWriteBuffer = secondFrame.blob.take secondFrame.size ∧
      w3.destroy = some w4 ∧
      w4.disk = [] ++ [fitsFile "/data/Light_001.fits" fitsFrame "",
                       fitsFile "/data/Light_002.fits" secondFrame ""] ∧
      w4.fileWriteThread = none :=
  writeImageFile_serialized {} "/data/Light_001.fits" "/data/Light_002.fits" fitsFrame
    secondFrame 2 rfl rfl (by decide) (by decide)

theorem toInt_natCast (n : Nat) : toInt (n : ℚ) = (n : Int) := by
  have := toInt_intCast (n : Int)
  simpa using this

/-- What `getImageInfo` reads back after `setImageInfo`, for an info vector with six fields
or more: width, height and bit depth as set, the value of `std::hypotf (pixelX, pixelY)` as
`pixelX`, and the `pixelX` that was set as `pixelY`. -/
theorem setImageInfo_then_getImageInfo (ext : Collaborators) (ccd : CCD) (type : ChipType)
    (infoProp : INumberVectorProperty) (f0 f1 f2 f3 f4 f5 : INumber) (rest : List INumber)
    (width height : Nat) (pixelX pixelY : ℚ) (bitdepth : Nat)
    (hprop : ccd.chipNumber type "CCD_INFO" "GUIDER_INFO" = some infoProp)
    (hnp : infoProp.np = f0 :: f1 :: f2 :: f3 :: f4 :: f5 :: rest) :
    ∃ ccd', CCDChip.setImageInfo ext ccd type width height pixelX pixelY bitdepth =
        some (true, ccd') ∧
      CCDChip.getImageInfo ccd' type =
        some (true, some { width := width, height := height,
                           pixelX := ext.hypotf pixelX pixelY, pixelY := pixelX,
                           bitdepth := bitdepth }) := by
  let info : INumberVectorProperty :=
    { infoProp with
      np := { f0 with value := width } :: { f1 with value := height } ::
        { f2 with value := ext.hypotf pixelX pixelY } :: { f3 with value := pixelX } ::
        { f4 with value := pixelY } :: { f5 with value := bitdepth } :: rest }
  have hset : CCDChip.setImageInfo ext ccd type width height pixelX pixelY bitdepth =
      some (true, ccd.storeAndSendNumber info) := by
    simp [CCDChip.setImageInfo, hprop, INumberVectorProperty.setValueAt, hnp, info]
  refine ⟨_, hset, ?_⟩
  have hget : (ccd.storeAndSendNumber info).chipNumber type "CCD_INFO" "GUIDER_INFO" =
      some info := chipNumber_storeAndSendNumber ccd type _ _ infoProp info hprop rfl
  simp [CCDChip.getImageInfo, hget, info, toInt_natCast]

/-- C29 fails in the code: `getImageInfo` reads `pixelX` from field 2 and `pixelY` from
field 3 of the info vector, where `setImageInfo` has stored the diagonal and `pixelX`.  On
the camera with a `CCD_INFO` vector, after `setImageInfo (1280, 1024, 3, 4, 16)` the call
`getImageInfo` answers width 1280, height 1024 and 16 bits, but `pixelX = hypotf (3, 4)` and
`pixelY = 3`. -/
theorem getImageInfo_after_setImageInfo (ext : Collaborators) :
    ∃ ccd', CCDChip.setImageInfo ext infoCamera ChipType.PRIMARY_CCD 1280 1024 3 4 16 =
        some (true, ccd') ∧
      CCDChip.getImageInfo ccd' ChipType.PRIMARY_CCD =
        some (true, some { width := 1280, height := 1024, pixelX := ext.hypotf 3 4,
                           pixelY := 3, bitdepth := 16 }) ∧
      (3 : ℚ) ≠ 4 := by
  obtain ⟨c, h1, h2⟩ := setImageInfo_then_getImageInfo ext infoCamera ChipType.PRIMARY_CCD
    { name := "CCD_INFO", p := IPerm.IP_RO
      np := [ { name := "CCD_MAX_X", value := 1280 },
              { name := "CCD_MAX_Y", value := 1024 },
              { name := "CCD_PIXEL_SIZE", value := 26 / 5 },
              { name := "CCD_PIXEL_SIZE_X", value := 26 / 5 },
              { name := "CCD_PIXEL_SIZE_Y", value := 26 / 5 },
              { name := "CCD_BITSPERPIXEL", value := 16 } ] }
    _ _ _ _ _ _ [] 1280 1024 3 4 16 (by rfl) rfl
  exact ⟨c, h1, h2, by norm_num⟩

theorem materializeBLOB_emitted (ext : Collaborators) (opts : Options) (ccd : CCD)
    (targetChip : CCDChip) (format : String) (bp : IBLOB) (is_fits : Bool) (filename : String)
    (ccd' : CCD) (h : ccd.materializeBLOB ext opts targetChip format bp is_fits =
      some (filename, ccd')) : ccd'.emitted = ccd.emitted := by
  unfold CCD.materializeBLOB at h
  split at h
  · simp only at h
    split at h
    · simp at h
    · split at h
      · simp at h
      · simp only [Option.some.injEq, Prod.mk.injEq] at h
        rw [← h.2, writeImageFile_emitted]
  · simp only [Option.some.injEq, Prod.mk.injEq] at h
    rw [← h.2]

/-- The signals of `loadImageInView`: with a view for the capture mode, the alert or the
pair blob-updated, new-image; without one, none. -/
theorem loadImageInView_emitted (ext : Collaborators) (ccd : CCD) (bp : IBLOB)
    (which : ChipType) (targetChip : CCDChip) (data : FITSData) :
    ∃ tail, (ccd.loadImageInView ext bp which targetChip data).emitted = ccd.emitted ++ tail ∧
      (targetChip.getImageView targetChip.captureMode = true →
        ∃ s ∈ tail, s.isReceipt which = true) ∧
      (targetChip.getImageView targetChip.captureMode = false → tail = []) := by
  unfold CCD.loadImageInView
  by_cases hview : targetChip.getImageView targetChip.captureMode = true
  · rw [if_pos hview]
    by_cases hload : ext.viewLoadData data = false
    · rw [if_pos hload]
      exact ⟨[Signal.newExposureValue (some which) 0 IPState.IPS_ALERT], rfl,
        fun _ => ⟨_, List.mem_singleton_self _, by simp [Signal.isReceipt]⟩,
        fun h => by rw [hview] at h; exact absurd h (by decide)⟩
    · rw [if_neg hload]
      exact ⟨[Signal.BLOBUpdated (some bp), Signal.newImage (some data)],
        by simp [CCD.emit],
        fun _ => ⟨_, List.mem_cons_self _ _, rfl⟩,
        fun h => by rw [hview] at h; exact absurd h (by decide)⟩
  · rw [if_neg hview]
    exact ⟨[], by simp, fun h => absurd h hview, fun _ => rfl⟩

/-- The signals of `handleImage`: one that tells what became of the payload, unless the
capture mode is focus, guide or align and the chip has no view for it; then none. -/
theorem handleImage_emitted (ext : Collaborators) (opts : Options) (ccd : CCD)
    (which : ChipType) (targetChip : CCDChip) (bp : IBLOB) (data : FITSData) :
    ∃ tail, (ccd.handleImage ext opts which targetChip bp data).emitted = ccd.emitted ++ tail ∧
      ((targetChip.captureMode = FITSMode.FITS_NORMAL ∨
          targetChip.captureMode = FITSMode.FITS_CALIBRATE ∨
          targetChip.getImageView targetChip.captureMode = true) →
        ∃ s ∈ tail, s.isReceipt which = true) ∧
      (¬ (targetChip.captureMode = FITSMode.FITS_NORMAL ∨
          targetChip.captureMode = FITSMode.FITS_CALIBRATE ∨
          targetChip.getImageView targetChip.captureMode = true) → tail = []) := by
  unfold CCD.handleImage
  simp only
  generalize hccd : (if ((opts.useFITSViewer || targetChip.batchMode == false) &&
      !ccd.viewerWindow && decide (targetChip.captureMode = FITSMode.FITS_NORMAL ∨
        targetChip.captureMode = FITSMode.FITS_CALIBRATE)) = true then
      { ccd with viewerWindow := true, normalTabID := -1, calibrationTabID := -1 }
      else ccd) = ccd1
  have he : ccd1.emitted = ccd.emitted := by
    rw [← hccd]
    split <;> rfl
  rw [← he]
  clear hccd he
  generalize ({ data with device := ccd1.deviceName, blobVector := bp.bvp.name,
                          blobElement := bp.name, chip := some targetChip.type } : FITSData) =
    data1
  by_cases hnc : targetChip.captureMode = FITSMode.FITS_NORMAL ∨
      targetChip.captureMode = FITSMode.FITS_CALIBRATE
  · have hcond : targetChip.captureMode = FITSMode.FITS_NORMAL ∨
        targetChip.captureMode = FITSMode.FITS_CALIBRATE ∨
        targetChip.getImageView targetChip.captureMode = true := by
      rcases hnc with h | h
      · exact Or.inl h
      · exact Or.inr (Or.inl h)
    simp only [hnc, decide_True, if_true]
    split
    · split
      · exact ⟨[Signal.newExposureValue (some which) 0 IPState.IPS_ALERT], rfl,
          fun _ => ⟨_, List.mem_singleton_self _, by simp [Signal.isReceipt]⟩,
          fun h => absurd hcond h⟩
      · refine ⟨[Signal.BLOBUpdated (some bp), Signal.newImage (some data1)], ?_,
          fun _ => ⟨_, List.mem_cons_self _ _, rfl⟩, fun h => absurd hcond h⟩
        simp only [CCD.emit, List.append_assoc, List.singleton_append]
        congr 1
        cases which <;> split <;> rfl
    · exact ⟨[Signal.BLOBUpdated (some bp), Signal.newImage (some data1)], by simp [CCD.emit],
        fun _ => ⟨_, List.mem_cons_self _ _, rfl⟩, fun h => absurd hcond h⟩
  · simp only [hnc, decide_False, if_false, Bool.false_eq_true]
    obtain ⟨tail, h1, h2, h3⟩ := loadImageInView_emitted ext ccd1 bp which targetChip data1
    refine ⟨tail, h1, ?_, ?_⟩
    · intro hc
      rcases hc with h | h | h
      · exact absurd (Or.inl h) hnc
      · exact absurd (Or.inr h) hnc
      · exact h2 h
    · intro hc
      apply h3
      cases hv : targetChip.getImageView targetChip.captureMode with
      | false => rfl
      | true => exact absurd (Or.inr (Or.inr hv)) hc

/-- The signals of the display block of `processBLOB`. -/
theorem displayBLOB_emitted (ext : Collaborators) (opts : Options) (ccd : CCD)
    (which : ChipType) (targetChip : CCDChip) (bp : IBLOB) (shortFormat filename : String) :
    ∃ tail, (ccd.displayBLOB ext opts which targetChip bp shortFormat filename).emitted =
        ccd.emitted ++ tail ∧
      ((targetChip.captureMode = FITSMode.FITS_NORMAL ∨
          targetChip.captureMode = FITSMode.FITS_CALIBRATE ∨
          targetChip.getImageView targetChip.captureMode = true) →
        ∃ s ∈ tail, s.isReceipt which = true) ∧
      (¬ (targetChip.captureMode = FITSMode.FITS_NORMAL ∨
          targetChip.captureMode = FITSMode.FITS_CALIBRATE ∨
          targetChip.getImageView targetChip.captureMode = true) →
        (ext.loadFromBuffer (bp.blob.take bp.size) shortFormat filename = true → tail = []) ∧
        (ext.loadFromBuffer (bp.blob.take bp.size) shortFormat filename = false →
          ∃ s ∈ tail, s.isReceipt which = true)) := by
  unfold CCD.displayBLOB
  split
  · rename_i hskip
    have hcond : targetChip.captureMode = FITSMode.FITS_NORMAL ∨
        targetChip.captureMode = FITSMode.FITS_CALIBRATE ∨
        targetChip.getImageView targetChip.captureMode = true := by
      rcases hskip.1 with h | h
      · exact Or.inl h
      · exact Or.inr (Or.inl h)
    exact ⟨[Signal.BLOBUpdated (some bp), Signal.newImage none], by simp [CCD.emit],
      fun _ => ⟨_, List.mem_cons_self _ _, rfl⟩, fun h => absurd hcond h⟩
  · split
    · rename_i hdec
      exact ⟨[Signal.newExposureValue (some which) 0 IPState.IPS_ALERT], rfl,
        fun _ => ⟨_, List.mem_singleton_self _, by simp [Signal.isReceipt]⟩,
        fun _ => ⟨fun h => by rw [hdec] at h; exact absurd h (by decide),
          fun _ => ⟨_, List.mem_singleton_self _, by simp [Signal.isReceipt]⟩⟩⟩
    · rename_i hdec
      obtain ⟨tail, h1, h2, h3⟩ := handleImage_emitted ext opts ccd which targetChip bp
        { mode := targetChip.captureMode }
      exact ⟨tail, h1, h2, fun hc => ⟨fun _ => h3 hc, fun h => absurd h hdec⟩⟩

/-- C30, as stated, fails: while the focus module captures and the chip has no focus view
yet, an accepted FITS payload that decodes is handled without any signal. -/
theorem processBLOB_silent_counterexample :
    blobTypeInOrder sampleCollaborators.supportedImageFormats (toLower fitsFrame.format) =
      BlobType.BLOB_FITS ∧
    focusCamera.primaryChip.captureMode = FITSMode.FITS_FOCUS ∧
    focusCamera.primaryChip.getImageView FITSMode.FITS_FOCUS = false ∧
    (focusCamera.processBLOB sampleCollaborators {} fitsFrame).map (fun c => c.emitted) =
      some [] := by
  decide!

theorem materializeBLOB_fails (ext : Collaborators) (opts : Options) (ccd : CCD)
    (targetChip : CCDChip) (format : String) (bp : IBLOB) (is_fits : Bool)
    (hbatch : targetChip.batchMode = true)
    (hfile : ext.canOpenForWriting (ccd.generateFilename ext opts format true).2 = false) :
    ccd.materializeBLOB ext opts targetChip format bp is_fits = none := by
  have hgen : (ccd.generateFilename ext opts format true).1 = false := hfile
  simp [CCD.materializeBLOB, hbatch, hgen]

/-- C30, amended. An accepted payload classified image, FITS or raw, whose target chip
exists, is handled, and the signals it adds hold a blob-updated signal, a new-image signal
or the exposure progress `(chip, 0, alert)` whenever the capture mode is normal or
calibrate, or the chip has a view for its capture mode.  In every mode a sequence file that
cannot be opened is reported by the one signal blob-updated (null).  In the modes focus,
guide and align without a view for the mode, once the file is created, a payload that does
not decode is reported by the one signal `(chip, 0, alert)`, and a payload that decodes is
dropped without any signal. -/
theorem processBLOB_receipt (ext : Collaborators) (opts : Options) (ccd : CCD) (bp : IBLOB)
    (chip : CCDChip) (haccept : ¬ (bp.bvp.p = IPerm.IP_WO ∨ bp.size = 0))
    (hnostream : ¬ (containsStr (toLower bp.format) "stream" = true ∧
      ccd.streamWindow.isSome = true))
    (hkind : blobTypeInOrder ext.supportedImageFormats (toLower bp.format) ≠
      BlobType.BLOB_OTHER)
    (hchip : ccd.getChip (if bp.name = "CCD2" then ChipType.GUIDE_CCD
      else ChipType.PRIMARY_CCD) = some chip) :
    ∃ ccd' tail, ccd.processBLOB ext opts bp = some ccd' ∧
      ccd'.emitted = ccd.emitted ++ tail ∧
      ((chip.captureMode = FITSMode.FITS_NORMAL ∨ chip.captureMode = FITSMode.FITS_CALIBRATE ∨
          chip.getImageView chip.captureMode = true) →
        ∃ s ∈ tail, s.isReceipt (if bp.name = "CCD2" then ChipType.GUIDE_CCD
          else ChipType.PRIMARY_CCD) = true) ∧
      (tail = [] ∨ ∃ s ∈ tail, s.isReceipt (if bp.name = "CCD2" then ChipType.GUIDE_CCD
          else ChipType.PRIMARY_CCD) = true) ∧
      (¬ (chip.captureMode = FITSMode.FITS_NORMAL ∨
          chip.captureMode = FITSMode.FITS_CALIBRATE ∨
          chip.getImageView chip.captureMode = true) →
        (chip.batchMode = true →
          ext.canOpenForWriting (ccd.generateFilename ext opts (toLower bp.format) true).2 =
            true) →
        (∀ filename, ext.loadFromBuffer (bp.blob.take bp.size) (mid1 (toLower bp.format))
          filename = true) →
        tail = []) ∧
      (chip.batchMode = true →
        ext.canOpenForWriting (ccd.generateFilename ext opts (toLower bp.format) true).2 =
          false →
        tail = [Signal.BLOBUpdated none]) ∧
      (¬ (chip.captureMode = FITSMode.FITS_NORMAL ∨
          chip.captureMode = FITSMode.FITS_CALIBRATE ∨
          chip.getImageView chip.captureMode = true) →
        (chip.batchMode = true →
          ext.canOpenForWriting (ccd.generateFilename ext opts (toLower bp.format) true).2 =
            true) →
        (∀ filename, ext.loadFromBuffer (bp.blob.take bp.size) (mid1 (toLower bp.format))
          filename = false) →
        tail = [Signal.newExposureValue
          (some (if bp.name = "CCD2" then ChipType.GUIDE_CCD else ChipType.PRIMARY_CCD)) 0
          IPState.IPS_ALERT]) := by
  generalize hwhich : (if bp.name = "CCD2" then ChipType.GUIDE_CCD
    else ChipType.PRIMARY_CCD) = which at hchip ⊢
  unfold CCD.processBLOB
  rw [if_neg haccept]
  simp only []
  rw [if_neg hnostream, blobTypeInOrder_eq]
  generalize blobTypeInOrder ext.supportedImageFormats (toLower bp.format) = BT at hkind
  rw [if_neg hkind, hwhich]
  have hchip' : CCD.getChip { ccd with BType := BT } which = some chip := by
    rw [← hchip]
    cases which <;> rfl
  simp only [hchip']
  cases hmat : CCD.materializeBLOB ext opts { ccd with BType := BT } chip (toLower bp.format)
      bp (BT = BlobType.BLOB_FITS) with
  | none =>
    have hnofile : ¬ (chip.batchMode = true →
        ext.canOpenForWriting (ccd.generateFilename ext opts (toLower bp.format) true).2 =
          true) := by
      intro hfile
      obtain ⟨fn, c3, hsome, _⟩ := materializeBLOB_succeeds ext opts { ccd with BType := BT }
        chip (toLower bp.format) bp (BT = BlobType.BLOB_FITS) hfile
      rw [hmat] at hsome
      exact absurd hsome (by simp)
    exact ⟨_, [Signal.BLOBUpdated none], rfl, rfl,
      fun _ => ⟨_, List.mem_singleton_self _, rfl⟩,
      Or.inr ⟨_, List.mem_singleton_self _, rfl⟩,
      fun _ hfile _ => absurd hfile hnofile,
      fun _ _ => rfl,
      fun _ hfile _ => absurd hfile hnofile⟩
  | some r =>
    obtain ⟨filename, ccd3⟩ := r
    have he3 : ccd3.emitted = ccd.emitted :=
      (materializeBLOB_emitted ext opts _ _ _ _ _ _ _ hmat).trans rfl
    obtain ⟨tail, h1, h2, h3⟩ := displayBLOB_emitted ext opts
      (ccd3.announceBLOB ext chip filename) which chip bp (mid1 (toLower bp.format)) filename
    have h1' := h1
    rw [announceBLOB_emitted, he3] at h1
    refine ⟨_, tail, rfl, h1, h2, ?_, ?_, ?_, ?_⟩
    · by_cases hc : chip.captureMode = FITSMode.FITS_NORMAL ∨
          chip.captureMode = FITSMode.FITS_CALIBRATE ∨
          chip.getImageView chip.captureMode = true
      · exact Or.inr (h2 hc)
      · cases hd : ext.loadFromBuffer (bp.blob.take bp.size) (mid1 (toLower bp.format))
            filename with
        | true => exact Or.inl ((h3 hc).1 hd)
        | false => exact Or.inr ((h3 hc).2 hd)
    · intro hc _ hdecode
      exact (h3 hc).1 (hdecode filename)
    · intro hbatch hfile
      have hnone := materializeBLOB_fails ext opts { ccd with BType := BT } chip
        (toLower bp.format) bp (BT = BlobType.BLOB_FITS) hbatch hfile
      rw [hmat] at hnone
      exact absurd hnone (by simp)
    · intro hc _ hdecode
      have hshown : ¬ ((chip.captureMode = FITSMode.FITS_NORMAL ∨
          chip.captureMode = FITSMode.FITS_CALIBRATE) ∧
          opts.useFITSViewer = false ∧ opts.useSummaryPreview = false ∧
          chip.batchMode = true) := by
        intro hs
        rcases hs.1 with h | h
        · exact hc (Or.inl h)
        · exact hc (Or.inr (Or.inl h))
      rw [displayBLOB_decode_failure ext opts _ which chip bp _ filename hshown
        (hdecode filename)] at h1'
      exact (List.append_cancel_left h1').symm

/-- C30, amended, on the sample camera in the normal capture mode: the FITS frame is shown
in the viewer and announced by the pair blob-updated, new-image. -/
theorem processBLOB_receipt_witness :
    ∃ ccd' tail, sampleCamera.processBLOB sampleCollaborators {} fitsFrame = some ccd' ∧
      ccd'.emitted = [] ++ tail ∧
      ∃ s ∈ tail, s.isReceipt ChipType.PRIMARY_CCD = true := by
  obtain ⟨c, tail, h1, h2, h3, _⟩ := processBLOB_receipt sampleCollaborators {} sampleCamera
    fitsFrame sampleCamera.primaryChip (by decide) (by decide) (by decide) rfl
  exact ⟨c, tail, h1, h2, h3 (Or.inl rfl)⟩

end ISD
